import Mathlib

/-!
# Physics ownership and divergence detection of `EntityMotionState`

A shallow embedding of `libraries/physics/src/EntityMotionState.cpp` and of
`ShapeInfoUtil::createConvexHull` (`libraries/physics/src/ShapeInfoUtil.cpp`).

Conventions of the embedding:

* C++ `float` is idealised as an exact rational (`ℚ`): comparisons against the
  policy constants (`0.5f`, `0.001f`, `0.99f`, `0.1f`) are comparisons of
  rationals.  Rounding, infinities and NaN are outside the model.
* `uint32_t` and `quint8` counters are natural numbers with explicit wrap-around
  (`% 2^32`, `% 2^8`); the conversion of a `uint32_t` difference to `int` is
  two's complement.
* Library routines that are not part of this repository's sources (`powf`,
  the square root behind `glm::length`, `glm::normalize`,
  `computeBulletRotationStep`) and process-wide values
  (`PHYSICS_ENGINE_FIXED_SUBSTEP`, the world simulation step, the world offset,
  the clock, the send-physics-updates flag) are fields of `Env`.
* Code of other files that the sources call is a field of `Env` as well: the
  dirty-bit constants of `EntityItem.h`, `EntityItem::isMoving`,
  `simulateKinematicMotion` and `computeShapeInfo`, the `ObjectMotionState`
  halves of the two change handlers, Bullet's `setActivationState` and
  `activate`, and the margin of a fresh `btConvexHullShape`.
* `bulletToGLM` / `glmToBullet` only change the representation of a vector or a
  quaternion; one vector type and one quaternion type are used throughout.
* A pointer that may be null (`_entity`, `_body`) is an `Option`.  An operation
  returns `none` where the source would fail an `assert` or dereference null.
-/

namespace Hifi

/-! ## Vectors and quaternions (`glm::vec3`, `glm::quat`) -/

/-- Three-component vector, `glm::vec3` / `btVector3`. -/
structure Vec3 where
  x : ℚ
  y : ℚ
  z : ℚ
deriving DecidableEq

/-- Quaternion, `glm::quat` / `btQuaternion`. -/
structure Quat where
  w : ℚ
  x : ℚ
  y : ℚ
  z : ℚ
deriving DecidableEq

namespace Vec3

/-- The vector `glm::vec3(0.0f)`. -/
def zero : Vec3 := ⟨0, 0, 0⟩

/-- Componentwise sum. -/
def add (a b : Vec3) : Vec3 := ⟨a.x + b.x, a.y + b.y, a.z + b.z⟩

/-- Componentwise difference. -/
def sub (a b : Vec3) : Vec3 := ⟨a.x - b.x, a.y - b.y, a.z - b.z⟩

/-- Product of a vector with a scalar. -/
def scale (a : Vec3) (k : ℚ) : Vec3 := ⟨a.x * k, a.y * k, a.z * k⟩

/-- Squared length, `glm::length2`. -/
def length2 (a : Vec3) : ℚ := a.x * a.x + a.y * a.y + a.z * a.z

/-- Squared distance, `glm::distance2`. -/
def distance2 (a b : Vec3) : ℚ := length2 (sub a b)

end Vec3

namespace Quat

/-- The identity rotation, the default-constructed `glm::quat`. -/
def identity : Quat := ⟨1, 0, 0, 0⟩

/-- Four-component dot product, `glm::dot` on quaternions. -/
def dot (p q : Quat) : ℚ := p.w * q.w + p.x * q.x + p.y * q.y + p.z * q.z

/-- Hamilton product, `operator*` on `glm::quat`. -/
def mul (p q : Quat) : Quat :=
  ⟨p.w * q.w - p.x * q.x - p.y * q.y - p.z * q.z,
   p.w * q.x + p.x * q.w + p.y * q.z - p.z * q.y,
   p.w * q.y + p.y * q.w + p.z * q.x - p.x * q.z,
   p.w * q.z + p.z * q.w + p.x * q.y - p.y * q.x⟩

end Quat

/-! ## Identifiers, the entity, the rigid body -/

/-- A `QUuid`; the null UUID is `0`. -/
abbrev QUuid := Nat

/-- The null UUID, `QUuid()`. -/
def QUuid.null : QUuid := 0

/-- The test `QUuid::isNull`. -/
def QUuid.isNull (u : QUuid) : Bool := u == 0

/-- The part of `EntityItem` that `EntityMotionState` reads and writes. -/
structure EntityItem where
  id : Nat
  name : String
  position : Vec3
  rotation : Quat
  velocity : Vec3
  angularVelocity : Vec3
  acceleration : Vec3
  gravity : Vec3
  simulatorID : QUuid
  dirtyFlags : Nat
  collisionsWillMove : Bool
  lastSimulated : Nat
  lastEdited : Nat
  lastBroadcast : Nat
deriving DecidableEq

/-- Activation states of a Bullet collision object. -/
inductive ActivationState where
  | ACTIVE_TAG
  | ISLAND_SLEEPING
  | WANTS_DEACTIVATION
  | DISABLE_DEACTIVATION
  | DISABLE_SIMULATION
deriving DecidableEq

/-- The part of `btRigidBody` that `EntityMotionState` reads and writes. -/
structure RigidBody where
  origin : Vec3
  rotation : Quat
  linearVelocity : Vec3
  angularVelocity : Vec3
  linearDamping : ℚ
  angularDamping : ℚ
  activationState : ActivationState
  collisionFlags : Nat
deriving DecidableEq

/-- Bullet's `btCollisionObject::isActive`: neither sleeping nor disabled. -/
def RigidBody.isActive (b : RigidBody) : Bool :=
  b.activationState != ActivationState.ISLAND_SLEEPING
    && b.activationState != ActivationState.DISABLE_SIMULATION

/-- Motion classification of a simulated body. -/
inductive MotionType where
  | MOTION_TYPE_STATIC
  | MOTION_TYPE_DYNAMIC
  | MOTION_TYPE_KINEMATIC
deriving DecidableEq

/-- Tag of the motion-state kind (`_type`). -/
inductive MotionStateType where
  | MOTION_STATE_TYPE_INVALID
  | MOTION_STATE_TYPE_ENTITY
deriving DecidableEq

/-! ## The motion state -/

/-- Fields of `EntityMotionState`, those inherited from `ObjectMotionState` included. -/
structure EntityMotionState where
  entity : Option EntityItem
  body : Option RigidBody
  type : MotionStateType
  motionType : MotionType
  sentActive : Bool
  numNonMovingUpdates : Nat
  lastStep : Nat
  serverPosition : Vec3
  serverRotation : Quat
  serverVelocity : Vec3
  serverAngularVelocity : Vec3
  serverGravity : Vec3
  serverAcceleration : Vec3
  accelerationNearlyGravityCount : Nat
  candidateForOwnership : Bool
  loopsSinceOwnershipBid : Nat
  loopsWithoutOwner : Nat
  lastKinematicStep : Nat
  lastMeasureStep : Nat
  lastVelocity : Vec3
  measuredAcceleration : Vec3
deriving DecidableEq

/-- Kinds of collision shape described by a `ShapeInfo`. -/
inductive ShapeType where
  | SHAPE_TYPE_NONE
  | SHAPE_TYPE_BOX
  | SHAPE_TYPE_SPHERE
  | SHAPE_TYPE_CAPSULE_Y
  | SHAPE_TYPE_COMPOUND
deriving DecidableEq

/-- A shape descriptor, `ShapeInfo`: the kind, the half extents and the point clouds. -/
structure ShapeInfo where
  type : ShapeType
  halfExtents : Vec3
  points : List (List Vec3)
deriving DecidableEq

/-- What the code takes from outside this file: library routines and process-wide values,
the constants of `EntityItem.h`, the methods of `EntityItem` and of the base class
`ObjectMotionState`, and the mutators of Bullet's rigid body. -/
structure Env where
  PHYSICS_ENGINE_FIXED_SUBSTEP : ℚ
  powf : ℚ → ℚ → ℚ
  sqrt : ℚ → ℚ
  normalize : Quat → Quat
  computeBulletRotationStep : Vec3 → ℚ → Quat
  worldSimulationStep : Nat
  worldOffset : Vec3
  usecTimestampNow : Nat
  sendPhysicsUpdates : Bool
  sessionUUID : QUuid
  DIRTY_POSITION : Nat
  DIRTY_ROTATION : Nat
  DIRTY_LINEAR_VELOCITY : Nat
  DIRTY_ANGULAR_VELOCITY : Nat
  DIRTY_MOTION_TYPE : Nat
  DIRTY_PHYSICS_ACTIVATION : Nat
  DIRTY_SIMULATOR_ID : Nat
  entityIsMoving : EntityItem → Bool
  simulateKinematicMotion : ℚ → EntityItem → EntityItem
  computeShapeInfo : EntityItem → ShapeInfo → ShapeInfo
  objectHandleEasyChanges : Nat → Option EntityItem → Option RigidBody → Option RigidBody
  objectHandleHardAndEasyChanges : Nat → EntityMotionState → Option EntityMotionState
  setActivationState : ActivationState → RigidBody → RigidBody
  activate : RigidBody → RigidBody
  CONVEX_DISTANCE_MARGIN : ℚ

/-! ## Machine integers -/

/-- Number of values of a `uint32_t`. -/
def UINT32_SIZE : Nat := 4294967296

/-- Difference of two `uint32_t` values, wrapping. -/
def subU32 (a b : Nat) : Nat := (a % UINT32_SIZE + UINT32_SIZE - b % UINT32_SIZE) % UINT32_SIZE

/-- Increment of a `uint32_t`, wrapping. -/
def incU32 (a : Nat) : Nat := (a + 1) % UINT32_SIZE

/-- Conversion of a `uint32_t` value to `int` (two's complement). -/
def toInt32 (n : Nat) : Int := if n < 2147483648 then (n : Int) else (n : Int) - 4294967296

/-! ## `remoteSimulationOutOfSync` -/

/-- The constant `INACTIVE_UPDATE_PERIOD = 0.5f`. -/
def INACTIVE_UPDATE_PERIOD : ℚ := 1 / 2

/-- The constant `MAX_POSITION_ERROR_SQUARED = 0.001f`. -/
def MAX_POSITION_ERROR_SQUARED : ℚ := 1 / 1000

/-- The constant `MIN_ROTATION_DOT = 0.99f`. -/
def MIN_ROTATION_DOT : ℚ := 99 / 100

/-- The local `numSteps`: `int numSteps = simulationStep - _lastStep`. -/
def numStepsSince (simulationStep lastStep : Nat) : Int := toInt32 (subU32 simulationStep lastStep)

/-- The local `dt`: `(float)(numSteps) * PHYSICS_ENGINE_FIXED_SUBSTEP`. -/
def elapsedTime (env : Env) (simulationStep lastStep : Nat) : ℚ :=
  (numStepsSince simulationStep lastStep : ℚ) * env.PHYSICS_ENGINE_FIXED_SUBSTEP

/-- Lines 201-209: the belief is taken from the body, the step is recorded. -/
def bootstrapBelief (body : RigidBody) (simulationStep : Nat) (s : EntityMotionState) :
    EntityMotionState :=
  { s with
    serverPosition := body.origin
    serverRotation := body.rotation
    serverVelocity := body.linearVelocity
    serverAngularVelocity := body.angularVelocity
    lastStep := simulationStep
    sentActive := false }

/-- Lines 235-240: record the step, then integrate the belief's velocity and position
when the belief velocity is not zero. -/
def extrapolateLinear (env : Env) (body : RigidBody) (simulationStep : Nat) (dt : ℚ)
    (s : EntityMotionState) : EntityMotionState :=
  let s1 := { s with lastStep := simulationStep }
  if Vec3.length2 s1.serverVelocity > 0 then
    let v1 := Vec3.add s1.serverVelocity (Vec3.scale s1.serverAcceleration dt)
    let v2 := Vec3.scale v1 (env.powf (1 - body.linearDamping) dt)
    { s1 with
      serverVelocity := v2
      serverPosition := Vec3.add s1.serverPosition (Vec3.scale v2 dt) }
  else s1

/-- Line 278: one rotation integration substep of the belief. -/
def rotationStep (env : Env) (angularVelocity : Vec3) (rotation : Quat) : Quat :=
  env.normalize
    (Quat.mul (env.computeBulletRotationStep angularVelocity env.PHYSICS_ENGINE_FIXED_SUBSTEP)
      rotation)

/-- Lines 270-280: attenuate the belief's angular velocity and integrate the belief's
rotation over `numSteps` substeps, when the belief angular velocity is not zero. -/
def extrapolateAngular (env : Env) (body : RigidBody) (numSteps : Int) (dt : ℚ)
    (s : EntityMotionState) : EntityMotionState :=
  if Vec3.length2 s.serverAngularVelocity > 0 then
    let attenuation := env.powf (1 - body.angularDamping) dt
    let w := Vec3.scale s.serverAngularVelocity attenuation
    { s with
      serverAngularVelocity := w
      serverRotation := Nat.iterate (rotationStep env w) numSteps.toNat s.serverRotation }
  else s

/-- Line 300: the rotation test, `fabsf(glm::dot(actual, predicted)) < MIN_ROTATION_DOT`. -/
def rotationOutOfSync (actualRotation predictedRotation : Quat) : Bool :=
  decide (|Quat.dot actualRotation predictedRotation| < MIN_ROTATION_DOT)

/-- The method `EntityMotionState::remoteSimulationOutOfSync`: the returned flag and the
motion state afterwards; `none` when `assert(_body)` fails. -/
def remoteSimulationOutOfSync (env : Env) (simulationStep : Nat) (s : EntityMotionState) :
    Option (Bool × EntityMotionState) :=
  match s.body with
  | none => none
  | some body =>
    if s.lastStep = 0 then
      some (false, bootstrapBelief body simulationStep s)
    else
      let numSteps := numStepsSince simulationStep s.lastStep
      let dt := elapsedTime env simulationStep s.lastStep
      if !s.sentActive then
        some (decide (dt > INACTIVE_UPDATE_PERIOD), s)
      else if !body.isActive then
        some (true, s)
      else
        let s1 := extrapolateLinear env body simulationStep dt s
        let dx2 := Vec3.distance2 body.origin s1.serverPosition
        if dx2 > MAX_POSITION_ERROR_SQUARED then
          some (true, s1)
        else
          let s2 := extrapolateAngular env body numSteps dt s1
          some (rotationOutOfSync body.rotation s2.serverRotation, s2)

/-! ## `shouldSendUpdate` -/

/-- The constant `FRAMES_BETWEEN_OWNERSHIP_CLAIMS = 30`. -/
def FRAMES_BETWEEN_OWNERSHIP_CLAIMS : Nat := 30

/-- Lines 320-332: the bid of a session that does not own the simulation. -/
def ownershipBid (s : EntityMotionState) : Bool × EntityMotionState :=
  if s.candidateForOwnership then
    let s1 := { s with
      candidateForOwnership := false
      loopsSinceOwnershipBid := incU32 s.loopsSinceOwnershipBid }
    if s1.loopsSinceOwnershipBid > FRAMES_BETWEEN_OWNERSHIP_CLAIMS then
      (true, { s1 with loopsSinceOwnershipBid := 0 })
    else
      (false, { s1 with candidateForOwnership := false })
  else
    (false, { s with candidateForOwnership := false })

/-- The method `EntityMotionState::shouldSendUpdate`: the returned flag and the motion state
afterwards; `none` when `assert(_entity)` or `assert(_body)` fails. -/
def shouldSendUpdate (env : Env) (simulationStep : Nat) (sessionID : QUuid)
    (s : EntityMotionState) : Option (Bool × EntityMotionState) :=
  match s.entity, s.body with
  | some entity, some _ =>
    match remoteSimulationOutOfSync env simulationStep s with
    | none => none
    | some (false, s1) => some (false, { s1 with candidateForOwnership := false })
    | some (true, s1) =>
      if entity.simulatorID = sessionID then
        some (true, { s1 with candidateForOwnership := false })
      else
        some (ownershipBid s1)
  | _, _ => none

/-! ## `measureBodyAcceleration` and `setWorldTransform` -/

/-- Quotient of a vector by a scalar. -/
def Vec3.divScalar (a : Vec3) (k : ℚ) : Vec3 := ⟨a.x / k, a.y / k, a.z / k⟩

/-- The method `EntityMotionState::measureBodyAcceleration`; `none` when `_body` is null
where it is dereferenced. -/
def measureBodyAcceleration (env : Env) (s : EntityMotionState) : Option EntityMotionState :=
  let thisStep := env.worldSimulationStep
  let numSubsteps := subU32 thisStep s.lastMeasureStep
  if numSubsteps > 0 then
    match s.body with
    | none => none
    | some body =>
      let dt := (numSubsteps : ℚ) * env.PHYSICS_ENGINE_FIXED_SUBSTEP
      let invDt := 1 / dt
      let velocity := body.linearVelocity
      some { s with
        lastMeasureStep := thisStep
        measuredAcceleration :=
          Vec3.scale
            (Vec3.sub (Vec3.divScalar velocity (env.powf (1 - body.linearDamping) dt))
              s.lastVelocity)
            invDt
        lastVelocity := velocity }
  else some s

/-- Modelled from the spec: `ObjectMotionState::getBodyLinearVelocity`, whose body is not
among the sources; the post-step writeback writes the body's velocities back to the entity. -/
def getBodyLinearVelocity (body : RigidBody) : Vec3 := body.linearVelocity

/-- Modelled from the spec: `ObjectMotionState::getBodyAngularVelocity`, whose body is not
among the sources; the post-step writeback writes the body's velocities back to the entity. -/
def getBodyAngularVelocity (body : RigidBody) : Vec3 := body.angularVelocity

/-- The constant `OWNERSHIP_BID_DELAY = 50`. -/
def OWNERSHIP_BID_DELAY : Nat := 50

/-- Lines 160-170: the steps-without-owner counter and the candidate flag. -/
def updateLoopsWithoutOwner (simulatorID : QUuid) (s : EntityMotionState) : EntityMotionState :=
  if simulatorID.isNull then
    let s1 := { s with loopsWithoutOwner := incU32 s.loopsWithoutOwner }
    if s1.loopsWithoutOwner > OWNERSHIP_BID_DELAY then
      { s1 with candidateForOwnership := true }
    else s1
  else
    { s with loopsWithoutOwner := 0 }

/-- The method `EntityMotionState::setWorldTransform`, called with the origin and the rotation
of `worldTrans`; `none` when `_body` is null where it is dereferenced. -/
def setWorldTransform (env : Env) (origin : Vec3) (rotation : Quat) (s : EntityMotionState) :
    Option EntityMotionState :=
  match s.entity with
  | none => some s
  | some _ =>
    match measureBodyAcceleration env s with
    | none => none
    | some s1 =>
      match s1.entity, s1.body with
      | some entity, some body =>
        let entity1 := { entity with
          position := Vec3.add origin env.worldOffset
          rotation := rotation
          velocity := getBodyLinearVelocity body
          angularVelocity := getBodyAngularVelocity body
          lastSimulated := env.usecTimestampNow }
        some (updateLoopsWithoutOwner entity1.simulatorID { s1 with entity := some entity1 })
      | _, _ => none

/-! ## `sendUpdate` -/

/-- The constant of line 21, `0.1f`. -/
def ACCELERATION_EQUIVALENT_EPSILON_RATIO : ℚ := 1 / 10

/-- The constant `STEPS_TO_DECIDE_BALLISTIC = 4`. -/
def STEPS_TO_DECIDE_BALLISTIC : Nat := 4

/-- The constant `DYNAMIC_LINEAR_VELOCITY_THRESHOLD = 0.05f`. -/
def DYNAMIC_LINEAR_VELOCITY_THRESHOLD : ℚ := 5 / 100

/-- The constant `DYNAMIC_ANGULAR_VELOCITY_THRESHOLD = 0.087266f`. -/
def DYNAMIC_ANGULAR_VELOCITY_THRESHOLD : ℚ := 87266 / 1000000

/-- Length of a vector, `glm::length`: the square root of the squared length. -/
def Env.length (env : Env) (a : Vec3) : ℚ := env.sqrt (Vec3.length2 a)

/-- Line 349: the measured acceleration is within the relative band around gravity. -/
def accelerationNearlyGravity (env : Env) (measuredAcceleration gravity : Vec3) : Bool :=
  let gravityLength := env.length gravity
  let accVsGravity := |env.length measuredAcceleration - gravityLength|
  decide (accVsGravity < ACCELERATION_EQUIVALENT_EPSILON_RATIO * gravityLength)

/-- Modelled from the spec: the header's `incrementAccelerationNearlyGravityCount`, which is
not among the sources; it advances the streak counter, a `quint8`. -/
def incrementAccelerationNearlyGravityCount (count : Nat) : Nat := (count + 1) % 256

/-- Lines 349-359: the streak of near-gravity measurements after this call. -/
def updateAccelerationNearlyGravityCount (nearlyGravity : Bool) (count : Nat) : Nat :=
  if nearlyGravity then
    if count < STEPS_TO_DECIDE_BALLISTIC then incrementAccelerationNearlyGravityCount count
    else count
  else 0

/-- Lines 363-367: the acceleration the entity reports. -/
def decideAcceleration (count : Nat) (entity : EntityItem) : EntityItem :=
  if count ≥ STEPS_TO_DECIDE_BALLISTIC then { entity with acceleration := entity.gravity }
  else { entity with acceleration := Vec3.zero }

/-- Lines 371-373: the local `movingSlowly`. -/
def movingSlowly (entity : EntityItem) : Bool :=
  decide (Vec3.length2 entity.velocity
      < DYNAMIC_LINEAR_VELOCITY_THRESHOLD * DYNAMIC_LINEAR_VELOCITY_THRESHOLD)
    && decide (Vec3.length2 entity.angularVelocity
      < DYNAMIC_ANGULAR_VELOCITY_THRESHOLD * DYNAMIC_ANGULAR_VELOCITY_THRESHOLD)
    && decide (entity.acceleration = Vec3.zero)

/-- Lines 375-381: slow velocities are replaced by zero. -/
def snapSlowVelocities (entity : EntityItem) : EntityItem :=
  if movingSlowly entity then
    { entity with velocity := Vec3.zero, angularVelocity := Vec3.zero }
  else entity

/-- The fields of `EntityItemProperties` that `sendUpdate` sets. -/
structure EntityItemProperties where
  position : Vec3
  rotation : Quat
  velocity : Vec3
  acceleration : Vec3
  angularVelocity : Vec3
  lastEdited : Nat
  simulatorID : QUuid
deriving DecidableEq

/-- A queued entity-edit message: the entity's id and the property set. -/
structure EditMessage where
  id : Nat
  properties : EntityItemProperties
deriving DecidableEq

/-- What a call of `sendUpdate` leaves behind: the motion state, the outgoing edit queue and
the property set it formed. -/
structure SendUpdateResult where
  state : EntityMotionState
  packetSender : List EditMessage
  properties : EntityItemProperties
deriving DecidableEq

/-- Lines 338-383: the entity and the motion state after the derivatives are settled. -/
def settleDerivatives (env : Env) (active : Bool) (entity : EntityItem)
    (s : EntityMotionState) : EntityItem × EntityMotionState :=
  if !active then
    ({ entity with
        velocity := Vec3.zero
        angularVelocity := Vec3.zero
        acceleration := Vec3.zero },
     { s with sentActive := false })
  else
    let count := updateAccelerationNearlyGravityCount
      (accelerationNearlyGravity env s.measuredAcceleration entity.gravity)
      s.accelerationNearlyGravityCount
    let entity1 := decideAcceleration count entity
    let entity2 := snapSlowVelocities entity1
    (entity2, { s with accelerationNearlyGravityCount := count, sentActive := true })

/-- Lines 414-427: the simulator-owner field of the outgoing property set. -/
def outgoingSimulatorID (sessionID : QUuid) (active : Bool) (entity : EntityItem) : QUuid :=
  if sessionID = entity.simulatorID then
    if !active then QUuid.null else sessionID
  else sessionID

/-- The method `EntityMotionState::sendUpdate`; `none` when `assert(_entity)` fails or `_body`
is null. -/
def sendUpdate (env : Env) (packetSender : List EditMessage) (sessionID : QUuid) (step : Nat)
    (s : EntityMotionState) : Option SendUpdateResult :=
  match s.entity, s.body with
  | some entity, some body =>
    let active := body.isActive
    let (entity1, s1) := settleDerivatives env active entity s
    let s2 := { s1 with
      serverPosition := entity1.position
      serverRotation := entity1.rotation
      serverVelocity := entity1.velocity
      serverAcceleration := entity1.acceleration
      serverAngularVelocity := entity1.angularVelocity }
    let lastSimulated := entity1.lastSimulated
    let entity2 := { entity1 with lastEdited := lastSimulated }
    let properties : EntityItemProperties :=
      { position := s2.serverPosition
        rotation := s2.serverRotation
        velocity := s2.serverVelocity
        acceleration := s2.serverAcceleration
        angularVelocity := s2.serverAngularVelocity
        lastEdited := lastSimulated
        simulatorID := outgoingSimulatorID sessionID active entity2 }
    if env.sendPhysicsUpdates then
      let entity3 := { entity2 with lastBroadcast := env.usecTimestampNow }
      some { state := { s2 with entity := some entity3, lastStep := step }
             packetSender := packetSender ++ [{ id := entity3.id, properties := properties }]
             properties := properties }
    else
      some { state := { s2 with entity := some entity2, lastStep := step }
             packetSender := packetSender
             properties := properties }
  | _, _ => none

/-! ## Dirty flags and the change handlers -/

/-- The test `flags & mask` of a `uint32_t` bit mask. -/
def hasFlag (flags mask : Nat) : Bool := (flags &&& mask) != 0

/-- The update `flags &= ~mask` on a `uint32_t`. -/
def clearFlag (flags mask : Nat) : Nat := flags &&& (mask ^^^ 4294967295)

/-- One `if (flags & mask) { ... _entity->... }` of `updateServerPhysicsVariables`: `none`
when `_entity` is null where it is dereferenced. -/
def copyIfDirty (flags mask : Nat) (copy : EntityItem → EntityMotionState → EntityMotionState)
    (s : EntityMotionState) : Option EntityMotionState :=
  if hasFlag flags mask then
    match s.entity with
    | none => none
    | some entity => some (copy entity s)
  else some s

/-- The method `EntityMotionState::updateServerPhysicsVariables` (lines 51-64). -/
def updateServerPhysicsVariables (env : Env) (flags : Nat) (s : EntityMotionState) :
    Option EntityMotionState :=
  (copyIfDirty flags env.DIRTY_POSITION
      (fun entity s => { s with serverPosition := entity.position }) s).bind fun s1 =>
  (copyIfDirty flags env.DIRTY_ROTATION
      (fun entity s => { s with serverRotation := entity.rotation }) s1).bind fun s2 =>
  (copyIfDirty flags env.DIRTY_LINEAR_VELOCITY
      (fun entity s => { s with serverVelocity := entity.velocity }) s2).bind fun s3 =>
  copyIfDirty flags env.DIRTY_ANGULAR_VELOCITY
      (fun entity s => { s with serverAngularVelocity := entity.angularVelocity }) s3

/-- Lines 80-86: the bid counter restarts when the simulator is not the local session. -/
def resetBidUnlessOwner (env : Env) (entity : EntityItem) (s : EntityMotionState) :
    EntityMotionState :=
  if entity.simulatorID ≠ env.sessionUUID then { s with loopsSinceOwnershipBid := 0 } else s

/-- Lines 70-87: the handling of `DIRTY_SIMULATOR_ID`; the result carries the local `flags`,
from which the activation bit may have been removed.  `none` when `_entity` or `_body` is null
where it is dereferenced. -/
def handleSimulatorIdChange (env : Env) (flags : Nat) (s : EntityMotionState) :
    Option (Nat × EntityMotionState) :=
  if hasFlag flags env.DIRTY_SIMULATOR_ID then
    let s1 := { s with loopsWithoutOwner := 0, candidateForOwnership := false }
    match s1.entity with
    | none => none
    | some entity =>
      if entity.simulatorID.isNull && !env.entityIsMoving entity then
        match s1.body with
        | none => none
        | some body =>
          if body.isActive then
            some (clearFlag flags env.DIRTY_PHYSICS_ACTIVATION,
              { s1 with
                body := some (env.setActivationState ActivationState.WANTS_DEACTIVATION body) })
          else some (flags, resetBidUnlessOwner env entity s1)
      else some (flags, resetBidUnlessOwner env entity s1)
  else some (flags, s)

/-- Lines 88-90: an inactive body is activated when the activation bit is set. -/
def activateIfDirty (env : Env) (flags : Nat) (s : EntityMotionState) :
    Option EntityMotionState :=
  if hasFlag flags env.DIRTY_PHYSICS_ACTIVATION then
    match s.body with
    | none => none
    | some body =>
      if !body.isActive then some { s with body := some (env.activate body) } else some s
  else some s

/-- The method `EntityMotionState::handleEasyChanges` (lines 67-92).  The base class method
`ObjectMotionState::handleEasyChanges` reads the entity and writes the rigid body. -/
def handleEasyChanges (env : Env) (flags : Nat) (s : EntityMotionState) :
    Option EntityMotionState :=
  (updateServerPhysicsVariables env flags s).bind fun s1 =>
  let s2 := { s1 with body := env.objectHandleEasyChanges flags s1.entity s1.body }
  (handleSimulatorIdChange env flags s2).bind fun r =>
  activateIfDirty env r.1 r.2

/-- The method `EntityMotionState::handleHardAndEasyChanges` (lines 96-99); the base class
method it ends with is a parameter. -/
def handleHardAndEasyChanges (env : Env) (flags : Nat) (s : EntityMotionState) :
    Option EntityMotionState :=
  (updateServerPhysicsVariables env flags s).bind fun s1 =>
  env.objectHandleHardAndEasyChanges flags s1

/-! ## Detachment and the accessors -/

/-- The method `EntityMotionState::clearEntity` (lines 101-105). -/
def clearEntity (s : EntityMotionState) : EntityMotionState :=
  { s with entity := none, type := MotionStateType.MOTION_STATE_TYPE_INVALID }

/-- The method `EntityMotionState::computeObjectMotionType` (lines 107-115). -/
def computeObjectMotionType (env : Env) (s : EntityMotionState) : MotionType :=
  match s.entity with
  | none => MotionType.MOTION_TYPE_STATIC
  | some entity =>
    if entity.collisionsWillMove then MotionType.MOTION_TYPE_DYNAMIC
    else if env.entityIsMoving entity then MotionType.MOTION_TYPE_KINEMATIC
    else MotionType.MOTION_TYPE_STATIC

/-- The method `EntityMotionState::isMoving` (lines 117-119). -/
def isMoving (env : Env) (s : EntityMotionState) : Bool :=
  match s.entity with
  | none => false
  | some entity => env.entityIsMoving entity

/-- A `btTransform`: origin and rotation. -/
structure Transform where
  origin : Vec3
  rotation : Quat
deriving DecidableEq

/-- Modelled from the spec: the accessor `getObjectPosition` of the header, which is not
among the sources; the entity's position in the simulation frame, the world offset taken off. -/
def getObjectPosition (env : Env) (entity : EntityItem) : Vec3 :=
  Vec3.sub entity.position env.worldOffset

/-- The method `EntityMotionState::getWorldTransform` (lines 126-143): the transform handed
back and the motion state afterwards. -/
def getWorldTransform (env : Env) (worldTrans : Transform) (s : EntityMotionState) :
    Transform × EntityMotionState :=
  match s.entity with
  | none => (worldTrans, s)
  | some entity =>
    if s.motionType = MotionType.MOTION_TYPE_KINEMATIC then
      let thisStep := env.worldSimulationStep
      let dt := (subU32 thisStep s.lastKinematicStep : ℚ) * env.PHYSICS_ENGINE_FIXED_SUBSTEP
      let entity1 := { env.simulateKinematicMotion dt entity with
        lastSimulated := env.usecTimestampNow }
      ({ origin := getObjectPosition env entity1, rotation := entity1.rotation },
        { s with entity := some entity1, lastKinematicStep := thisStep })
    else
      ({ origin := getObjectPosition env entity, rotation := entity.rotation }, s)

/-- The method `EntityMotionState::computeObjectShapeInfo` (lines 181-185). -/
def computeObjectShapeInfo (env : Env) (shapeInfo : ShapeInfo) (s : EntityMotionState) :
    ShapeInfo :=
  match s.entity with
  | some entity => env.computeShapeInfo entity shapeInfo
  | none => shapeInfo

/-- The method `EntityMotionState::isCandidateForOwnership` (lines 191-196). -/
def isCandidateForOwnership (sessionID : QUuid) (s : EntityMotionState) : Bool :=
  match s.body, s.entity with
  | some _, some entity => s.candidateForOwnership || sessionID == entity.simulatorID
  | _, _ => false

/-- Bullet's collision flag `btCollisionObject::CF_STATIC_OBJECT`. -/
def CF_STATIC_OBJECT : Nat := 1

/-- Bullet's collision flag `btCollisionObject::CF_KINEMATIC_OBJECT`. -/
def CF_KINEMATIC_OBJECT : Nat := 2

/-- Modelled from the spec: `EntityItem::clearDirtyFlags` with its default mask, which is
not among the sources; it clears the entity's dirty flags. -/
def clearDirtyFlags (entity : EntityItem) : EntityItem := { entity with dirtyFlags := 0 }

/-- Lines 455-456: the body's classification disagrees with the entity's motion. -/
def motionTypeMismatch (bodyFlags : Nat) (moving : Bool) : Bool :=
  (hasFlag bodyFlags CF_STATIC_OBJECT && moving)
    || (hasFlag bodyFlags CF_KINEMATIC_OBJECT && !moving)

/-- The method `EntityMotionState::getAndClearIncomingDirtyFlags` (lines 447-461): the flags
returned and the motion state afterwards (the entity's flags are cleared through `_entity`). -/
def getAndClearIncomingDirtyFlags (env : Env) (s : EntityMotionState) :
    Nat × EntityMotionState :=
  match s.body, s.entity with
  | some body, some entity =>
    let dirtyFlags := entity.dirtyFlags
    let entity1 := clearDirtyFlags entity
    let moving := env.entityIsMoving entity1
    let dirtyFlags1 :=
      if motionTypeMismatch body.collisionFlags moving then dirtyFlags ||| env.DIRTY_MOTION_TYPE
      else dirtyFlags
    (dirtyFlags1, { s with entity := some entity1 })
  | _, _ => (0, s)

/-- The method `EntityMotionState::getSimulatorID` (lines 465-470). -/
def getSimulatorID (s : EntityMotionState) : QUuid :=
  match s.entity with
  | some entity => entity.simulatorID
  | none => QUuid.null

/-- The method `EntityMotionState::bump` (lines 474-476). -/
def bump (s : EntityMotionState) : EntityMotionState :=
  { s with candidateForOwnership := true }

/-- The method `EntityMotionState::resetMeasuredBodyAcceleration` (lines 478-486). -/
def resetMeasuredBodyAcceleration (env : Env) (s : EntityMotionState) : EntityMotionState :=
  { s with
    lastMeasureStep := env.worldSimulationStep
    lastVelocity :=
      match s.body with
      | some body => body.linearVelocity
      | none => Vec3.zero
    measuredAcceleration := Vec3.zero }

/-- The method `EntityMotionState::setMotionType` (lines 506-509); the base class method
`ObjectMotionState::setMotionType`, not among the sources, records the motion type. -/
def setMotionType (env : Env) (motionType : MotionType) (s : EntityMotionState) :
    EntityMotionState :=
  resetMeasuredBodyAcceleration env { s with motionType := motionType }

/-- The method `EntityMotionState::getName` (lines 513-518). -/
def getName (s : EntityMotionState) : String :=
  match s.entity with
  | some entity => entity.name
  | none => ""

/-! ## `ShapeInfoUtil::createConvexHull` -/

/-- Componentwise maximum, `glm::max` on vectors. -/
def Vec3.max (a b : Vec3) : Vec3 := ⟨Max.max a.x b.x, Max.max a.y b.y, Max.max a.z b.z⟩

/-- Componentwise minimum, `glm::min` on vectors. -/
def Vec3.min (a b : Vec3) : Vec3 := ⟨Min.min a.x b.x, Min.min a.y b.y, Min.min a.z b.z⟩

/-- Componentwise product of two vectors. -/
def Vec3.mul (a b : Vec3) : Vec3 := ⟨a.x * b.x, a.y * b.y, a.z * b.z⟩

/-- Componentwise quotient of two vectors. -/
def Vec3.div (a b : Vec3) : Vec3 := ⟨a.x / b.x, a.y / b.y, a.z / b.z⟩

/-- The constant `MIN_MARGIN = 0.01f`. -/
def MIN_MARGIN : ℚ := 1 / 100

/-- What `createConvexHull` puts into the `btConvexHullShape`: the margin and the points. -/
structure ConvexHull where
  margin : ℚ
  points : List Vec3
deriving DecidableEq

/-- The running sum, maximum corner and minimum corner of the loop of lines 26-30. -/
structure HullBounds where
  center : Vec3
  maxCorner : Vec3
  minCorner : Vec3
deriving DecidableEq

/-- Lines 23-30: the loop over the points after the first. -/
def accumulateBounds (first : Vec3) (rest : List Vec3) : HullBounds :=
  rest.foldl
    (fun acc p =>
      { center := Vec3.add acc.center p
        maxCorner := Vec3.max acc.maxCorner p
        minCorner := Vec3.min acc.minCorner p })
    { center := first, maxCorner := first, minCorner := first }

/-- Lines 43-46: the margin chosen for a bounding-box diagonal. -/
def chooseMargin (defaultMargin : ℚ) (diagonal : Vec3) : ℚ :=
  let minDimension := Min.min (Min.min diagonal.x diagonal.y) diagonal.z
  Min.min (Max.max (1 / 2 * minDimension) MIN_MARGIN) defaultMargin

/-- Lines 50-53: a point corrected for the margin. -/
def correctPoint (center relativeScale p : Vec3) : Vec3 :=
  Vec3.add (Vec3.mul (Vec3.sub p center) relativeScale) center

/-- The function `ShapeInfoUtil::createConvexHull` (lines 19-58); `none` when
`assert(points.size() > 0)` fails.  A fresh hull's margin is Bullet's default. -/
def createConvexHull (env : Env) (points : List Vec3) : Option ConvexHull :=
  match points with
  | [] => none
  | first :: rest =>
    let bounds := accumulateBounds first rest
    let center := Vec3.divScalar bounds.center (points.length : ℚ)
    let diagonal := Vec3.sub bounds.maxCorner bounds.minCorner
    let margin := chooseMargin env.CONVEX_DISTANCE_MARGIN diagonal
    let relativeScale :=
      Vec3.div (Vec3.sub diagonal ⟨2 * margin, 2 * margin, 2 * margin⟩) diagonal
    some { margin := margin, points := points.map (correctPoint center relativeScale) }

/-- The belief about the server's state, `RemoteBelief`: the fields `_serverPosition`,
`_serverRotation`, `_serverVelocity`, `_serverAngularVelocity`, `_serverAcceleration` and
`_lastStep` of a motion state. -/
structure RemoteBelief where
  position : Vec3
  rotation : Quat
  velocity : Vec3
  angularVelocity : Vec3
  acceleration : Vec3
  lastStep : Nat
deriving DecidableEq

/-- The belief held by a motion state. -/
def remoteBelief (s : EntityMotionState) : RemoteBelief :=
  { position := s.serverPosition
    rotation := s.serverRotation
    velocity := s.serverVelocity
    angularVelocity := s.serverAngularVelocity
    acceleration := s.serverAcceleration
    lastStep := s.lastStep }

/-! ## The constructor and example inputs -/

/-- The constructor `EntityMotionState::EntityMotionState` (lines 25-44) for an entity, followed
by the attachment of a rigid body; the fields inherited from `ObjectMotionState`, whose
constructor is not among the sources, start at zero and at the static motion type. -/
def EntityMotionState.create (entity : EntityItem) (body : Option RigidBody) : EntityMotionState :=
  { entity := some entity
    body := body
    type := MotionStateType.MOTION_STATE_TYPE_ENTITY
    motionType := MotionType.MOTION_TYPE_STATIC
    sentActive := false
    numNonMovingUpdates := 0
    lastStep := 0
    serverPosition := Vec3.zero
    serverRotation := Quat.identity
    serverVelocity := Vec3.zero
    serverAngularVelocity := Vec3.zero
    serverGravity := Vec3.zero
    serverAcceleration := Vec3.zero
    accelerationNearlyGravityCount := 0
    candidateForOwnership := false
    loopsSinceOwnershipBid := 0
    loopsWithoutOwner := 0
    lastKinematicStep := 0
    lastMeasureStep := 0
    lastVelocity := Vec3.zero
    measuredAcceleration := Vec3.zero }

/-- Largest `k ≤ bound` with `k * k ≤ n`: an integer square root by downward search. -/
def sqrtSearch : Nat → Nat → Nat
  | 0, _ => 0
  | k + 1, n => if (k + 1) * (k + 1) ≤ n then k + 1 else sqrtSearch k n

/-- Square root used by the example environments: exact on squares of the integers up to 16. -/
def exampleSqrt (q : ℚ) : ℚ := (sqrtSearch 16 q.num.natAbs : ℚ) / (sqrtSearch 16 q.den : ℚ)

/-- An example environment: sixty substeps per second, no rotation step, unit damping power,
the dirty bits of `EntityItem.h`, Bullet's activation rules and default margin, and a base
class that leaves the body alone. -/
def exampleEnv : Env :=
  { PHYSICS_ENGINE_FIXED_SUBSTEP := 1 / 60
    powf := fun _ _ => 1
    sqrt := exampleSqrt
    normalize := fun q => q
    computeBulletRotationStep := fun _ _ => Quat.identity
    worldSimulationStep := 100
    worldOffset := Vec3.zero
    usecTimestampNow := 1000000
    sendPhysicsUpdates := true
    sessionUUID := 5
    DIRTY_POSITION := 1
    DIRTY_ROTATION := 2
    DIRTY_LINEAR_VELOCITY := 4
    DIRTY_ANGULAR_VELOCITY := 8
    DIRTY_MOTION_TYPE := 64
    DIRTY_PHYSICS_ACTIVATION := 2048
    DIRTY_SIMULATOR_ID := 4096
    entityIsMoving := fun e => e.velocity != Vec3.zero || e.angularVelocity != Vec3.zero
    simulateKinematicMotion := fun dt e =>
      { e with position := Vec3.add e.position (Vec3.scale e.velocity dt) }
    computeShapeInfo := fun _ info => { info with type := ShapeType.SHAPE_TYPE_BOX }
    objectHandleEasyChanges := fun _ _ body => body
    objectHandleHardAndEasyChanges := fun _ s => some s
    setActivationState := fun state body =>
      if body.activationState = ActivationState.DISABLE_DEACTIVATION
          ∨ body.activationState = ActivationState.DISABLE_SIMULATION then body
      else { body with activationState := state }
    activate := fun body =>
      if body.activationState = ActivationState.DISABLE_DEACTIVATION
          ∨ body.activationState = ActivationState.DISABLE_SIMULATION then body
      else { body with activationState := ActivationState.ACTIVE_TAG }
    CONVEX_DISTANCE_MARGIN := 4 / 100 }

/-- The example environment with ninety substeps per second. -/
def exampleEnv90 : Env := { exampleEnv with PHYSICS_ENGINE_FIXED_SUBSTEP := 1 / 90 }

/-- An example entity without simulator, under a downward gravity of length 10. -/
def exampleEntity : EntityItem :=
  { id := 7
    name := "box"
    position := Vec3.zero
    rotation := Quat.identity
    velocity := ⟨1, 0, 0⟩
    angularVelocity := Vec3.zero
    acceleration := Vec3.zero
    gravity := ⟨0, -10, 0⟩
    simulatorID := QUuid.null
    dirtyFlags := 0
    collisionsWillMove := true
    lastSimulated := 0
    lastEdited := 0
    lastBroadcast := 0 }

/-- An example body: active, at the origin, moving along the first axis, undamped. -/
def exampleBody : RigidBody :=
  { origin := Vec3.zero
    rotation := Quat.identity
    linearVelocity := ⟨1, 0, 0⟩
    angularVelocity := Vec3.zero
    linearDamping := 0
    angularDamping := 0
    activationState := ActivationState.ACTIVE_TAG
    collisionFlags := 0 }

/-- The example body after the physics engine has put it to sleep. -/
def exampleSleepingBody : RigidBody :=
  { exampleBody with activationState := ActivationState.ISLAND_SLEEPING }

/-- A freshly constructed motion state for the example entity and body. -/
def exampleFresh : EntityMotionState := EntityMotionState.create exampleEntity (some exampleBody)

/-- An initialized motion state whose last send was inactive, at step 1, body asleep. -/
def exampleSentInactive : EntityMotionState :=
  { EntityMotionState.create exampleEntity (some exampleSleepingBody) with
    lastStep := 1
    sentActive := false }

/-- The state `exampleSentInactive` once the physics engine has woken the body again. -/
def exampleSentInactiveAwake : EntityMotionState :=
  { exampleSentInactive with body := some exampleBody }

/-- An initialized motion state whose last send was active, at step 1, body now asleep. -/
def exampleJustStopped : EntityMotionState :=
  { EntityMotionState.create exampleEntity (some exampleSleepingBody) with
    lastStep := 1
    sentActive := true }

/-- An initialized motion state whose last send was active at step 1, whose belief moves along
the first axis from `(-1, 0, 0)` and holds the given rotation; its body is the given one. -/
def exampleTracking (body : RigidBody) (serverRotation : Quat) : EntityMotionState :=
  { EntityMotionState.create exampleEntity (some body) with
    lastStep := 1
    sentActive := true
    serverPosition := ⟨-1, 0, 0⟩
    serverVelocity := ⟨1, 0, 0⟩
    serverRotation := serverRotation }

/-- The example body displaced to the given position. -/
def exampleBodyAt (origin : Vec3) : RigidBody := { exampleBody with origin := origin }

/-- The session id of the local client in the examples. -/
def exampleSession : QUuid := 5

/-- The example entity once the local session is its simulator. -/
def exampleOwnedEntity : EntityItem := { exampleEntity with simulatorID := exampleSession }

/-- The state `exampleJustStopped` for the entity owned by the local session. -/
def exampleOwnedJustStopped : EntityMotionState :=
  { exampleJustStopped with entity := some exampleOwnedEntity }

/-- The state entering synchronization pass `k + 1` of a sustained bid: flagged as candidate,
out of sync, with the bid counter left by the passes before. -/
def exampleBidding (k : Nat) : EntityMotionState :=
  { exampleJustStopped with
    candidateForOwnership := true
    loopsSinceOwnershipBid := k % 31 }

/-- What the physics engine presents at one post-step callback: the process-wide values at that
time, the body after the step, and the transform handed to `setWorldTransform`. -/
structure Writeback where
  env : Env
  body : RigidBody
  origin : Vec3
  rotation : Quat

/-- Consecutive post-step writebacks: before each `setWorldTransform` the physics engine has
stepped the body; nothing else touches the motion state or the entity in between. -/
def writebacks : List Writeback → EntityMotionState → Option EntityMotionState
  | [], s => some s
  | w :: ws, s =>
    match setWorldTransform w.env w.origin w.rotation { s with body := some w.body } with
    | none => none
    | some s1 => writebacks ws s1

/-- An example writeback: the example body reported at its own transform. -/
def exampleWriteback : Writeback :=
  { env := exampleEnv
    body := exampleBody
    origin := exampleBody.origin
    rotation := exampleBody.rotation }

/-- An example state in free fall: active body, measured acceleration equal to the entity's
gravity, and the given near-gravity streak. -/
def exampleFalling (count : Nat) : EntityMotionState :=
  { EntityMotionState.create exampleEntity (some exampleBody) with
    lastStep := 1
    sentActive := true
    measuredAcceleration := ⟨0, -10, 0⟩
    accelerationNearlyGravityCount := count }

/-- The state `exampleFalling` for the entity owned by the local session. -/
def exampleOwnedFalling (count : Nat) : EntityMotionState :=
  { exampleFalling count with entity := some exampleOwnedEntity }

/-- The example entity creeping along the first axis at one centimetre per second. -/
def exampleSlowEntity : EntityItem := { exampleEntity with velocity := ⟨1 / 100, 0, 0⟩ }

/-- An example state of the creeping entity: active body, no measured acceleration, no
near-gravity streak. -/
def exampleSlow : EntityMotionState :=
  { EntityMotionState.create exampleSlowEntity (some exampleBody) with
    lastStep := 1
    sentActive := true }

/-- The example entity at rest, without simulator. -/
def exampleRestingEntity : EntityItem := { exampleEntity with velocity := Vec3.zero }

/-- The ownership counters used by the examples of the change handlers: twelve steps without
owner, flagged as candidate, seven passes since the last bid. -/
def exampleCounting (entity : EntityItem) : EntityMotionState :=
  { EntityMotionState.create entity (some exampleBody) with
    lastStep := 1
    sentActive := true
    serverPosition := ⟨-1, 0, 0⟩
    loopsWithoutOwner := 12
    candidateForOwnership := true
    loopsSinceOwnershipBid := 7 }

/-- The example entity simulated by another session. -/
def exampleForeignEntity : EntityItem := { exampleEntity with simulatorID := 9 }

/-- The example resting entity with its position and velocity bits dirty. -/
def exampleDirtyEntity : EntityItem := { exampleRestingEntity with dirtyFlags := 5 }

/-- The example body classified kinematic by the physics engine. -/
def exampleKinematicBody : RigidBody := { exampleBody with collisionFlags := CF_KINEMATIC_OBJECT }

/-- A motion state of the dirty resting entity on the kinematic body. -/
def exampleMismatched : EntityMotionState :=
  EntityMotionState.create exampleDirtyEntity (some exampleKinematicBody)

/-- Each point lies between `lo` and `hi` on the axis `axis`, and both ends are reached. -/
def IsAxisRange (axis : Vec3 → ℚ) (points : List Vec3) (lo hi : ℚ) : Prop :=
  (∀ p ∈ points, lo ≤ axis p ∧ axis p ≤ hi)
    ∧ (∃ p ∈ points, axis p = lo) ∧ (∃ p ∈ points, axis p = hi)

/-- The corners `lo` and `hi` span the axis-aligned bounding box of the points: the smallest
box that holds them all. -/
def IsBoundingBox (points : List Vec3) (lo hi : Vec3) : Prop :=
  IsAxisRange Vec3.x points lo.x hi.x
    ∧ IsAxisRange Vec3.y points lo.y hi.y
    ∧ IsAxisRange Vec3.z points lo.z hi.z

/-- A thin plate: four points in the plane `z = 0`. -/
def examplePlate : List Vec3 := [⟨0, 0, 0⟩, ⟨1, 0, 0⟩, ⟨0, 1, 0⟩, ⟨1, 1, 0⟩]

/-- The tracking example with a belief that is falling: belief velocity `(1, 0, 0)`, belief
acceleration `(0, -10, 0)`. -/
def exampleAccelerating : EntityMotionState :=
  { exampleTracking exampleBody Quat.identity with serverAcceleration := ⟨0, -10, 0⟩ }

/-- The tracking example with a belief at rest that carries an acceleration. -/
def exampleRestingBelief : EntityMotionState :=
  { exampleTracking exampleBody Quat.identity with
    serverVelocity := Vec3.zero
    serverAcceleration := ⟨0, -10, 0⟩ }

/-- The example body one second into a fall from velocity `(1, 0, 0)`. -/
def exampleFallingBody : RigidBody := { exampleBody with linearVelocity := ⟨1, -10, 0⟩ }

/-- A motion state that last measured the body's velocity, `(1, 0, 0)`, sixty substeps before
the world step of the example environment. -/
def exampleMeasuring : EntityMotionState :=
  { EntityMotionState.create exampleEntity (some exampleFallingBody) with
    lastMeasureStep := 40
    lastVelocity := ⟨1, 0, 0⟩ }

/-- The free-fall example pushed sideways instead: the measured acceleration `(10, 0, 0)` is
perpendicular to the gravity `(0, -10, 0)` and as long. -/
def exampleSideways (count : Nat) : EntityMotionState :=
  { exampleFalling count with measuredAcceleration := ⟨10, 0, 0⟩ }

/-- The example entity without gravity. -/
def exampleWeightlessEntity : EntityItem := { exampleEntity with gravity := Vec3.zero }

/-- The free-fall example for the entity without gravity, with the given near-gravity count on
record. -/
def exampleWeightless (count : Nat) : EntityMotionState :=
  { exampleFalling count with entity := some exampleWeightlessEntity }

/-- The mean of the points, axis by axis: the centre that the margin correction shrinks
towards. -/
def meanPoint (points : List Vec3) : Vec3 :=
  ⟨(points.map Vec3.x).sum / (points.length : ℚ), (points.map Vec3.y).sum / (points.length : ℚ),
    (points.map Vec3.z).sum / (points.length : ℚ)⟩

/-- The point lies in the axis-aligned box spanned by `lo` and `hi`, componentwise. -/
def InsideBox (lo hi q : Vec3) : Prop :=
  (lo.x ≤ q.x ∧ q.x ≤ hi.x) ∧ (lo.y ≤ q.y ∧ q.y ≤ hi.y) ∧ (lo.z ≤ q.z ∧ q.z ≤ hi.z)

/-- The eight corners of the axis-aligned unit cube whose smallest corner is `o`. -/
def unitCube (o : Vec3) : List Vec3 :=
  [⟨o.x, o.y, o.z⟩, ⟨o.x + 1, o.y, o.z⟩, ⟨o.x, o.y + 1, o.z⟩, ⟨o.x + 1, o.y + 1, o.z⟩,
    ⟨o.x, o.y, o.z + 1⟩, ⟨o.x + 1, o.y, o.z + 1⟩, ⟨o.x, o.y + 1, o.z + 1⟩,
    ⟨o.x + 1, o.y + 1, o.z + 1⟩]

/-- A box of two by four by one metres with a point inside it. -/
def exampleBox : List Vec3 := [⟨0, 0, 0⟩, ⟨2, 4, 1⟩, ⟨2, 0, 0⟩, ⟨1, 1, 1⟩]

/-! ## Machine-integer facts -/

theorem numStepsSince_of_le (step lastStep : Nat) (hle : lastStep ≤ step)
    (hstep : step < 4294967296) (hd : step - lastStep < 2147483648) :
    numStepsSince step lastStep = ((step - lastStep : Nat) : Int) := by
  have h : subU32 step lastStep = step - lastStep := by
    unfold subU32 UINT32_SIZE
    omega
  unfold numStepsSince toInt32
  rw [h, if_pos hd]

/-! ## `remoteSimulationOutOfSync`: bootstrap, resend cadence, stop update -/

/-- C1: an uninitialized motion state (`_lastStep == 0`) reports no divergence, whatever the
step and the body, and takes its belief from the body: position, rotation, linear and angular
velocity; it records the step and clears `_sentActive`. -/
theorem remoteSimulationOutOfSync_bootstrap (env : Env) (step : Nat) (s : EntityMotionState)
    (body : RigidBody) (hb : s.body = some body) (h0 : s.lastStep = 0) :
    ∃ s1, remoteSimulationOutOfSync env step s = some (false, s1)
      ∧ s1.serverPosition = body.origin
      ∧ s1.serverRotation = body.rotation
      ∧ s1.serverVelocity = body.linearVelocity
      ∧ s1.serverAngularVelocity = body.angularVelocity
      ∧ s1.lastStep = step
      ∧ s1.sentActive = false := by
  refine ⟨bootstrapBelief body step s, ?_, rfl, rfl, rfl, rfl, rfl, rfl⟩
  simp [remoteSimulationOutOfSync, hb, h0]

/-- Witness of C1: the freshly constructed example state at step 7. -/
theorem remoteSimulationOutOfSync_bootstrap_witness :
    ∃ s1, remoteSimulationOutOfSync exampleEnv 7 exampleFresh = some (false, s1)
      ∧ s1.serverPosition = exampleBody.origin
      ∧ s1.serverRotation = exampleBody.rotation
      ∧ s1.serverVelocity = exampleBody.linearVelocity
      ∧ s1.serverAngularVelocity = exampleBody.angularVelocity
      ∧ s1.lastStep = 7
      ∧ s1.sentActive = false :=
  remoteSimulationOutOfSync_bootstrap exampleEnv 7 exampleFresh exampleBody rfl rfl

/-- Counterexample to C2 as stated: with the last send inactive at step 1 and the body still
asleep, at step 31 of a sixty-per-second simulation (and at step 46 of a ninety-per-second one)
exactly 0.5 simulated seconds have elapsed, yet no divergence is reported.  Nor does a body
that has become active again escape the rule: it is denied at step 31 all the same. -/
theorem remoteSimulationOutOfSync_half_second_not_resent :
    exampleSentInactive.lastStep ≠ 0
      ∧ exampleSentInactive.sentActive = false
      ∧ exampleSentInactive.body = some exampleSleepingBody
      ∧ exampleSleepingBody.isActive = false
      ∧ ((31 : ℚ) - exampleSentInactive.lastStep) * exampleEnv.PHYSICS_ENGINE_FIXED_SUBSTEP ≥ 1 / 2
      ∧ remoteSimulationOutOfSync exampleEnv 31 exampleSentInactive
          = some (false, exampleSentInactive)
      ∧ ((46 : ℚ) - exampleSentInactive.lastStep) * exampleEnv90.PHYSICS_ENGINE_FIXED_SUBSTEP
          ≥ 1 / 2
      ∧ remoteSimulationOutOfSync exampleEnv90 46 exampleSentInactive
          = some (false, exampleSentInactive)
      ∧ exampleSentInactiveAwake.body = some exampleBody
      ∧ exampleBody.isActive = true
      ∧ remoteSimulationOutOfSync exampleEnv 31 exampleSentInactiveAwake
          = some (false, exampleSentInactiveAwake) := by
  refine ⟨by decide, rfl, rfl, by decide, ?_, ?_, ?_, ?_, rfl, by decide, ?_⟩
  · norm_num [exampleSentInactive, exampleEnv]
  · norm_num [remoteSimulationOutOfSync, exampleSentInactive, EntityMotionState.create,
      elapsedTime, numStepsSince, subU32, UINT32_SIZE, toInt32, exampleEnv,
      INACTIVE_UPDATE_PERIOD]
  · norm_num [exampleSentInactive, exampleEnv90, exampleEnv]
  · norm_num [remoteSimulationOutOfSync, exampleSentInactive, EntityMotionState.create,
      elapsedTime, numStepsSince, subU32, UINT32_SIZE, toInt32, exampleEnv90, exampleEnv,
      INACTIVE_UPDATE_PERIOD]
  · norm_num [remoteSimulationOutOfSync, exampleSentInactiveAwake, exampleSentInactive,
      EntityMotionState.create, elapsedTime, numStepsSince, subU32, UINT32_SIZE, toInt32,
      exampleEnv, INACTIVE_UPDATE_PERIOD]

/-- C2, amended: for an initialized motion state whose last send was inactive, divergence is
reported exactly when strictly more than 0.5 simulated seconds have elapsed,
`numSteps * PHYSICS_ENGINE_FIXED_SUBSTEP > 0.5`, whatever the body's state, and the motion state
is left as it was; for steps that have not wrapped `numSteps` is `step - _lastStep`. -/
theorem remoteSimulationOutOfSync_inactive_resend (env : Env) (step : Nat)
    (s : EntityMotionState) (body : RigidBody) (hb : s.body = some body)
    (hl : s.lastStep ≠ 0) (hs : s.sentActive = false) :
    remoteSimulationOutOfSync env step s
        = some (decide ((1 : ℚ) / 2
            < (numStepsSince step s.lastStep : ℚ) * env.PHYSICS_ENGINE_FIXED_SUBSTEP), s)
      ∧ (s.lastStep ≤ step → step < 4294967296 → step - s.lastStep < 2147483648 →
          numStepsSince step s.lastStep = ((step - s.lastStep : Nat) : Int)) := by
  refine ⟨?_, fun hle hstep hd => numStepsSince_of_le step s.lastStep hle hstep hd⟩
  simp [remoteSimulationOutOfSync, hb, hl, hs, elapsedTime, INACTIVE_UPDATE_PERIOD]

/-- Witness of C2, amended: the example state at step 32, one substep past the half second,
reports divergence and is left unchanged. -/
theorem remoteSimulationOutOfSync_inactive_resend_witness :
    remoteSimulationOutOfSync exampleEnv 32 exampleSentInactive
      = some (true, exampleSentInactive) :=
  (remoteSimulationOutOfSync_inactive_resend exampleEnv 32 exampleSentInactive
    exampleSleepingBody rfl (by decide) rfl).1.trans
    (by norm_num [exampleSentInactive, EntityMotionState.create, numStepsSince, subU32,
      UINT32_SIZE, toInt32, exampleEnv])

/-- C3: when the last send was active and the body is now inactive, divergence is reported at
once for every step, and the motion state (the step and the belief included) is unchanged. -/
theorem remoteSimulationOutOfSync_just_stopped (env : Env) (step : Nat) (s : EntityMotionState)
    (body : RigidBody) (hb : s.body = some body) (hl : s.lastStep ≠ 0)
    (hs : s.sentActive = true) (hi : body.isActive = false) :
    remoteSimulationOutOfSync env step s = some (true, s) := by
  simp [remoteSimulationOutOfSync, hb, hl, hs, hi]

/-- Witness of C3: the example state whose body fell asleep after an active send. -/
theorem remoteSimulationOutOfSync_just_stopped_witness :
    remoteSimulationOutOfSync exampleEnv 2 exampleJustStopped = some (true, exampleJustStopped) :=
  remoteSimulationOutOfSync_just_stopped exampleEnv 2 exampleJustStopped exampleSleepingBody
    rfl (by decide) rfl (by decide)

/-! ## `remoteSimulationOutOfSync`: extrapolate and compare -/

theorem remoteSimulationOutOfSync_compare (env : Env) (step : Nat) (s : EntityMotionState)
    (body : RigidBody) (hb : s.body = some body) (hl : s.lastStep ≠ 0)
    (hs : s.sentActive = true) (ha : body.isActive = true) :
    remoteSimulationOutOfSync env step s
      = if Vec3.distance2 body.origin
            (extrapolateLinear env body step (elapsedTime env step s.lastStep) s).serverPosition
            > MAX_POSITION_ERROR_SQUARED then
          some (true, extrapolateLinear env body step (elapsedTime env step s.lastStep) s)
        else
          some (rotationOutOfSync body.rotation
              (extrapolateAngular env body (numStepsSince step s.lastStep)
                (elapsedTime env step s.lastStep)
                (extrapolateLinear env body step (elapsedTime env step s.lastStep) s)).serverRotation,
            extrapolateAngular env body (numStepsSince step s.lastStep)
              (elapsedTime env step s.lastStep)
              (extrapolateLinear env body step (elapsedTime env step s.lastStep) s)) := by
  simp [remoteSimulationOutOfSync, hb, hl, hs, ha]

/-- C4: in the extrapolate-and-compare branch (initialized, last send active, body active) a
squared distance between the body's position and the extrapolated belief position above 0.001
makes the call return true, and one of at most 0.001 leaves the result to the rotation test; so
exactly 0.001 does not trigger and 0.0011 does. -/
theorem remoteSimulationOutOfSync_position_threshold (env : Env) (step : Nat)
    (s : EntityMotionState) (body : RigidBody) (dx2 : ℚ) (hb : s.body = some body)
    (hl : s.lastStep ≠ 0) (hs : s.sentActive = true) (ha : body.isActive = true)
    (hdx : dx2 = Vec3.distance2 body.origin
      (extrapolateLinear env body step (elapsedTime env step s.lastStep) s).serverPosition) :
    ((1 : ℚ) / 1000 < dx2 →
        (remoteSimulationOutOfSync env step s).map Prod.fst = some true)
      ∧ (dx2 ≤ (1 : ℚ) / 1000 →
        (remoteSimulationOutOfSync env step s).map Prod.fst
          = some (rotationOutOfSync body.rotation
              (extrapolateAngular env body (numStepsSince step s.lastStep)
                (elapsedTime env step s.lastStep)
                (extrapolateLinear env body step
                  (elapsedTime env step s.lastStep) s)).serverRotation))
      ∧ (dx2 = (1 : ℚ) / 1000 →
        (remoteSimulationOutOfSync env step s).map Prod.fst
          = some (rotationOutOfSync body.rotation
              (extrapolateAngular env body (numStepsSince step s.lastStep)
                (elapsedTime env step s.lastStep)
                (extrapolateLinear env body step
                  (elapsedTime env step s.lastStep) s)).serverRotation))
      ∧ (dx2 = (11 : ℚ) / 10000 →
        (remoteSimulationOutOfSync env step s).map Prod.fst = some true) := by
  have hgt : (1 : ℚ) / 1000 < dx2 →
      (remoteSimulationOutOfSync env step s).map Prod.fst = some true := by
    intro h
    rw [remoteSimulationOutOfSync_compare env step s body hb hl hs ha, ← hdx,
      if_pos (by simpa [MAX_POSITION_ERROR_SQUARED] using h)]
    rfl
  have hle : dx2 ≤ (1 : ℚ) / 1000 →
      (remoteSimulationOutOfSync env step s).map Prod.fst
        = some (rotationOutOfSync body.rotation
            (extrapolateAngular env body (numStepsSince step s.lastStep)
              (elapsedTime env step s.lastStep)
              (extrapolateLinear env body step
                (elapsedTime env step s.lastStep) s)).serverRotation) := by
    intro h
    rw [remoteSimulationOutOfSync_compare env step s body hb hl hs ha, ← hdx,
      if_neg (by simpa [MAX_POSITION_ERROR_SQUARED] using h)]
    rfl
  exact ⟨hgt, hle, fun h => hle (le_of_eq h), fun h => hgt (by rw [h]; norm_num)⟩

theorem exampleTracking_predicted (body : RigidBody) (r : Quat) :
    (extrapolateLinear exampleEnv body 61 (elapsedTime exampleEnv 61 (exampleTracking body r).lastStep)
      (exampleTracking body r)).serverPosition = Vec3.zero := by
  norm_num [extrapolateLinear, exampleTracking, EntityMotionState.create, elapsedTime,
    numStepsSince, subU32, UINT32_SIZE, toInt32, exampleEnv, Vec3.length2, Vec3.add, Vec3.scale,
    Vec3.zero]

/-- Witness of C4: the example belief, extrapolated over one second to the origin, against a
body at squared distance exactly 0.001 (no trigger; the rotations agree) and 0.0011 (trigger). -/
theorem remoteSimulationOutOfSync_position_threshold_witness :
    (remoteSimulationOutOfSync exampleEnv 61
        (exampleTracking (exampleBodyAt ⟨3 / 100, 1 / 100, 0⟩) Quat.identity)).map Prod.fst
        = some (rotationOutOfSync Quat.identity Quat.identity)
      ∧ rotationOutOfSync Quat.identity Quat.identity = false
      ∧ (remoteSimulationOutOfSync exampleEnv 61
        (exampleTracking (exampleBodyAt ⟨3 / 100, 1 / 100, 1 / 100⟩) Quat.identity)).map Prod.fst
        = some true := by
  refine ⟨?_, ?_, ?_⟩
  · have h := (remoteSimulationOutOfSync_position_threshold exampleEnv 61
      (exampleTracking (exampleBodyAt ⟨3 / 100, 1 / 100, 0⟩) Quat.identity)
      (exampleBodyAt ⟨3 / 100, 1 / 100, 0⟩) (1 / 1000) rfl (by decide) rfl (by decide)
      (by rw [exampleTracking_predicted]
          norm_num [Vec3.distance2, Vec3.length2, Vec3.sub, Vec3.zero, exampleBodyAt,
            exampleBody])).2.2.1 rfl
    rw [h]
    simp [extrapolateAngular, extrapolateLinear, exampleTracking, EntityMotionState.create,
      Vec3.length2, Vec3.zero, exampleBodyAt, exampleBody]
  · norm_num [rotationOutOfSync, Quat.dot, Quat.identity, MIN_ROTATION_DOT]
  · exact (remoteSimulationOutOfSync_position_threshold exampleEnv 61
      (exampleTracking (exampleBodyAt ⟨3 / 100, 1 / 100, 1 / 100⟩) Quat.identity)
      (exampleBodyAt ⟨3 / 100, 1 / 100, 1 / 100⟩) (11 / 10000) rfl (by decide) rfl (by decide)
      (by rw [exampleTracking_predicted]
          norm_num [Vec3.distance2, Vec3.length2, Vec3.sub, Vec3.zero, exampleBodyAt,
            exampleBody])).2.2.2 rfl

/-- C5: in the extrapolate-and-compare branch, when the squared position error is at most
0.001, the call returns true exactly when the absolute dot product of the body's rotation with
the extrapolated belief rotation is below 0.99; a dot product of exactly 0.99 does not trigger
and 0.989 does. -/
theorem remoteSimulationOutOfSync_rotation_threshold (env : Env) (step : Nat)
    (s : EntityMotionState) (body : RigidBody) (d : ℚ) (hb : s.body = some body)
    (hl : s.lastStep ≠ 0) (hs : s.sentActive = true) (ha : body.isActive = true)
    (hpos : Vec3.distance2 body.origin
      (extrapolateLinear env body step (elapsedTime env step s.lastStep) s).serverPosition
        ≤ (1 : ℚ) / 1000)
    (hd : d = Quat.dot body.rotation
      (extrapolateAngular env body (numStepsSince step s.lastStep)
        (elapsedTime env step s.lastStep)
        (extrapolateLinear env body step (elapsedTime env step s.lastStep) s)).serverRotation) :
    ((remoteSimulationOutOfSync env step s).map Prod.fst = some true ↔ |d| < (99 : ℚ) / 100)
      ∧ (d = (99 : ℚ) / 100 →
        (remoteSimulationOutOfSync env step s).map Prod.fst = some false)
      ∧ (d = (989 : ℚ) / 1000 →
        (remoteSimulationOutOfSync env step s).map Prod.fst = some true) := by
  have hres : (remoteSimulationOutOfSync env step s).map Prod.fst
      = some (decide (|d| < (99 : ℚ) / 100)) := by
    rw [remoteSimulationOutOfSync_compare env step s body hb hl hs ha,
      if_neg (by simpa [MAX_POSITION_ERROR_SQUARED] using hpos), hd]
    rfl
  refine ⟨?_, ?_, ?_⟩
  · rw [hres]
    simp
  · intro h
    have habs : |(99 : ℚ) / 100| = 99 / 100 := abs_of_nonneg (by norm_num)
    rw [hres, h, habs]
    norm_num
  · intro h
    have habs : |(989 : ℚ) / 1000| = 989 / 1000 := abs_of_nonneg (by norm_num)
    rw [hres, h, habs]
    norm_num

/-- Witness of C5: the example belief, extrapolated to the body's position, whose rotation has
dot product exactly 0.99 (no trigger) and 0.989 (trigger) with the body's rotation. -/
theorem remoteSimulationOutOfSync_rotation_threshold_witness :
    (remoteSimulationOutOfSync exampleEnv 61
        (exampleTracking (exampleBodyAt Vec3.zero) ⟨99 / 100, 1 / 10, 0, 0⟩)).map Prod.fst
        = some false
      ∧ (remoteSimulationOutOfSync exampleEnv 61
        (exampleTracking (exampleBodyAt Vec3.zero) ⟨989 / 1000, 1 / 10, 0, 0⟩)).map Prod.fst
        = some true := by
  refine ⟨?_, ?_⟩
  · exact (remoteSimulationOutOfSync_rotation_threshold exampleEnv 61
      (exampleTracking (exampleBodyAt Vec3.zero) ⟨99 / 100, 1 / 10, 0, 0⟩)
      (exampleBodyAt Vec3.zero) (99 / 100) rfl (by decide) rfl (by decide)
      (by rw [exampleTracking_predicted]
          norm_num [Vec3.distance2, Vec3.length2, Vec3.sub, Vec3.zero, exampleBodyAt,
            exampleBody])
      (by norm_num [extrapolateAngular, extrapolateLinear, exampleTracking,
            EntityMotionState.create, Vec3.length2, Vec3.zero, exampleBodyAt, exampleBody,
            Quat.dot, Quat.identity])).2.1 rfl
  · exact (remoteSimulationOutOfSync_rotation_threshold exampleEnv 61
      (exampleTracking (exampleBodyAt Vec3.zero) ⟨989 / 1000, 1 / 10, 0, 0⟩)
      (exampleBodyAt Vec3.zero) (989 / 1000) rfl (by decide) rfl (by decide)
      (by rw [exampleTracking_predicted]
          norm_num [Vec3.distance2, Vec3.length2, Vec3.sub, Vec3.zero, exampleBodyAt,
            exampleBody])
      (by norm_num [extrapolateAngular, extrapolateLinear, exampleTracking,
            EntityMotionState.create, Vec3.length2, Vec3.zero, exampleBodyAt, exampleBody,
            Quat.dot, Quat.identity])).2.2 rfl

/-! ## `shouldSendUpdate` -/

theorem remoteSimulationOutOfSync_frame (env : Env) (step : Nat) (s s1 : EntityMotionState)
    (r : Bool) (h : remoteSimulationOutOfSync env step s = some (r, s1)) :
    s1.entity = s.entity ∧ s1.body = s.body
      ∧ s1.candidateForOwnership = s.candidateForOwnership
      ∧ s1.loopsSinceOwnershipBid = s.loopsSinceOwnershipBid := by
  unfold remoteSimulationOutOfSync at h
  split at h
  · simp at h
  · dsimp only at h
    split_ifs at h <;> simp only [Option.some.injEq, Prod.mk.injEq] at h <;>
      obtain ⟨-, rfl⟩ := h
    all_goals
      simp only [bootstrapBelief, extrapolateLinear, extrapolateAngular]
      first
        | (split_ifs <;> simp)
        | simp

theorem remoteSimulationOutOfSync_total (env : Env) (step : Nat) (s : EntityMotionState)
    (body : RigidBody) (hb : s.body = some body) :
    ∃ r s1, remoteSimulationOutOfSync env step s = some (r, s1) := by
  unfold remoteSimulationOutOfSync
  rw [hb]
  dsimp only
  split_ifs <;> exact ⟨_, _, rfl⟩

theorem shouldSendUpdate_of_inSync (env : Env) (step : Nat) (sessionID : QUuid)
    (s s1 : EntityMotionState) (entity : EntityItem) (he : s.entity = some entity)
    (hr : remoteSimulationOutOfSync env step s = some (false, s1)) :
    shouldSendUpdate env step sessionID s
      = some (false, { s1 with candidateForOwnership := false }) := by
  cases hbody : s.body with
  | none => simp [remoteSimulationOutOfSync, hbody] at hr
  | some body => simp [shouldSendUpdate, he, hbody, hr]

theorem shouldSendUpdate_of_outOfSync (env : Env) (step : Nat) (sessionID : QUuid)
    (s s1 : EntityMotionState) (entity : EntityItem) (he : s.entity = some entity)
    (hr : remoteSimulationOutOfSync env step s = some (true, s1)) :
    shouldSendUpdate env step sessionID s
      = if entity.simulatorID = sessionID then
          some (true, { s1 with candidateForOwnership := false })
        else some (ownershipBid s1) := by
  cases hbody : s.body with
  | none => simp [remoteSimulationOutOfSync, hbody] at hr
  | some body => simp [shouldSendUpdate, he, hbody, hr]

theorem ownershipBid_not_candidate (s : EntityMotionState) (hc : s.candidateForOwnership = false) :
    ownershipBid s = (false, { s with candidateForOwnership := false }) := by
  simp [ownershipBid, hc]

theorem ownershipBid_candidate (s : EntityMotionState) (hc : s.candidateForOwnership = true) :
    ownershipBid s
      = if 30 < incU32 s.loopsSinceOwnershipBid then
          (true, { s with candidateForOwnership := false, loopsSinceOwnershipBid := 0 })
        else
          (false, { s with
            candidateForOwnership := false
            loopsSinceOwnershipBid := incU32 s.loopsSinceOwnershipBid }) := by
  simp [ownershipBid, hc, FRAMES_BETWEEN_OWNERSHIP_CLAIMS]

/-- C9: `shouldSendUpdate` denies when `remoteSimulationOutOfSync` reports no divergence, and
when the session is neither the entity's simulator nor a candidate on entry; either way the
bid counter is unchanged and the candidate flag is false afterwards.  A true result implies
that divergence was reported and that the session was simulator or candidate. -/
theorem shouldSendUpdate_denies (env : Env) (step : Nat) (sessionID : QUuid)
    (s : EntityMotionState) (entity : EntityItem) (body : RigidBody)
    (he : s.entity = some entity) (hb : s.body = some body) :
    ((remoteSimulationOutOfSync env step s).map Prod.fst = some false →
        ∃ s2, shouldSendUpdate env step sessionID s = some (false, s2)
          ∧ s2.loopsSinceOwnershipBid = s.loopsSinceOwnershipBid
          ∧ s2.candidateForOwnership = false)
      ∧ (entity.simulatorID ≠ sessionID → s.candidateForOwnership = false →
        ∃ s2, shouldSendUpdate env step sessionID s = some (false, s2)
          ∧ s2.loopsSinceOwnershipBid = s.loopsSinceOwnershipBid
          ∧ s2.candidateForOwnership = false)
      ∧ (∀ s2, shouldSendUpdate env step sessionID s = some (true, s2) →
        (remoteSimulationOutOfSync env step s).map Prod.fst = some true
          ∧ (entity.simulatorID = sessionID ∨ s.candidateForOwnership = true)) := by
  obtain ⟨r, s1, hr⟩ := remoteSimulationOutOfSync_total env step s body hb
  obtain ⟨-, -, hcand, hloops⟩ := remoteSimulationOutOfSync_frame env step s s1 r hr
  cases r with
  | false =>
    have hsend := shouldSendUpdate_of_inSync env step sessionID s s1 entity he hr
    refine ⟨fun _ => ⟨_, hsend, hloops, rfl⟩, fun _ _ => ⟨_, hsend, hloops, rfl⟩, ?_⟩
    intro s2 h2
    rw [hsend] at h2
    simp at h2
  | true =>
    have hsend := shouldSendUpdate_of_outOfSync env step sessionID s s1 entity he hr
    refine ⟨?_, ?_, ?_⟩
    · intro h
      rw [hr] at h
      simp at h
    · intro hne hc
      rw [if_neg hne, ownershipBid_not_candidate s1 (by rw [hcand, hc])] at hsend
      exact ⟨_, hsend, hloops, rfl⟩
    · intro s2 h2
      refine ⟨by rw [hr]; rfl, ?_⟩
      by_cases hown : entity.simulatorID = sessionID
      · exact Or.inl hown
      · right
        cases hc : s.candidateForOwnership with
        | true => rfl
        | false =>
          rw [hsend, if_neg hown, ownershipBid_not_candidate s1 (by rw [hcand, hc])] at h2
          simp at h2

/-- C10: when the entity's simulator is the local session and divergence is reported,
`shouldSendUpdate` returns true whatever the candidate flag and the bid counter are, leaves the
bid counter unchanged and clears the candidate flag. -/
theorem shouldSendUpdate_owner (env : Env) (step : Nat) (sessionID : QUuid)
    (s : EntityMotionState) (entity : EntityItem) (he : s.entity = some entity)
    (hown : entity.simulatorID = sessionID)
    (hdiv : (remoteSimulationOutOfSync env step s).map Prod.fst = some true) :
    ∃ s2, shouldSendUpdate env step sessionID s = some (true, s2)
      ∧ s2.loopsSinceOwnershipBid = s.loopsSinceOwnershipBid
      ∧ s2.candidateForOwnership = false := by
  cases hr : remoteSimulationOutOfSync env step s with
  | none => simp [hr] at hdiv
  | some p =>
    obtain ⟨r, s1⟩ := p
    rw [hr] at hdiv
    simp at hdiv
    subst hdiv
    have hsend := shouldSendUpdate_of_outOfSync env step sessionID s s1 entity he hr
    rw [if_pos hown] at hsend
    exact ⟨_, hsend, (remoteSimulationOutOfSync_frame env step s s1 true hr).2.2.2, rfl⟩

/-- Witness of C9: a fresh state (no divergence), a diverged state of a session that is neither
simulator nor candidate, and a diverged state of the owning session, whose send is affirmed. -/
theorem shouldSendUpdate_denies_witness :
    (∃ s2, shouldSendUpdate exampleEnv 7 exampleSession exampleFresh = some (false, s2)
        ∧ s2.loopsSinceOwnershipBid = exampleFresh.loopsSinceOwnershipBid
        ∧ s2.candidateForOwnership = false)
      ∧ (∃ s2, shouldSendUpdate exampleEnv 2 exampleSession exampleJustStopped = some (false, s2)
        ∧ s2.loopsSinceOwnershipBid = exampleJustStopped.loopsSinceOwnershipBid
        ∧ s2.candidateForOwnership = false)
      ∧ ((remoteSimulationOutOfSync exampleEnv 2 exampleOwnedJustStopped).map Prod.fst = some true
        ∧ (exampleOwnedEntity.simulatorID = exampleSession
          ∨ exampleOwnedJustStopped.candidateForOwnership = true)) := by
  refine ⟨?_, ?_, ?_⟩
  · exact (shouldSendUpdate_denies exampleEnv 7 exampleSession exampleFresh exampleEntity
      exampleBody rfl rfl).1 (by simp [remoteSimulationOutOfSync, exampleFresh,
        EntityMotionState.create])
  · exact (shouldSendUpdate_denies exampleEnv 2 exampleSession exampleJustStopped exampleEntity
      exampleSleepingBody rfl rfl).2.1 (by decide) rfl
  · exact (shouldSendUpdate_denies exampleEnv 2 exampleSession exampleOwnedJustStopped
      exampleOwnedEntity exampleSleepingBody rfl rfl).2.2
      { exampleOwnedJustStopped with candidateForOwnership := false }
      (by simp [shouldSendUpdate, remoteSimulationOutOfSync, exampleOwnedJustStopped,
        exampleJustStopped, EntityMotionState.create, exampleSleepingBody, RigidBody.isActive,
        exampleOwnedEntity])

/-- Witness of C10: the owning session's diverged example state. -/
theorem shouldSendUpdate_owner_witness :
    ∃ s2, shouldSendUpdate exampleEnv 2 exampleSession exampleOwnedJustStopped = some (true, s2)
      ∧ s2.loopsSinceOwnershipBid = exampleOwnedJustStopped.loopsSinceOwnershipBid
      ∧ s2.candidateForOwnership = false :=
  shouldSendUpdate_owner exampleEnv 2 exampleSession exampleOwnedJustStopped exampleOwnedEntity
    rfl rfl (by simp [remoteSimulationOutOfSync, exampleOwnedJustStopped,
        exampleJustStopped, EntityMotionState.create, exampleSleepingBody, RigidBody.isActive])

theorem shouldSendUpdate_bid_step (env : Env) (step : Nat) (sessionID : QUuid)
    (s : EntityMotionState) (entity : EntityItem) (he : s.entity = some entity)
    (hown : entity.simulatorID ≠ sessionID) (hc : s.candidateForOwnership = true)
    (hdiv : (remoteSimulationOutOfSync env step s).map Prod.fst = some true) :
    ∃ s2, shouldSendUpdate env step sessionID s
        = some (decide (30 < incU32 s.loopsSinceOwnershipBid), s2)
      ∧ s2.loopsSinceOwnershipBid
        = (if 30 < incU32 s.loopsSinceOwnershipBid then 0
            else incU32 s.loopsSinceOwnershipBid)
      ∧ s2.candidateForOwnership = false := by
  cases hr : remoteSimulationOutOfSync env step s with
  | none => simp [hr] at hdiv
  | some p =>
    obtain ⟨r, s1⟩ := p
    rw [hr] at hdiv
    simp at hdiv
    subst hdiv
    obtain ⟨-, -, hcand, hloops⟩ := remoteSimulationOutOfSync_frame env step s s1 true hr
    have hsend := shouldSendUpdate_of_outOfSync env step sessionID s s1 entity he hr
    rw [if_neg hown, ownershipBid_candidate s1 (by rw [hcand, hc]), hloops] at hsend
    by_cases h30 : 30 < incU32 s.loopsSinceOwnershipBid
    · have hd : decide (30 < incU32 s.loopsSinceOwnershipBid) = true := by simp [h30]
      rw [if_pos h30] at hsend
      rw [hd, if_pos h30]
      exact ⟨_, hsend, rfl, rfl⟩
    · have hd : decide (30 < incU32 s.loopsSinceOwnershipBid) = false := by simp [h30]
      rw [if_neg h30] at hsend
      rw [hd, if_neg h30]
      exact ⟨_, hsend, rfl, rfl⟩

/-- C6: ownership bid cadence.  Starting from `_loopsSinceOwnershipBid == 0`, for a session
that is not the entity's simulator, if every synchronization pass enters `shouldSendUpdate`
with the candidate flag set and divergence reported, and only `shouldSendUpdate` changes the
bid counter, then pass `k + 1` returns true exactly when `k + 1` is a multiple of 31. -/
theorem shouldSendUpdate_bid_cadence (envs : Nat → Env) (steps : Nat → Nat) (sessionID : QUuid)
    (pre : Nat → EntityMotionState) (entities : Nat → EntityItem)
    (h0 : (pre 0).loopsSinceOwnershipBid = 0)
    (hent : ∀ k, (pre k).entity = some (entities k))
    (hown : ∀ k, (entities k).simulatorID ≠ sessionID)
    (hcand : ∀ k, (pre k).candidateForOwnership = true)
    (hdiv : ∀ k,
      (remoteSimulationOutOfSync (envs k) (steps k) (pre k)).map Prod.fst = some true)
    (hcarry : ∀ k r s2, shouldSendUpdate (envs k) (steps k) sessionID (pre k) = some (r, s2) →
      (pre (k + 1)).loopsSinceOwnershipBid = s2.loopsSinceOwnershipBid) :
    ∀ k, ∃ s2, shouldSendUpdate (envs k) (steps k) sessionID (pre k)
      = some (decide ((k + 1) % 31 = 0), s2) := by
  have hinv : ∀ k, (pre k).loopsSinceOwnershipBid = k % 31 := by
    intro k
    induction k with
    | zero => simpa using h0
    | succ n ih =>
      obtain ⟨s2, hrun, hloops, -⟩ := shouldSendUpdate_bid_step (envs n) (steps n) sessionID
        (pre n) (entities n) (hent n) (hown n) (hcand n) (hdiv n)
      rw [hcarry n _ s2 hrun, hloops, ih]
      unfold incU32 UINT32_SIZE
      split_ifs <;> omega
  intro k
  obtain ⟨s2, hrun, -, -⟩ := shouldSendUpdate_bid_step (envs k) (steps k) sessionID
    (pre k) (entities k) (hent k) (hown k) (hcand k) (hdiv k)
  refine ⟨s2, ?_⟩
  rw [hrun, hinv k]
  have hiff : (30 < incU32 (k % 31)) ↔ ((k + 1) % 31 = 0) := by
    unfold incU32 UINT32_SIZE
    omega
  simp [hiff]

theorem exampleBidding_outOfSync (k : Nat) :
    (remoteSimulationOutOfSync exampleEnv (k + 2) (exampleBidding k)).map Prod.fst
      = some true := by
  simp [remoteSimulationOutOfSync, exampleBidding, exampleJustStopped,
    EntityMotionState.create, exampleSleepingBody, RigidBody.isActive]

theorem exampleBidding_carry (k : Nat) (r : Bool) (s2 : EntityMotionState)
    (h : shouldSendUpdate exampleEnv (k + 2) exampleSession (exampleBidding k) = some (r, s2)) :
    (exampleBidding (k + 1)).loopsSinceOwnershipBid = s2.loopsSinceOwnershipBid := by
  obtain ⟨s3, hrun, hloops, -⟩ := shouldSendUpdate_bid_step exampleEnv (k + 2) exampleSession
    (exampleBidding k) exampleEntity rfl (by decide) rfl (exampleBidding_outOfSync k)
  rw [hrun] at h
  simp only [Option.some.injEq, Prod.mk.injEq] at h
  obtain ⟨-, rfl⟩ := h
  rw [hloops]
  show (k + 1) % 31 = _
  have hk : (exampleBidding k).loopsSinceOwnershipBid = k % 31 := rfl
  rw [hk]
  unfold incU32 UINT32_SIZE
  split_ifs <;> omega

/-- Witness of C6: a sustained bid of the example session on the example entity; the bid
counter starts at 0 and pass `k + 1` is affirmed exactly when `k + 1` is a multiple of 31. -/
theorem shouldSendUpdate_bid_cadence_witness :
    (exampleBidding 0).loopsSinceOwnershipBid = 0
      ∧ ∀ k, ∃ s2, shouldSendUpdate exampleEnv (k + 2) exampleSession (exampleBidding k)
        = some (decide ((k + 1) % 31 = 0), s2) :=
  ⟨rfl, shouldSendUpdate_bid_cadence (fun _ => exampleEnv) (fun k => k + 2) exampleSession
    exampleBidding (fun _ => exampleEntity) rfl (fun _ => rfl)
    (fun _ => (by decide : exampleEntity.simulatorID ≠ exampleSession))
    (fun _ => rfl) exampleBidding_outOfSync exampleBidding_carry⟩

/-! ## `setWorldTransform`: steps without owner -/

theorem measureBodyAcceleration_frame (env : Env) (s : EntityMotionState) (body : RigidBody)
    (hb : s.body = some body) :
    ∃ s1, measureBodyAcceleration env s = some s1
      ∧ s1.entity = s.entity ∧ s1.body = s.body
      ∧ s1.loopsWithoutOwner = s.loopsWithoutOwner
      ∧ s1.candidateForOwnership = s.candidateForOwnership
      ∧ s1.loopsSinceOwnershipBid = s.loopsSinceOwnershipBid := by
  unfold measureBodyAcceleration
  rw [hb]
  dsimp only
  split_ifs
  · exact ⟨_, rfl, rfl, rfl, rfl, rfl, rfl⟩
  · exact ⟨_, rfl, rfl, hb, rfl, rfl, rfl⟩

theorem updateLoopsWithoutOwner_fields (simulatorID : QUuid) (s : EntityMotionState) :
    (updateLoopsWithoutOwner simulatorID s).entity = s.entity
      ∧ (updateLoopsWithoutOwner simulatorID s).loopsWithoutOwner
        = (if simulatorID.isNull then incU32 s.loopsWithoutOwner else 0)
      ∧ (updateLoopsWithoutOwner simulatorID s).candidateForOwnership
        = (s.candidateForOwnership
          || (simulatorID.isNull && decide (50 < incU32 s.loopsWithoutOwner)))
      ∧ (updateLoopsWithoutOwner simulatorID s).loopsSinceOwnershipBid
        = s.loopsSinceOwnershipBid := by
  unfold updateLoopsWithoutOwner OWNERSHIP_BID_DELAY
  by_cases hnull : simulatorID.isNull = true
  · by_cases h50 : 50 < incU32 s.loopsWithoutOwner
    · simp [hnull, h50]
    · simp [hnull, h50]
  · simp [hnull]

theorem setWorldTransform_ownerless_step (env : Env) (origin : Vec3) (rotation : Quat)
    (s : EntityMotionState) (entity : EntityItem) (body : RigidBody)
    (he : s.entity = some entity) (hb : s.body = some body) :
    ∃ s2 entity2, setWorldTransform env origin rotation s = some s2
      ∧ s2.entity = some entity2
      ∧ entity2.simulatorID = entity.simulatorID
      ∧ s2.loopsWithoutOwner
        = (if entity.simulatorID.isNull then incU32 s.loopsWithoutOwner else 0)
      ∧ s2.candidateForOwnership
        = (s.candidateForOwnership
          || (entity.simulatorID.isNull && decide (50 < incU32 s.loopsWithoutOwner)))
      ∧ s2.loopsSinceOwnershipBid = s.loopsSinceOwnershipBid := by
  obtain ⟨s1, hm, he1, hb1, hl1, hc1, hbid1⟩ := measureBodyAcceleration_frame env s body hb
  rw [he] at he1
  rw [hb] at hb1
  obtain ⟨h1, h2, h3, h4⟩ := updateLoopsWithoutOwner_fields entity.simulatorID
    { s1 with entity := some { entity with
      position := Vec3.add origin env.worldOffset
      rotation := rotation
      velocity := getBodyLinearVelocity body
      angularVelocity := getBodyAngularVelocity body
      lastSimulated := env.usecTimestampNow } }
  have hrun : setWorldTransform env origin rotation s
      = some (updateLoopsWithoutOwner entity.simulatorID
        { s1 with entity := some { entity with
          position := Vec3.add origin env.worldOffset
          rotation := rotation
          velocity := getBodyLinearVelocity body
          angularVelocity := getBodyAngularVelocity body
          lastSimulated := env.usecTimestampNow } }) := by
    unfold setWorldTransform
    simp only [he, hm, he1, hb1]
  rw [← hl1, ← hc1, ← hbid1]
  exact ⟨_, _, hrun, h1, rfl, h2, h3, h4⟩

theorem writebacks_ownerless (ws : List Writeback) :
    ∀ (n : Nat) (s : EntityMotionState) (entity : EntityItem),
      s.entity = some entity → entity.simulatorID = QUuid.null →
      s.loopsWithoutOwner = n % 4294967296 →
      (s.candidateForOwnership = true ↔ 51 ≤ n) →
      ∃ s2, writebacks ws s = some s2
        ∧ (s2.candidateForOwnership = true ↔ 51 ≤ n + ws.length) := by
  induction ws with
  | nil =>
    intro n s entity _ _ _ hc
    exact ⟨s, rfl, by simpa using hc⟩
  | cons w ws ih =>
    intro n s entity he hnull hl hc
    obtain ⟨s1, entity1, hrun, he1, hsim, hl1, hc1, -⟩ :=
      setWorldTransform_ownerless_step w.env w.origin w.rotation { s with body := some w.body }
        entity w.body he rfl
    have hisNull : entity.simulatorID.isNull = true := by
      rw [hnull]
      rfl
    rw [hisNull] at hl1 hc1
    simp only [if_true, Bool.true_and] at hl1 hc1
    have hl1' : s1.loopsWithoutOwner = (n + 1) % 4294967296 := by
      rw [hl1]
      show incU32 s.loopsWithoutOwner = _
      rw [hl]
      unfold incU32 UINT32_SIZE
      omega
    have hc1' : s1.candidateForOwnership = true ↔ 51 ≤ n + 1 := by
      rw [hc1]
      show (s.candidateForOwnership || decide (50 < incU32 s.loopsWithoutOwner)) = true ↔ _
      rw [Bool.or_eq_true, decide_eq_true_eq, hc, hl]
      unfold incU32 UINT32_SIZE
      omega
    obtain ⟨s2, hrest, hc2⟩ := ih (n + 1) s1 entity1 he1 (by rw [hsim, hnull]) hl1' hc1'
    refine ⟨s2, ?_, ?_⟩
    · simp only [writebacks, hrun]
      exact hrest
    · rw [hc2, List.length_cons]
      omega

/-- C7: starting from `_loopsWithoutOwner == 0` with the candidate flag clear, for an attached
entity without simulator, `n` consecutive post-step writebacks all succeed and leave the
candidate flag set exactly when `n ≥ 51`: it is set by the 51st writeback, not the 50th. -/
theorem writebacks_candidate_iff (ws : List Writeback) (s : EntityMotionState)
    (entity : EntityItem) (he : s.entity = some entity)
    (hnull : entity.simulatorID = QUuid.null) (h0 : s.loopsWithoutOwner = 0)
    (hc : s.candidateForOwnership = false) :
    ∃ s2, writebacks ws s = some s2 ∧ (s2.candidateForOwnership = true ↔ 51 ≤ ws.length) := by
  obtain ⟨s2, hrun, hiff⟩ := writebacks_ownerless ws 0 s entity he hnull (by rw [h0])
    (by rw [hc]; simp)
  exact ⟨s2, hrun, by simpa using hiff⟩

/-- Witness of C7: the freshly constructed example state is not a candidate after 50
writebacks and is one after 51. -/
theorem writebacks_candidate_iff_witness :
    (∃ s2, writebacks (List.replicate 50 exampleWriteback) exampleFresh = some s2
        ∧ s2.candidateForOwnership = false)
      ∧ (∃ s2, writebacks (List.replicate 51 exampleWriteback) exampleFresh = some s2
        ∧ s2.candidateForOwnership = true) := by
  obtain ⟨s50, h50, hiff50⟩ := writebacks_candidate_iff (List.replicate 50 exampleWriteback)
    exampleFresh exampleEntity rfl rfl rfl rfl
  obtain ⟨s51, h51, hiff51⟩ := writebacks_candidate_iff (List.replicate 51 exampleWriteback)
    exampleFresh exampleEntity rfl rfl rfl rfl
  refine ⟨⟨s50, h50, ?_⟩, ⟨s51, h51, ?_⟩⟩
  · cases hc : s50.candidateForOwnership with
    | false => rfl
    | true =>
      have := hiff50.mp hc
      simp at this
  · exact hiff51.mpr (by simp)

/-! ## `sendUpdate`: ballistic classification -/

theorem snapSlowVelocities_acceleration (entity : EntityItem) :
    (snapSlowVelocities entity).acceleration = entity.acceleration := by
  unfold snapSlowVelocities
  split_ifs <;> rfl

theorem decideAcceleration_acceleration (count : Nat) (entity : EntityItem) :
    (decideAcceleration count entity).acceleration
      = (if 4 ≤ count then entity.gravity else Vec3.zero) := by
  unfold decideAcceleration STEPS_TO_DECIDE_BALLISTIC
  split_ifs <;> rfl

theorem sendUpdate_active_step (env : Env) (packetSender : List EditMessage) (sessionID : QUuid)
    (step : Nat) (s : EntityMotionState) (entity : EntityItem) (body : RigidBody)
    (he : s.entity = some entity) (hb : s.body = some body) (ha : body.isActive = true) :
    ∃ r entity2, sendUpdate env packetSender sessionID step s = some r
      ∧ r.state.accelerationNearlyGravityCount
        = updateAccelerationNearlyGravityCount
            (accelerationNearlyGravity env s.measuredAcceleration entity.gravity)
            s.accelerationNearlyGravityCount
      ∧ r.state.entity = some entity2
      ∧ entity2.acceleration
        = (if 4 ≤ r.state.accelerationNearlyGravityCount then entity.gravity else Vec3.zero) := by
  unfold sendUpdate
  simp only [he, hb, ha, settleDerivatives, Bool.not_true, Bool.false_eq_true, if_false]
  split_ifs
  · refine ⟨_, _, rfl, rfl, rfl, ?_⟩
    exact (snapSlowVelocities_acceleration _).trans (decideAcceleration_acceleration _ _)
  · refine ⟨_, _, rfl, rfl, rfl, ?_⟩
    exact (snapSlowVelocities_acceleration _).trans (decideAcceleration_acceleration _ _)

theorem updateAccelerationNearlyGravityCount_streak (k : Nat) (hk : k < 4) :
    updateAccelerationNearlyGravityCount true k = k + 1 := by
  unfold updateAccelerationNearlyGravityCount incrementAccelerationNearlyGravityCount
    STEPS_TO_DECIDE_BALLISTIC
  simp only [if_true, if_pos hk]
  omega

/-- C8: starting from a near-gravity count of 0, let four consecutive `sendUpdate` calls each
find an active body and a measured acceleration whose length is within 10% of the length of
the entity's gravity, the count being changed by `sendUpdate` alone.  Then the third call sets
the entity's acceleration to zero and the fourth sets it to the entity's gravity. -/
theorem sendUpdate_ballistic_after_four (envs : Nat → Env)
    (senders : Nat → List EditMessage) (sessions : Nat → QUuid) (steps : Nat → Nat)
    (pre : Nat → EntityMotionState) (entities : Nat → EntityItem) (bodies : Nat → RigidBody)
    (h0 : (pre 0).accelerationNearlyGravityCount = 0)
    (hent : ∀ k, k < 4 → (pre k).entity = some (entities k))
    (hbody : ∀ k, k < 4 → (pre k).body = some (bodies k))
    (hact : ∀ k, k < 4 → (bodies k).isActive = true)
    (hnear : ∀ k, k < 4 →
      accelerationNearlyGravity (envs k) (pre k).measuredAcceleration (entities k).gravity
        = true)
    (hcarry : ∀ k r, k < 3 →
      sendUpdate (envs k) (senders k) (sessions k) (steps k) (pre k) = some r →
      (pre (k + 1)).accelerationNearlyGravityCount = r.state.accelerationNearlyGravityCount) :
    (∃ r entity2, sendUpdate (envs 2) (senders 2) (sessions 2) (steps 2) (pre 2) = some r
        ∧ r.state.entity = some entity2 ∧ entity2.acceleration = Vec3.zero)
      ∧ (∃ r entity2, sendUpdate (envs 3) (senders 3) (sessions 3) (steps 3) (pre 3) = some r
        ∧ r.state.entity = some entity2 ∧ entity2.acceleration = (entities 3).gravity) := by
  have hstep : ∀ k, k < 4 → (pre k).accelerationNearlyGravityCount = k →
      ∃ r entity2, sendUpdate (envs k) (senders k) (sessions k) (steps k) (pre k) = some r
        ∧ r.state.accelerationNearlyGravityCount = k + 1
        ∧ r.state.entity = some entity2
        ∧ entity2.acceleration = (if 4 ≤ k + 1 then (entities k).gravity else Vec3.zero) := by
    intro k hk hcount
    obtain ⟨r, entity2, hrun, hc, he2, hacc⟩ := sendUpdate_active_step (envs k) (senders k)
      (sessions k) (steps k) (pre k) (entities k) (bodies k) (hent k hk) (hbody k hk)
      (hact k hk)
    rw [hnear k hk, hcount, updateAccelerationNearlyGravityCount_streak k hk] at hc
    rw [hc] at hacc
    exact ⟨r, entity2, hrun, hc, he2, hacc⟩
  obtain ⟨r0, -, hrun0, hc0, -, -⟩ := hstep 0 (by decide) h0
  have h1 : (pre 1).accelerationNearlyGravityCount = 1 := by
    rw [hcarry 0 r0 (by decide) hrun0, hc0]
  obtain ⟨r1, -, hrun1, hc1, -, -⟩ := hstep 1 (by decide) h1
  have h2 : (pre 2).accelerationNearlyGravityCount = 2 := by
    rw [hcarry 1 r1 (by decide) hrun1, hc1]
  obtain ⟨r2, e2, hrun2, hc2, he2, hacc2⟩ := hstep 2 (by decide) h2
  have h3 : (pre 3).accelerationNearlyGravityCount = 3 := by
    rw [hcarry 2 r2 (by decide) hrun2, hc2]
  obtain ⟨r3, e3, hrun3, -, he3, hacc3⟩ := hstep 3 (by decide) h3
  refine ⟨⟨r2, e2, hrun2, he2, ?_⟩, ⟨r3, e3, hrun3, he3, ?_⟩⟩
  · rw [hacc2, if_neg (by decide)]
  · rw [hacc3, if_pos (by decide)]

theorem sqrtSearch_hundred : sqrtSearch 16 100 = 10 := by decide

theorem sqrtSearch_one : sqrtSearch 16 1 = 1 := by decide

theorem exampleFalling_nearlyGravity (k : Nat) :
    accelerationNearlyGravity exampleEnv (exampleFalling k).measuredAcceleration
      exampleEntity.gravity = true := by
  have h100 : exampleSqrt 100 = 10 := by
    unfold exampleSqrt
    have hn : (100 : ℚ).num.natAbs = 100 := rfl
    have hd : (100 : ℚ).den = 1 := rfl
    rw [hn, hd, sqrtSearch_hundred, sqrtSearch_one]
    norm_num
  have hlen : Vec3.length2 ⟨0, -10, 0⟩ = 100 := by
    norm_num [Vec3.length2]
  simp only [accelerationNearlyGravity, Env.length, exampleFalling, exampleEntity, exampleEnv,
    hlen, h100, ACCELERATION_EQUIVALENT_EPSILON_RATIO]
  norm_num

theorem exampleFalling_carry (k : Nat) (r : SendUpdateResult) (hk : k < 3)
    (h : sendUpdate exampleEnv [] exampleSession (k + 2) (exampleFalling k) = some r) :
    (exampleFalling (k + 1)).accelerationNearlyGravityCount
      = r.state.accelerationNearlyGravityCount := by
  obtain ⟨r1, -, hrun, hc, -, -⟩ := sendUpdate_active_step exampleEnv [] exampleSession (k + 2)
    (exampleFalling k) exampleEntity exampleBody rfl rfl (by decide)
  rw [hrun] at h
  simp only [Option.some.injEq] at h
  subst h
  rw [hc, exampleFalling_nearlyGravity k]
  show k + 1 = updateAccelerationNearlyGravityCount true k
  rw [updateAccelerationNearlyGravityCount_streak k (by omega)]

/-- Witness of C8: the example entity in free fall under its gravity of length 10; the third
send reports zero acceleration and the fourth reports gravity. -/
theorem sendUpdate_ballistic_after_four_witness :
    (∃ r entity2, sendUpdate exampleEnv [] exampleSession 4 (exampleFalling 2) = some r
        ∧ r.state.entity = some entity2 ∧ entity2.acceleration = Vec3.zero)
      ∧ (∃ r entity2, sendUpdate exampleEnv [] exampleSession 5 (exampleFalling 3) = some r
        ∧ r.state.entity = some entity2 ∧ entity2.acceleration = exampleEntity.gravity) :=
  sendUpdate_ballistic_after_four (fun _ => exampleEnv) (fun _ => []) (fun _ => exampleSession)
    (fun k => k + 2) exampleFalling (fun _ => exampleEntity) (fun _ => exampleBody)
    rfl (fun _ _ => rfl) (fun _ _ => rfl)
    (fun _ _ => (by decide : exampleBody.isActive = true))
    (fun k _ => exampleFalling_nearlyGravity k)
    (fun k r hk h => exampleFalling_carry k r hk h)

/-! ## `sendUpdate`: the update that is formed -/

/-- C11: after `sendUpdate` on an attached entity with a body, the belief equals the entity's
position, rotation, velocity, acceleration and angular velocity as they are at the end of the
call, the outgoing property set carries the same five values, and `_lastStep == step`. -/
theorem sendUpdate_refreshes_belief (env : Env) (packetSender : List EditMessage)
    (sessionID : QUuid) (step : Nat) (s : EntityMotionState) (entity : EntityItem)
    (body : RigidBody) (he : s.entity = some entity) (hb : s.body = some body) :
    ∃ r entity2, sendUpdate env packetSender sessionID step s = some r
      ∧ r.state.entity = some entity2
      ∧ r.state.serverPosition = entity2.position
      ∧ r.state.serverRotation = entity2.rotation
      ∧ r.state.serverVelocity = entity2.velocity
      ∧ r.state.serverAcceleration = entity2.acceleration
      ∧ r.state.serverAngularVelocity = entity2.angularVelocity
      ∧ r.properties.position = entity2.position
      ∧ r.properties.rotation = entity2.rotation
      ∧ r.properties.velocity = entity2.velocity
      ∧ r.properties.acceleration = entity2.acceleration
      ∧ r.properties.angularVelocity = entity2.angularVelocity
      ∧ r.state.lastStep = step := by
  unfold sendUpdate
  simp only [he, hb]
  split_ifs <;> exact ⟨_, _, rfl, rfl, rfl, rfl, rfl, rfl, rfl, rfl, rfl, rfl, rfl, rfl, rfl⟩

/-- Witness of C11: the fourth send of the example entity in free fall. -/
theorem sendUpdate_refreshes_belief_witness :
    ∃ r entity2, sendUpdate exampleEnv [] exampleSession 5 (exampleFalling 3) = some r
      ∧ r.state.entity = some entity2
      ∧ r.state.serverPosition = entity2.position
      ∧ r.state.serverRotation = entity2.rotation
      ∧ r.state.serverVelocity = entity2.velocity
      ∧ r.state.serverAcceleration = entity2.acceleration
      ∧ r.state.serverAngularVelocity = entity2.angularVelocity
      ∧ r.properties.position = entity2.position
      ∧ r.properties.rotation = entity2.rotation
      ∧ r.properties.velocity = entity2.velocity
      ∧ r.properties.acceleration = entity2.acceleration
      ∧ r.properties.angularVelocity = entity2.angularVelocity
      ∧ r.state.lastStep = 5 :=
  sendUpdate_refreshes_belief exampleEnv [] exampleSession 5 (exampleFalling 3) exampleEntity
    exampleBody rfl rfl

theorem outgoingSimulatorID_eq (sessionID : QUuid) (active : Bool) (entity : EntityItem) :
    outgoingSimulatorID sessionID active entity
      = (if sessionID = entity.simulatorID ∧ active = false then QUuid.null else sessionID) := by
  unfold outgoingSimulatorID
  cases active <;> by_cases h : sessionID = entity.simulatorID <;> simp [h]

theorem settleDerivatives_simulatorID (env : Env) (active : Bool) (entity : EntityItem)
    (s : EntityMotionState) :
    (settleDerivatives env active entity s).1.simulatorID = entity.simulatorID := by
  cases active
  · rfl
  · simp only [settleDerivatives, Bool.not_true, Bool.false_eq_true, if_false]
    unfold snapSlowVelocities decideAcceleration
    split_ifs <;> rfl

/-- C12: the simulator-owner field of the outgoing property set is null when the local session
is the entity's simulator and the body is inactive, and is the local session otherwise (an
owner with an active body, or a bid); the entity's own `simulatorID` is not modified. -/
theorem sendUpdate_stamps_simulator (env : Env) (packetSender : List EditMessage)
    (sessionID : QUuid) (step : Nat) (s : EntityMotionState) (entity : EntityItem)
    (body : RigidBody) (he : s.entity = some entity) (hb : s.body = some body) :
    ∃ r entity2, sendUpdate env packetSender sessionID step s = some r
      ∧ r.state.entity = some entity2
      ∧ r.properties.simulatorID
        = (if sessionID = entity.simulatorID ∧ body.isActive = false then QUuid.null
            else sessionID)
      ∧ entity2.simulatorID = entity.simulatorID := by
  unfold sendUpdate
  simp only [he, hb]
  cases hflag : env.sendPhysicsUpdates <;>
    simp only [Bool.false_eq_true, if_false, if_true] <;>
    refine ⟨_, _, rfl, rfl, ?_, settleDerivatives_simulatorID env _ entity s⟩ <;>
    simp only [outgoingSimulatorID_eq, settleDerivatives_simulatorID]

/-- Witness of C12: the owning session stopping (field cleared) and a bid of a session that
does not own the falling entity (field stamped). -/
theorem sendUpdate_stamps_simulator_witness :
    (∃ r entity2, sendUpdate exampleEnv [] exampleSession 2 exampleOwnedJustStopped = some r
        ∧ r.state.entity = some entity2
        ∧ r.properties.simulatorID = QUuid.null
        ∧ entity2.simulatorID = exampleSession)
      ∧ (∃ r entity2, sendUpdate exampleEnv [] exampleSession 5 (exampleFalling 3) = some r
        ∧ r.state.entity = some entity2
        ∧ r.properties.simulatorID = exampleSession
        ∧ entity2.simulatorID = QUuid.null) := by
  refine ⟨?_, ?_⟩
  · obtain ⟨r, entity2, hrun, he2, hsim, hkeep⟩ := sendUpdate_stamps_simulator exampleEnv []
      exampleSession 2 exampleOwnedJustStopped exampleOwnedEntity exampleSleepingBody rfl rfl
    exact ⟨r, entity2, hrun, he2, hsim.trans (by decide), hkeep⟩
  · obtain ⟨r, entity2, hrun, he2, hsim, hkeep⟩ := sendUpdate_stamps_simulator exampleEnv []
      exampleSession 5 (exampleFalling 3) exampleEntity exampleBody rfl rfl
    exact ⟨r, entity2, hrun, he2, hsim.trans (by decide), hkeep⟩

theorem remoteSimulationOutOfSync_of_sentInactive (env : Env) (step : Nat)
    (s : EntityMotionState) (body : RigidBody) (hb : s.body = some body)
    (hl : s.lastStep ≠ 0) (hs : s.sentActive = false) :
    remoteSimulationOutOfSync env step s
      = some (decide (INACTIVE_UPDATE_PERIOD < elapsedTime env step s.lastStep), s) := by
  simp [remoteSimulationOutOfSync, hb, hl, hs]

/-- C13: when the body is inactive `sendUpdate` sets the entity's velocity, angular velocity
and acceleration to zero and clears `_sentActive`, so that (for a step other than 0) the next
divergence check takes the fixed-cadence resend branch; when the body is active it sets
`_sentActive`. -/
theorem sendUpdate_sentActive (env : Env) (packetSender : List EditMessage)
    (sessionID : QUuid) (step : Nat) (s : EntityMotionState) (entity : EntityItem)
    (body : RigidBody) (he : s.entity = some entity) (hb : s.body = some body) :
    ∃ r entity2, sendUpdate env packetSender sessionID step s = some r
      ∧ r.state.entity = some entity2
      ∧ (body.isActive = false →
          entity2.velocity = Vec3.zero ∧ entity2.angularVelocity = Vec3.zero
            ∧ entity2.acceleration = Vec3.zero ∧ r.state.sentActive = false
            ∧ (step ≠ 0 → ∀ env2 step2, remoteSimulationOutOfSync env2 step2 r.state
                = some (decide ((1 : ℚ) / 2 < elapsedTime env2 step2 step), r.state)))
      ∧ (body.isActive = true → r.state.sentActive = true) := by
  have hrest : ∀ r : SendUpdateResult, r.state.body = some body → r.state.lastStep = step →
      r.state.sentActive = false → step ≠ 0 →
      ∀ env2 step2, remoteSimulationOutOfSync env2 step2 r.state
        = some (decide ((1 : ℚ) / 2 < elapsedTime env2 step2 step), r.state) := by
    intro r hrb hrl hrs hstep env2 step2
    rw [remoteSimulationOutOfSync_of_sentInactive env2 step2 r.state body hrb
      (by rw [hrl]; exact hstep) hrs, hrl]
    rfl
  unfold sendUpdate
  simp only [he, hb]
  cases ha : body.isActive <;> cases hflag : env.sendPhysicsUpdates <;>
    simp only [settleDerivatives, Bool.not_true, Bool.not_false, Bool.false_eq_true, if_false,
      if_true] <;>
    refine ⟨_, _, rfl, rfl, ?_, ?_⟩
  all_goals first
    | exact fun _ => ⟨rfl, rfl, rfl, rfl, fun hstep => hrest _ hb rfl rfl hstep⟩
    | exact fun _ => ⟨rfl, rfl, rfl, rfl, fun hstep => hrest _ rfl rfl rfl hstep⟩
    | exact fun _ => rfl
    | (intro h; simp at h)

/-- Witness of C13: the stop update of the example entity at step 2, after which the check at
step 40 falls under the resend rule, and an update of the falling entity. -/
theorem sendUpdate_sentActive_witness :
    (∃ r entity2, sendUpdate exampleEnv [] exampleSession 2 exampleOwnedJustStopped = some r
        ∧ r.state.entity = some entity2
        ∧ entity2.velocity = Vec3.zero ∧ entity2.angularVelocity = Vec3.zero
        ∧ entity2.acceleration = Vec3.zero ∧ r.state.sentActive = false
        ∧ remoteSimulationOutOfSync exampleEnv 40 r.state
          = some (decide ((1 : ℚ) / 2 < elapsedTime exampleEnv 40 2), r.state))
      ∧ (∃ r, sendUpdate exampleEnv [] exampleSession 5 (exampleFalling 3) = some r
        ∧ r.state.sentActive = true) := by
  refine ⟨?_, ?_⟩
  · obtain ⟨r, entity2, hrun, he2, hstop, -⟩ := sendUpdate_sentActive exampleEnv []
      exampleSession 2 exampleOwnedJustStopped exampleOwnedEntity exampleSleepingBody rfl rfl
    obtain ⟨hv, hw, hacc, hsent, hnext⟩ := hstop (by decide)
    exact ⟨r, entity2, hrun, he2, hv, hw, hacc, hsent, hnext (by decide) exampleEnv 40⟩
  · obtain ⟨r, -, hrun, -, -, hactive⟩ := sendUpdate_sentActive exampleEnv []
      exampleSession 5 (exampleFalling 3) exampleEntity exampleBody rfl rfl
    exact ⟨r, hrun, hactive (by decide)⟩

theorem snapSlowVelocities_velocity (entity : EntityItem) :
    (snapSlowVelocities entity).velocity
        = (if movingSlowly entity then Vec3.zero else entity.velocity)
      ∧ (snapSlowVelocities entity).angularVelocity
        = (if movingSlowly entity then Vec3.zero else entity.angularVelocity) := by
  unfold snapSlowVelocities
  split_ifs <;> exact ⟨rfl, rfl⟩

theorem decideAcceleration_velocity (count : Nat) (entity : EntityItem) :
    (decideAcceleration count entity).velocity = entity.velocity
      ∧ (decideAcceleration count entity).angularVelocity = entity.angularVelocity := by
  unfold decideAcceleration
  split_ifs <;> exact ⟨rfl, rfl⟩

theorem movingSlowly_decideAcceleration (count : Nat) (entity : EntityItem) :
    movingSlowly (decideAcceleration count entity) = true
      ↔ (Vec3.length2 entity.velocity < (5 : ℚ) / 100 * (5 / 100)
        ∧ Vec3.length2 entity.angularVelocity < (87266 : ℚ) / 1000000 * (87266 / 1000000)
        ∧ (decideAcceleration count entity).acceleration = Vec3.zero) := by
  obtain ⟨hv, hw⟩ := decideAcceleration_velocity count entity
  simp only [movingSlowly, hv, hw, DYNAMIC_LINEAR_VELOCITY_THRESHOLD,
    DYNAMIC_ANGULAR_VELOCITY_THRESHOLD, Bool.and_eq_true, decide_eq_true_eq, and_assoc]

theorem sendUpdate_active_entity (env : Env) (packetSender : List EditMessage)
    (sessionID : QUuid) (step : Nat) (s : EntityMotionState) (entity : EntityItem)
    (body : RigidBody) (he : s.entity = some entity) (hb : s.body = some body)
    (ha : body.isActive = true) :
    ∃ r entity2, sendUpdate env packetSender sessionID step s = some r
      ∧ r.state.entity = some entity2
      ∧ r.state.accelerationNearlyGravityCount
        = updateAccelerationNearlyGravityCount
            (accelerationNearlyGravity env s.measuredAcceleration entity.gravity)
            s.accelerationNearlyGravityCount
      ∧ entity2.acceleration
        = (decideAcceleration r.state.accelerationNearlyGravityCount entity).acceleration
      ∧ entity2.velocity
        = (snapSlowVelocities
            (decideAcceleration r.state.accelerationNearlyGravityCount entity)).velocity
      ∧ entity2.angularVelocity
        = (snapSlowVelocities
            (decideAcceleration r.state.accelerationNearlyGravityCount entity)).angularVelocity := by
  unfold sendUpdate
  simp only [he, hb, ha, settleDerivatives, Bool.not_true, Bool.false_eq_true, if_false]
  cases hflag : env.sendPhysicsUpdates <;>
    simp only [Bool.false_eq_true, if_false, if_true] <;>
    exact ⟨_, _, rfl, rfl, rfl, snapSlowVelocities_acceleration _, rfl, rfl⟩

/-- C14: for an active body `sendUpdate` sets the entity's linear and angular velocity to zero
when, after the acceleration decision, the squared linear speed is below `0.05^2`, the squared
angular speed is below `0.087266^2` and the entity's acceleration is zero; otherwise it leaves
both velocities as they were.  An entity classified ballistic under a non-zero gravity is
never snapped. -/
theorem sendUpdate_snaps_slow (env : Env) (packetSender : List EditMessage)
    (sessionID : QUuid) (step : Nat) (s : EntityMotionState) (entity : EntityItem)
    (body : RigidBody) (he : s.entity = some entity) (hb : s.body = some body)
    (ha : body.isActive = true) :
    ∃ r entity2, sendUpdate env packetSender sessionID step s = some r
      ∧ r.state.entity = some entity2
      ∧ ((Vec3.length2 entity.velocity < (5 : ℚ) / 100 * (5 / 100)
            ∧ Vec3.length2 entity.angularVelocity < (87266 : ℚ) / 1000000 * (87266 / 1000000)
            ∧ entity2.acceleration = Vec3.zero) →
          entity2.velocity = Vec3.zero ∧ entity2.angularVelocity = Vec3.zero)
      ∧ (¬ (Vec3.length2 entity.velocity < (5 : ℚ) / 100 * (5 / 100)
            ∧ Vec3.length2 entity.angularVelocity < (87266 : ℚ) / 1000000 * (87266 / 1000000)
            ∧ entity2.acceleration = Vec3.zero) →
          entity2.velocity = entity.velocity
            ∧ entity2.angularVelocity = entity.angularVelocity)
      ∧ (4 ≤ r.state.accelerationNearlyGravityCount → entity.gravity ≠ Vec3.zero →
          entity2.acceleration = entity.gravity
            ∧ entity2.velocity = entity.velocity
            ∧ entity2.angularVelocity = entity.angularVelocity) := by
  obtain ⟨r, entity2, hrun, he2, -, hacc, hv, hw⟩ := sendUpdate_active_entity env packetSender
    sessionID step s entity body he hb ha
  obtain ⟨hsv, hsw⟩ := snapSlowVelocities_velocity
    (decideAcceleration r.state.accelerationNearlyGravityCount entity)
  have hslow := movingSlowly_decideAcceleration r.state.accelerationNearlyGravityCount entity
  rw [← hacc] at hslow
  rw [hsv] at hv
  rw [hsw] at hw
  refine ⟨r, entity2, hrun, he2, ?_, ?_, ?_⟩
  · intro hcond
    rw [hv, hw, if_pos (hslow.mpr hcond), if_pos (hslow.mpr hcond)]
    exact ⟨rfl, rfl⟩
  · intro hcond
    have hnot : ¬ movingSlowly
        (decideAcceleration r.state.accelerationNearlyGravityCount entity) = true :=
      fun h => hcond (hslow.mp h)
    rw [hv, hw, if_neg hnot, if_neg hnot]
    exact decideAcceleration_velocity _ entity
  · intro hcount hgrav
    have hg : entity2.acceleration = entity.gravity := by
      rw [hacc, decideAcceleration_acceleration, if_pos hcount]
    have hnot : ¬ movingSlowly
        (decideAcceleration r.state.accelerationNearlyGravityCount entity) = true := by
      intro h
      exact hgrav (hg.symm.trans (hslow.mp h).2.2)
    rw [hv, hw, if_neg hnot, if_neg hnot]
    exact ⟨hg, decideAcceleration_velocity _ entity⟩

theorem updateAccelerationNearlyGravityCount_zero (nearlyGravity : Bool) :
    ¬ 4 ≤ updateAccelerationNearlyGravityCount nearlyGravity 0 := by
  cases nearlyGravity <;> decide

/-- Witness of C14: the creeping example entity is snapped to rest, and the example entity on
its fourth near-gravity send keeps its velocities. -/
theorem sendUpdate_snaps_slow_witness :
    (∃ r entity2, sendUpdate exampleEnv [] exampleSession 5 exampleSlow = some r
        ∧ r.state.entity = some entity2
        ∧ entity2.velocity = Vec3.zero ∧ entity2.angularVelocity = Vec3.zero)
      ∧ (∃ r entity2, sendUpdate exampleEnv [] exampleSession 5 (exampleFalling 3) = some r
        ∧ r.state.entity = some entity2
        ∧ entity2.acceleration = exampleEntity.gravity
        ∧ entity2.velocity = exampleEntity.velocity
        ∧ entity2.angularVelocity = exampleEntity.angularVelocity) := by
  refine ⟨?_, ?_⟩
  · obtain ⟨r, entity2, hrun, he2, hsnap, -, -⟩ := sendUpdate_snaps_slow exampleEnv []
      exampleSession 5 exampleSlow exampleSlowEntity exampleBody rfl rfl (by decide)
    obtain ⟨r1, entity3, hrun1, he3, hcount, hacc, -, -⟩ := sendUpdate_active_entity exampleEnv
      [] exampleSession 5 exampleSlow exampleSlowEntity exampleBody rfl rfl (by decide)
    rw [hrun] at hrun1
    simp only [Option.some.injEq] at hrun1
    subst hrun1
    rw [he2] at he3
    simp only [Option.some.injEq] at he3
    subst he3
    have hzero : entity2.acceleration = Vec3.zero := by
      have h0 : exampleSlow.accelerationNearlyGravityCount = 0 := rfl
      rw [hacc, decideAcceleration_acceleration, hcount, h0,
        if_neg (updateAccelerationNearlyGravityCount_zero _)]
    obtain ⟨hv, hw⟩ := hsnap ⟨by norm_num [exampleSlowEntity, Vec3.length2],
      by norm_num [exampleSlowEntity, exampleEntity, Vec3.length2, Vec3.zero], hzero⟩
    exact ⟨r, entity2, hrun, he2, hv, hw⟩
  · obtain ⟨r, entity2, hrun, he2, -, -, hballistic⟩ := sendUpdate_snaps_slow exampleEnv []
      exampleSession 5 (exampleFalling 3) exampleEntity exampleBody rfl rfl (by decide)
    obtain ⟨r1, -, hrun1, -, hcount, -, -, -⟩ := sendUpdate_active_entity exampleEnv
      [] exampleSession 5 (exampleFalling 3) exampleEntity exampleBody rfl rfl (by decide)
    rw [hrun] at hrun1
    simp only [Option.some.injEq] at hrun1
    subst hrun1
    have h4 : 4 ≤ r.state.accelerationNearlyGravityCount := by
      rw [hcount, exampleFalling_nearlyGravity 3]
      show 4 ≤ updateAccelerationNearlyGravityCount true 3
      rw [updateAccelerationNearlyGravityCount_streak 3 (by decide)]
    exact ⟨r, entity2, hrun, he2, hballistic h4 (by decide)⟩

/-- C15: with the send-physics-updates flag set `sendUpdate` appends exactly one entity-edit
to the outgoing queue, with the flag clear it appends none; the property set formed is the
same in both runs, and the motion states agree in every field except the entity's
`lastBroadcast`, which only the flag-set run stamps.  In both runs `lastEdited` is
`lastSimulated`. -/
theorem sendUpdate_flag_frame (env : Env) (packetSender : List EditMessage)
    (sessionID : QUuid) (step : Nat) (s : EntityMotionState) (entity : EntityItem)
    (body : RigidBody) (he : s.entity = some entity) (hb : s.body = some body) :
    ∃ r1 r0 entity1 entity0,
      sendUpdate { env with sendPhysicsUpdates := true } packetSender sessionID step s = some r1
      ∧ sendUpdate { env with sendPhysicsUpdates := false } packetSender sessionID step s
        = some r0
      ∧ r1.packetSender = packetSender ++ [{ id := entity.id, properties := r1.properties }]
      ∧ r0.packetSender = packetSender
      ∧ r0.properties = r1.properties
      ∧ r1.state.entity = some entity1
      ∧ r0.state.entity = some entity0
      ∧ entity1 = { entity0 with lastBroadcast := env.usecTimestampNow }
      ∧ entity0.lastBroadcast = entity.lastBroadcast
      ∧ entity0.lastEdited = entity0.lastSimulated
      ∧ r1.state = { r0.state with entity := some entity1 } := by
  have hid : ∀ active, (settleDerivatives env active entity s).1.id = entity.id
      ∧ (settleDerivatives env active entity s).1.lastBroadcast = entity.lastBroadcast := by
    intro active
    cases active
    · exact ⟨rfl, rfl⟩
    · simp only [settleDerivatives, Bool.not_true, Bool.false_eq_true, if_false]
      unfold snapSlowVelocities decideAcceleration
      split_ifs <;> exact ⟨rfl, rfl⟩
  unfold sendUpdate
  simp only [he, hb, Bool.false_eq_true, if_false, if_true]
  refine ⟨_, _, _, _, rfl, rfl, ?_, rfl, rfl, rfl, rfl, rfl, ?_, rfl, rfl⟩
  · have h := (hid body.isActive).1
    simp only at h ⊢
    rw [← h]
    rfl
  · exact (hid body.isActive).2

/-- Witness of C15: the fourth send of the example entity in free fall, with the flag set and
with the flag clear. -/
theorem sendUpdate_flag_frame_witness :
    ∃ r1 r0 entity1 entity0,
      sendUpdate { exampleEnv with sendPhysicsUpdates := true } [] exampleSession 5
          (exampleFalling 3) = some r1
      ∧ sendUpdate { exampleEnv with sendPhysicsUpdates := false } [] exampleSession 5
          (exampleFalling 3) = some r0
      ∧ r1.packetSender = [] ++ [{ id := exampleEntity.id, properties := r1.properties }]
      ∧ r0.packetSender = []
      ∧ r0.properties = r1.properties
      ∧ r1.state.entity = some entity1
      ∧ r0.state.entity = some entity0
      ∧ entity1 = { entity0 with lastBroadcast := exampleEnv.usecTimestampNow }
      ∧ entity0.lastBroadcast = exampleEntity.lastBroadcast
      ∧ entity0.lastEdited = entity0.lastSimulated
      ∧ r1.state = { r0.state with entity := some entity1 } :=
  sendUpdate_flag_frame exampleEnv [] exampleSession 5 (exampleFalling 3) exampleEntity
    exampleBody rfl rfl

/-! ## The change handlers -/

theorem updateServerPhysicsVariables_attached (env : Env) (flags : Nat)
    (s : EntityMotionState) (entity : EntityItem) (he : s.entity = some entity) :
    updateServerPhysicsVariables env flags s
      = some { s with
          serverPosition :=
            if hasFlag flags env.DIRTY_POSITION then entity.position else s.serverPosition
          serverRotation :=
            if hasFlag flags env.DIRTY_ROTATION then entity.rotation else s.serverRotation
          serverVelocity :=
            if hasFlag flags env.DIRTY_LINEAR_VELOCITY then entity.velocity
            else s.serverVelocity
          serverAngularVelocity :=
            if hasFlag flags env.DIRTY_ANGULAR_VELOCITY then entity.angularVelocity
            else s.serverAngularVelocity } := by
  unfold updateServerPhysicsVariables copyIfDirty
  cases h1 : hasFlag flags env.DIRTY_POSITION <;>
    cases h2 : hasFlag flags env.DIRTY_ROTATION <;>
    cases h3 : hasFlag flags env.DIRTY_LINEAR_VELOCITY <;>
    cases h4 : hasFlag flags env.DIRTY_ANGULAR_VELOCITY <;>
    first
      | (simp [he]; done)
      | (simp [he]; rw [← he])

theorem updateServerPhysicsVariables_clean (env : Env) (flags : Nat) (s : EntityMotionState)
    (h1 : hasFlag flags env.DIRTY_POSITION = false)
    (h2 : hasFlag flags env.DIRTY_ROTATION = false)
    (h3 : hasFlag flags env.DIRTY_LINEAR_VELOCITY = false)
    (h4 : hasFlag flags env.DIRTY_ANGULAR_VELOCITY = false) :
    updateServerPhysicsVariables env flags s = some s := by
  simp [updateServerPhysicsVariables, copyIfDirty, h1, h2, h3, h4]

theorem hasFlag_clearFlag (flags mask : Nat) (hm : mask < 4294967296) :
    hasFlag (clearFlag flags mask) mask = false := by
  have hzero : (flags &&& (mask ^^^ 4294967295)) &&& mask = 0 := by
    apply Nat.eq_of_testBit_eq
    intro i
    have hall : (4294967295 : Nat) = 2 ^ 32 - 1 := by norm_num
    rw [Nat.testBit_and, Nat.testBit_and, Nat.testBit_xor, hall, Nat.testBit_two_pow_sub_one,
      Nat.zero_testBit]
    by_cases hi : i < 32
    · cases Nat.testBit mask i <;> simp [hi]
    · have hbit : Nat.testBit mask i = false := by
        apply Nat.testBit_eq_false_of_lt
        calc mask < 2 ^ 32 := by simpa using hm
          _ ≤ 2 ^ i := Nat.pow_le_pow_right (by decide) (by omega)
      simp [hbit]
  simp [hasFlag, clearFlag, hzero]

theorem activateIfDirty_frame (env : Env) (flags : Nat) (s : EntityMotionState)
    (body : RigidBody) (hb : s.body = some body) :
    ∃ s1, activateIfDirty env flags s = some s1
      ∧ s1.entity = s.entity
      ∧ s1.loopsWithoutOwner = s.loopsWithoutOwner
      ∧ s1.candidateForOwnership = s.candidateForOwnership
      ∧ s1.loopsSinceOwnershipBid = s.loopsSinceOwnershipBid
      ∧ remoteBelief s1 = remoteBelief s
      ∧ (hasFlag flags env.DIRTY_PHYSICS_ACTIVATION = false → s1 = s) := by
  unfold activateIfDirty
  cases hflag : hasFlag flags env.DIRTY_PHYSICS_ACTIVATION
  · exact ⟨s, by simp, rfl, rfl, rfl, rfl, rfl, fun _ => rfl⟩
  · cases hact : body.isActive
    · exact ⟨{ s with body := some (env.activate body) }, by simp [hb, hact], rfl, rfl, rfl,
        rfl, rfl, fun h => by simp at h⟩
    · exact ⟨s, by simp [hb, hact], rfl, rfl, rfl, rfl, rfl, fun _ => rfl⟩

theorem handleSimulatorIdChange_clean (env : Env) (flags : Nat) (s : EntityMotionState)
    (hsim : hasFlag flags env.DIRTY_SIMULATOR_ID = false) :
    handleSimulatorIdChange env flags s = some (flags, s) := by
  simp [handleSimulatorIdChange, hsim]

theorem handleSimulatorIdChange_deactivate (env : Env) (flags : Nat) (s : EntityMotionState)
    (entity : EntityItem) (body : RigidBody) (he : s.entity = some entity)
    (hb : s.body = some body) (hsim : hasFlag flags env.DIRTY_SIMULATOR_ID = true)
    (hnull : entity.simulatorID.isNull = true) (hrest : env.entityIsMoving entity = false)
    (hact : body.isActive = true) :
    handleSimulatorIdChange env flags s
      = some (clearFlag flags env.DIRTY_PHYSICS_ACTIVATION,
          { s with
            loopsWithoutOwner := 0
            candidateForOwnership := false
            body := some (env.setActivationState ActivationState.WANTS_DEACTIVATION body) }) := by
  simp [handleSimulatorIdChange, hsim, he, hb, hnull, hrest, hact]

theorem handleSimulatorIdChange_keep (env : Env) (flags : Nat) (s : EntityMotionState)
    (entity : EntityItem) (body : RigidBody) (he : s.entity = some entity)
    (hb : s.body = some body) (hsim : hasFlag flags env.DIRTY_SIMULATOR_ID = true)
    (hnot : ¬ (entity.simulatorID.isNull = true ∧ env.entityIsMoving entity = false
      ∧ body.isActive = true)) :
    handleSimulatorIdChange env flags s
      = some (flags, resetBidUnlessOwner env entity
          { s with loopsWithoutOwner := 0, candidateForOwnership := false }) := by
  unfold handleSimulatorIdChange
  simp only [hsim, if_true, he, hb]
  cases hnull : entity.simulatorID.isNull <;> cases hrest : env.entityIsMoving entity <;>
    cases hact : body.isActive <;> simp_all

theorem handleEasyChanges_of_updated (env : Env) (flags : Nat) (s s1 : EntityMotionState)
    (hupd : updateServerPhysicsVariables env flags s = some s1) :
    handleEasyChanges env flags s
      = (handleSimulatorIdChange env flags
          { s1 with body := env.objectHandleEasyChanges flags s1.entity s1.body }).bind
        fun r => activateIfDirty env r.1 r.2 := by
  unfold handleEasyChanges
  rw [hupd]
  rfl

theorem resetBidUnlessOwner_fields (env : Env) (entity : EntityItem) (s : EntityMotionState) :
    (resetBidUnlessOwner env entity s).entity = s.entity
      ∧ (resetBidUnlessOwner env entity s).body = s.body
      ∧ (resetBidUnlessOwner env entity s).loopsWithoutOwner = s.loopsWithoutOwner
      ∧ (resetBidUnlessOwner env entity s).candidateForOwnership = s.candidateForOwnership
      ∧ (resetBidUnlessOwner env entity s).loopsSinceOwnershipBid
        = (if entity.simulatorID ≠ env.sessionUUID then 0 else s.loopsSinceOwnershipBid)
      ∧ remoteBelief (resetBidUnlessOwner env entity s) = remoteBelief s := by
  unfold resetBidUnlessOwner
  split_ifs <;> exact ⟨rfl, rfl, rfl, rfl, rfl, rfl⟩

/-- C16: `handleEasyChanges` with `DIRTY_SIMULATOR_ID` set clears `_loopsWithoutOwner` and the
candidate flag.  If the entity's simulator is null, the entity is not moving and the body (as
the base class left it) is active, the body is handed to `setActivationState` with
`WANTS_DEACTIVATION` and is not activated by this call, whatever the other flags, and the bid
counter is kept; otherwise the bid counter becomes 0 exactly when the simulator differs from
the local session.  Without `DIRTY_SIMULATOR_ID` the three ownership fields are unchanged. -/
theorem handleEasyChanges_simulator_id (env : Env) (flags : Nat) (s : EntityMotionState)
    (entity : EntityItem) (body : RigidBody) (he : s.entity = some entity)
    (hb : env.objectHandleEasyChanges flags (some entity) s.body = some body)
    (hmask : env.DIRTY_PHYSICS_ACTIVATION < 4294967296) :
    ∃ s2, handleEasyChanges env flags s = some s2
      ∧ (hasFlag flags env.DIRTY_SIMULATOR_ID = true →
          s2.loopsWithoutOwner = 0 ∧ s2.candidateForOwnership = false
            ∧ ((entity.simulatorID.isNull = true ∧ env.entityIsMoving entity = false
                  ∧ body.isActive = true) →
                s2.body
                    = some (env.setActivationState ActivationState.WANTS_DEACTIVATION body)
                  ∧ s2.loopsSinceOwnershipBid = s.loopsSinceOwnershipBid)
            ∧ (¬ (entity.simulatorID.isNull = true ∧ env.entityIsMoving entity = false
                  ∧ body.isActive = true) →
                s2.loopsSinceOwnershipBid
                  = (if entity.simulatorID ≠ env.sessionUUID then 0
                      else s.loopsSinceOwnershipBid)))
      ∧ (hasFlag flags env.DIRTY_SIMULATOR_ID = false →
          s2.loopsWithoutOwner = s.loopsWithoutOwner
            ∧ s2.candidateForOwnership = s.candidateForOwnership
            ∧ s2.loopsSinceOwnershipBid = s.loopsSinceOwnershipBid) := by
  have hupd := updateServerPhysicsVariables_attached env flags s entity he
  rw [handleEasyChanges_of_updated env flags s _ hupd]
  simp only [he, hb]
  cases hsim : hasFlag flags env.DIRTY_SIMULATOR_ID
  · rw [handleSimulatorIdChange_clean env flags _ hsim]
    obtain ⟨s2, hrun, -, h1, h2, h3, -, -⟩ := activateIfDirty_frame env flags
      { s with
        body := some body
        serverPosition :=
          if hasFlag flags env.DIRTY_POSITION then entity.position else s.serverPosition
        serverRotation :=
          if hasFlag flags env.DIRTY_ROTATION then entity.rotation else s.serverRotation
        serverVelocity :=
          if hasFlag flags env.DIRTY_LINEAR_VELOCITY then entity.velocity
          else s.serverVelocity
        serverAngularVelocity :=
          if hasFlag flags env.DIRTY_ANGULAR_VELOCITY then entity.angularVelocity
          else s.serverAngularVelocity } body rfl
    refine ⟨s2, ?_, fun h => by simp at h, fun _ => ⟨h1, h2, h3⟩⟩
    simpa [he] using hrun
  · by_cases hd : entity.simulatorID.isNull = true ∧ env.entityIsMoving entity = false
        ∧ body.isActive = true
    · rw [handleSimulatorIdChange_deactivate env flags _ entity body rfl rfl hsim hd.1 hd.2.1
        hd.2.2]
      obtain ⟨s2, hrun, -, h1, h2, h3, -, hsame⟩ := activateIfDirty_frame env
        (clearFlag flags env.DIRTY_PHYSICS_ACTIVATION)
        { s with
          loopsWithoutOwner := 0
          candidateForOwnership := false
          body := some (env.setActivationState ActivationState.WANTS_DEACTIVATION body)
          serverPosition :=
            if hasFlag flags env.DIRTY_POSITION then entity.position else s.serverPosition
          serverRotation :=
            if hasFlag flags env.DIRTY_ROTATION then entity.rotation else s.serverRotation
          serverVelocity :=
            if hasFlag flags env.DIRTY_LINEAR_VELOCITY then entity.velocity
            else s.serverVelocity
          serverAngularVelocity :=
            if hasFlag flags env.DIRTY_ANGULAR_VELOCITY then entity.angularVelocity
            else s.serverAngularVelocity }
        (env.setActivationState ActivationState.WANTS_DEACTIVATION body) rfl
      have hbody := hsame (hasFlag_clearFlag flags env.DIRTY_PHYSICS_ACTIVATION hmask)
      refine ⟨s2, ?_, fun _ => ⟨h1, h2, fun _ => ⟨by rw [hbody], h3⟩, fun h => absurd hd h⟩,
        fun h => by simp at h⟩
      simpa [he] using hrun
    · rw [handleSimulatorIdChange_keep env flags _ entity body rfl rfl hsim hd]
      obtain ⟨hr1, hr2, hr3, hr4, hr5, -⟩ := resetBidUnlessOwner_fields env entity
        { s with
          loopsWithoutOwner := 0
          candidateForOwnership := false
          body := some body
          serverPosition :=
            if hasFlag flags env.DIRTY_POSITION then entity.position else s.serverPosition
          serverRotation :=
            if hasFlag flags env.DIRTY_ROTATION then entity.rotation else s.serverRotation
          serverVelocity :=
            if hasFlag flags env.DIRTY_LINEAR_VELOCITY then entity.velocity
            else s.serverVelocity
          serverAngularVelocity :=
            if hasFlag flags env.DIRTY_ANGULAR_VELOCITY then entity.angularVelocity
            else s.serverAngularVelocity }
      obtain ⟨s2, hrun, -, h1, h2, h3, -, -⟩ := activateIfDirty_frame env flags _ body hr2
      refine ⟨s2, ?_, fun _ => ⟨h1.trans hr3, h2.trans hr4, fun h => absurd h hd,
        fun _ => h3.trans hr5⟩, fun h => by simp at h⟩
      simpa [he] using hrun

/-- Witness of C16: the simulator of the resting example entity is cleared while the physics
activation bit is set too, and the simulator of the moving example entity passes to another
session. -/
theorem handleEasyChanges_simulator_id_witness :
    (∃ s2, handleEasyChanges exampleEnv 6144 (exampleCounting exampleRestingEntity) = some s2
        ∧ s2.loopsWithoutOwner = 0 ∧ s2.candidateForOwnership = false
        ∧ s2.body
          = some { exampleBody with activationState := ActivationState.WANTS_DEACTIVATION }
        ∧ s2.loopsSinceOwnershipBid = 7)
      ∧ (∃ s2, handleEasyChanges exampleEnv 4096 (exampleCounting exampleForeignEntity) = some s2
        ∧ s2.loopsWithoutOwner = 0 ∧ s2.candidateForOwnership = false
        ∧ s2.loopsSinceOwnershipBid = 0) := by
  refine ⟨?_, ?_⟩
  · obtain ⟨s2, hrun, hsim, -⟩ := handleEasyChanges_simulator_id exampleEnv 6144
      (exampleCounting exampleRestingEntity) exampleRestingEntity exampleBody rfl rfl
      (by decide)
    obtain ⟨h1, h2, hdeact, -⟩ := hsim (by decide)
    obtain ⟨hbody, hbid⟩ := hdeact ⟨by decide, by decide, by decide⟩
    exact ⟨s2, hrun, h1, h2, hbody.trans (by decide), hbid⟩
  · obtain ⟨s2, hrun, hsim, -⟩ := handleEasyChanges_simulator_id exampleEnv 4096
      (exampleCounting exampleForeignEntity) exampleForeignEntity exampleBody rfl rfl
      (by decide)
    obtain ⟨h1, h2, -, hkeep⟩ := hsim (by decide)
    exact ⟨s2, hrun, h1, h2, (hkeep (by decide)).trans (by decide)⟩

/-! ## Detachment -/

/-- Counterexample to C17 as stated: on the detached example state `shouldSendUpdate` and
`sendUpdate` fail `assert(_entity)`, and `handleEasyChanges` with the position bit reads
through the null `_entity`; none of them is a defined no-op. -/
theorem clearEntity_not_all_noops :
    (clearEntity exampleJustStopped).entity = none
      ∧ shouldSendUpdate exampleEnv 2 exampleSession (clearEntity exampleJustStopped) = none
      ∧ sendUpdate exampleEnv [] exampleSession 2 (clearEntity exampleJustStopped) = none
      ∧ handleEasyChanges exampleEnv exampleEnv.DIRTY_POSITION (clearEntity exampleJustStopped)
        = none := by
  refine ⟨rfl, rfl, rfl, ?_⟩
  simp [handleEasyChanges, updateServerPhysicsVariables, copyIfDirty, clearEntity, hasFlag,
    exampleEnv]

/-- C17, amended: after `clearEntity()` the entity is gone and the type is invalid;
`getWorldTransform`, `setWorldTransform` and `computeObjectShapeInfo` change nothing,
`getAndClearIncomingDirtyFlags` returns 0, `isMoving` and `isCandidateForOwnership` are false,
`getSimulatorID` is null, `getName` is empty and `computeObjectMotionType` is static; while
`shouldSendUpdate` and `sendUpdate` fail their `assert(_entity)`. -/
theorem clearEntity_noops (env : Env) (s : EntityMotionState) (worldTrans : Transform)
    (origin : Vec3) (rotation : Quat) (shapeInfo : ShapeInfo) (sessionID : QUuid)
    (step : Nat) (packetSender : List EditMessage) :
    (clearEntity s).entity = none
      ∧ (clearEntity s).type = MotionStateType.MOTION_STATE_TYPE_INVALID
      ∧ getWorldTransform env worldTrans (clearEntity s) = (worldTrans, clearEntity s)
      ∧ setWorldTransform env origin rotation (clearEntity s) = some (clearEntity s)
      ∧ computeObjectShapeInfo env shapeInfo (clearEntity s) = shapeInfo
      ∧ getAndClearIncomingDirtyFlags env (clearEntity s) = (0, clearEntity s)
      ∧ isMoving env (clearEntity s) = false
      ∧ isCandidateForOwnership sessionID (clearEntity s) = false
      ∧ getSimulatorID (clearEntity s) = QUuid.null
      ∧ getName (clearEntity s) = ""
      ∧ computeObjectMotionType env (clearEntity s) = MotionType.MOTION_TYPE_STATIC
      ∧ shouldSendUpdate env step sessionID (clearEntity s) = none
      ∧ sendUpdate env packetSender sessionID step (clearEntity s) = none := by
  refine ⟨rfl, rfl, rfl, rfl, rfl, ?_, rfl, ?_, rfl, rfl, rfl, rfl, rfl⟩
  · unfold getAndClearIncomingDirtyFlags clearEntity
    cases s.body <;> rfl
  · unfold isCandidateForOwnership clearEntity
    cases s.body <;> rfl

/-! ## Who writes the belief -/

theorem handleSimulatorIdChange_belief (env : Env) (flags : Nat) (s : EntityMotionState)
    (r : Nat × EntityMotionState) (h : handleSimulatorIdChange env flags s = some r) :
    remoteBelief r.2 = remoteBelief s := by
  unfold handleSimulatorIdChange at h
  split_ifs at h
  · dsimp only at h
    split at h
    · simp at h
    · split_ifs at h
      · split at h
        · simp at h
        · split_ifs at h <;> simp only [Option.some.injEq] at h <;> subst h
          · rfl
          · exact (resetBidUnlessOwner_fields env _ _).2.2.2.2.2
      · simp only [Option.some.injEq] at h
        subst h
        exact (resetBidUnlessOwner_fields env _ _).2.2.2.2.2
  · simp only [Option.some.injEq] at h
    subst h
    rfl

theorem activateIfDirty_belief (env : Env) (flags : Nat) (s s1 : EntityMotionState)
    (h : activateIfDirty env flags s = some s1) : remoteBelief s1 = remoteBelief s := by
  unfold activateIfDirty at h
  split_ifs at h
  · split at h
    · simp at h
    · split_ifs at h <;> simp only [Option.some.injEq] at h <;> subst h <;> rfl
  · simp only [Option.some.injEq] at h
    subst h
    rfl

theorem handleEasyChanges_belief (env : Env) (flags : Nat) (s s2 : EntityMotionState)
    (h : handleEasyChanges env flags s = some s2) :
    ∃ s1, updateServerPhysicsVariables env flags s = some s1
      ∧ remoteBelief s2 = remoteBelief s1 := by
  cases hupd : updateServerPhysicsVariables env flags s with
  | none => simp [handleEasyChanges, hupd] at h
  | some s1 =>
    rw [handleEasyChanges_of_updated env flags s s1 hupd] at h
    cases hsim : handleSimulatorIdChange env flags
        { s1 with body := env.objectHandleEasyChanges flags s1.entity s1.body } with
    | none => simp [hsim] at h
    | some r =>
      rw [hsim] at h
      have h1 := handleSimulatorIdChange_belief env flags _ r hsim
      have h2 := activateIfDirty_belief env r.1 r.2 s2 h
      exact ⟨s1, rfl, h2.trans h1⟩

theorem measureBodyAcceleration_belief (env : Env) (s s1 : EntityMotionState)
    (h : measureBodyAcceleration env s = some s1) :
    remoteBelief s1 = remoteBelief s ∧ s1.entity = s.entity := by
  unfold measureBodyAcceleration at h
  dsimp only at h
  split_ifs at h
  · split at h
    · simp at h
    · simp only [Option.some.injEq] at h
      subst h
      exact ⟨rfl, rfl⟩
  · simp only [Option.some.injEq] at h
    subst h
    exact ⟨rfl, rfl⟩

theorem updateLoopsWithoutOwner_belief (simulatorID : QUuid) (s : EntityMotionState) :
    remoteBelief (updateLoopsWithoutOwner simulatorID s) = remoteBelief s := by
  unfold updateLoopsWithoutOwner
  dsimp only
  split_ifs <;> rfl

theorem setWorldTransform_belief (env : Env) (origin : Vec3) (rotation : Quat)
    (s s2 : EntityMotionState) (h : setWorldTransform env origin rotation s = some s2) :
    remoteBelief s2 = remoteBelief s := by
  unfold setWorldTransform at h
  split at h
  · simp only [Option.some.injEq] at h
    subst h
    rfl
  · split at h
    · simp at h
    · rename_i s1 hm
      obtain ⟨hbelief, -⟩ := measureBodyAcceleration_belief env s s1 hm
      split at h
      · simp only [Option.some.injEq] at h
        subst h
        exact (updateLoopsWithoutOwner_belief _ _).trans hbelief
      · simp at h

theorem getWorldTransform_belief (env : Env) (worldTrans : Transform) (s : EntityMotionState) :
    remoteBelief (getWorldTransform env worldTrans s).2 = remoteBelief s := by
  unfold getWorldTransform
  split
  · rfl
  · dsimp only
    split_ifs <;> rfl

theorem getAndClearIncomingDirtyFlags_belief (env : Env) (s : EntityMotionState) :
    remoteBelief (getAndClearIncomingDirtyFlags env s).2 = remoteBelief s := by
  unfold getAndClearIncomingDirtyFlags
  split <;> rfl

/-- Counterexample to C18 as stated: `handleEasyChanges` with the position bit, and
`handleHardAndEasyChanges` likewise, overwrite `_serverPosition` of the example state, whose
belief was at `(-1, 0, 0)`, with the entity's position. -/
theorem handleEasyChanges_overwrites_belief :
    (exampleCounting exampleEntity).serverPosition = ⟨-1, 0, 0⟩
      ∧ handleEasyChanges exampleEnv exampleEnv.DIRTY_POSITION (exampleCounting exampleEntity)
        = some { exampleCounting exampleEntity with serverPosition := exampleEntity.position }
      ∧ handleHardAndEasyChanges exampleEnv exampleEnv.DIRTY_POSITION
          (exampleCounting exampleEntity)
        = some { exampleCounting exampleEntity with serverPosition := exampleEntity.position }
      ∧ remoteBelief
          { exampleCounting exampleEntity with serverPosition := exampleEntity.position }
        ≠ remoteBelief (exampleCounting exampleEntity) := by
  refine ⟨rfl, by decide, by decide, by decide⟩

/-- C18, amended: the belief (`_serverPosition`, `_serverRotation`, `_serverVelocity`,
`_serverAngularVelocity`, `_serverAcceleration`, `_lastStep`) is left unchanged by
`getWorldTransform`, `setWorldTransform`, `bump`, `clearEntity`, `setMotionType` and
`getAndClearIncomingDirtyFlags`.  `handleEasyChanges` and `handleHardAndEasyChanges` first copy
the entity's position, rotation, velocity and angular velocity into the belief, each when its
dirty bit is set in the flags (`updateServerPhysicsVariables`); `handleEasyChanges` changes
nothing else of the belief, and nothing at all when none of the four bits is set. -/
theorem remoteBelief_writers (env : Env) (s : EntityMotionState) (worldTrans : Transform)
    (origin : Vec3) (rotation : Quat) (motionType : MotionType) (flags : Nat) :
    remoteBelief (getWorldTransform env worldTrans s).2 = remoteBelief s
      ∧ (∀ s2, setWorldTransform env origin rotation s = some s2 →
          remoteBelief s2 = remoteBelief s)
      ∧ remoteBelief (bump s) = remoteBelief s
      ∧ remoteBelief (clearEntity s) = remoteBelief s
      ∧ remoteBelief (setMotionType env motionType s) = remoteBelief s
      ∧ remoteBelief (getAndClearIncomingDirtyFlags env s).2 = remoteBelief s
      ∧ (∀ entity s2, s.entity = some entity → handleEasyChanges env flags s = some s2 →
          remoteBelief s2
            = { position :=
                  if hasFlag flags env.DIRTY_POSITION then entity.position
                  else s.serverPosition
                rotation :=
                  if hasFlag flags env.DIRTY_ROTATION then entity.rotation
                  else s.serverRotation
                velocity :=
                  if hasFlag flags env.DIRTY_LINEAR_VELOCITY then entity.velocity
                  else s.serverVelocity
                angularVelocity :=
                  if hasFlag flags env.DIRTY_ANGULAR_VELOCITY then entity.angularVelocity
                  else s.serverAngularVelocity
                acceleration := s.serverAcceleration
                lastStep := s.lastStep })
      ∧ (∀ entity, s.entity = some entity →
          handleHardAndEasyChanges env flags s
            = env.objectHandleHardAndEasyChanges flags
                { s with
                  serverPosition :=
                    if hasFlag flags env.DIRTY_POSITION then entity.position
                    else s.serverPosition
                  serverRotation :=
                    if hasFlag flags env.DIRTY_ROTATION then entity.rotation
                    else s.serverRotation
                  serverVelocity :=
                    if hasFlag flags env.DIRTY_LINEAR_VELOCITY then entity.velocity
                    else s.serverVelocity
                  serverAngularVelocity :=
                    if hasFlag flags env.DIRTY_ANGULAR_VELOCITY then entity.angularVelocity
                    else s.serverAngularVelocity })
      ∧ (hasFlag flags env.DIRTY_POSITION = false → hasFlag flags env.DIRTY_ROTATION = false →
          hasFlag flags env.DIRTY_LINEAR_VELOCITY = false →
          hasFlag flags env.DIRTY_ANGULAR_VELOCITY = false →
          ∀ s2, handleEasyChanges env flags s = some s2 →
            remoteBelief s2 = remoteBelief s) := by
  refine ⟨getWorldTransform_belief env worldTrans s,
    fun s2 h => setWorldTransform_belief env origin rotation s s2 h, rfl, rfl, rfl,
    getAndClearIncomingDirtyFlags_belief env s, ?_, ?_, ?_⟩
  · intro entity s2 he h
    obtain ⟨s1, hupd, hbelief⟩ := handleEasyChanges_belief env flags s s2 h
    rw [updateServerPhysicsVariables_attached env flags s entity he] at hupd
    simp only [Option.some.injEq] at hupd
    subst hupd
    exact hbelief
  · intro entity he
    unfold handleHardAndEasyChanges
    rw [updateServerPhysicsVariables_attached env flags s entity he]
    rfl
  · intro h1 h2 h3 h4 s2 h
    obtain ⟨s1, hupd, hbelief⟩ := handleEasyChanges_belief env flags s s2 h
    rw [updateServerPhysicsVariables_clean env flags s h1 h2 h3 h4] at hupd
    simp only [Option.some.injEq] at hupd
    subst hupd
    exact hbelief

/-! ## Dirty-flag aggregation -/

/-- C19: with a body and an entity present, `getAndClearIncomingDirtyFlags` returns the
entity's dirty flags, or-ed with `DIRTY_MOTION_TYPE` exactly when the body is flagged static
and the entity is moving or the body is flagged kinematic and the entity is not moving, and
clears the entity's dirty flags; when the body or the entity is absent it returns 0 and
changes nothing.  The entity's motion is read after its flags are cleared. -/
theorem getAndClearIncomingDirtyFlags_merge (env : Env) (s : EntityMotionState) :
    (∀ body entity, s.body = some body → s.entity = some entity →
        getAndClearIncomingDirtyFlags env s
          = (if (hasFlag body.collisionFlags CF_STATIC_OBJECT = true
                  ∧ env.entityIsMoving { entity with dirtyFlags := 0 } = true)
                ∨ (hasFlag body.collisionFlags CF_KINEMATIC_OBJECT = true
                  ∧ env.entityIsMoving { entity with dirtyFlags := 0 } = false)
              then entity.dirtyFlags ||| env.DIRTY_MOTION_TYPE
              else entity.dirtyFlags,
            { s with entity := some { entity with dirtyFlags := 0 } }))
      ∧ (s.body = none ∨ s.entity = none → getAndClearIncomingDirtyFlags env s = (0, s)) := by
  refine ⟨?_, ?_⟩
  · intro body entity hb he
    unfold getAndClearIncomingDirtyFlags
    simp only [hb, he, clearDirtyFlags, motionTypeMismatch, Bool.or_eq_true, Bool.and_eq_true,
      Bool.not_eq_true']
  · intro h
    unfold getAndClearIncomingDirtyFlags
    rcases h with h | h
    · rw [h]
    · rw [h]
      cases s.body <;> rfl

/-- Witness of C19: the resting example entity on a body flagged kinematic; the returned flags
carry the motion-type bit and the entity's flags are cleared. -/
theorem getAndClearIncomingDirtyFlags_merge_witness :
    getAndClearIncomingDirtyFlags exampleEnv exampleMismatched
      = (69, { exampleMismatched with entity := some { exampleDirtyEntity with dirtyFlags := 0 } })
      ∧ getAndClearIncomingDirtyFlags exampleEnv { exampleMismatched with body := none }
        = (0, { exampleMismatched with body := none }) := by
  refine ⟨?_, ?_⟩
  · exact ((getAndClearIncomingDirtyFlags_merge exampleEnv exampleMismatched).1
      exampleKinematicBody exampleDirtyEntity rfl rfl).trans (by decide)
  · exact (getAndClearIncomingDirtyFlags_merge exampleEnv
      { exampleMismatched with body := none }).2 (Or.inl rfl)

/-! ## `createConvexHull`: the margin -/

theorem isAxisRange_singleton (axis : Vec3 → ℚ) (p : Vec3) :
    IsAxisRange axis [p] (axis p) (axis p) := by
  refine ⟨?_, ⟨p, by simp, rfl⟩, ⟨p, by simp, rfl⟩⟩
  intro q hq
  rw [List.mem_singleton] at hq
  rw [hq]
  exact ⟨le_refl _, le_refl _⟩

theorem isAxisRange_append (axis : Vec3 → ℚ) (seen : List Vec3) (lo hi : ℚ) (p : Vec3)
    (h : IsAxisRange axis seen lo hi) :
    IsAxisRange axis (seen ++ [p]) (Min.min lo (axis p)) (Max.max hi (axis p)) := by
  obtain ⟨hall, ⟨plo, hplo, hlo⟩, ⟨phi, hphi, hhi⟩⟩ := h
  refine ⟨?_, ?_, ?_⟩
  · intro q hq
    rw [List.mem_append, List.mem_singleton] at hq
    rcases hq with hq | hq
    · exact ⟨le_trans (min_le_left _ _) (hall q hq).1, le_trans (hall q hq).2 (le_max_left _ _)⟩
    · rw [hq]
      exact ⟨min_le_right _ _, le_max_right _ _⟩
  · rcases le_total lo (axis p) with hle | hle
    · exact ⟨plo, List.mem_append_left _ hplo, by rw [hlo, min_eq_left hle]⟩
    · exact ⟨p, by simp, by rw [min_eq_right hle]⟩
  · rcases le_total hi (axis p) with hle | hle
    · exact ⟨p, by simp, by rw [max_eq_right hle]⟩
    · exact ⟨phi, List.mem_append_left _ hphi, by rw [hhi, max_eq_left hle]⟩

theorem foldl_bounds (rest : List Vec3) :
    ∀ (seen : List Vec3) (acc : HullBounds),
      IsBoundingBox seen acc.minCorner acc.maxCorner →
      IsBoundingBox (seen ++ rest)
        (rest.foldl
          (fun acc p =>
            { center := Vec3.add acc.center p
              maxCorner := Vec3.max acc.maxCorner p
              minCorner := Vec3.min acc.minCorner p })
          acc).minCorner
        (rest.foldl
          (fun acc p =>
            { center := Vec3.add acc.center p
              maxCorner := Vec3.max acc.maxCorner p
              minCorner := Vec3.min acc.minCorner p })
          acc).maxCorner := by
  induction rest with
  | nil =>
    intro seen acc h
    simpa using h
  | cons p rest ih =>
    intro seen acc h
    have hstep : IsBoundingBox (seen ++ [p]) (Vec3.min acc.minCorner p)
        (Vec3.max acc.maxCorner p) :=
      ⟨isAxisRange_append Vec3.x seen _ _ p h.1, isAxisRange_append Vec3.y seen _ _ p h.2.1,
        isAxisRange_append Vec3.z seen _ _ p h.2.2⟩
    have hnext := ih (seen ++ [p])
      { center := Vec3.add acc.center p
        maxCorner := Vec3.max acc.maxCorner p
        minCorner := Vec3.min acc.minCorner p } hstep
    rw [List.append_assoc] at hnext
    exact hnext

theorem accumulateBounds_isBoundingBox (first : Vec3) (rest : List Vec3) :
    IsBoundingBox (first :: rest) (accumulateBounds first rest).minCorner
      (accumulateBounds first rest).maxCorner :=
  foldl_bounds rest [first] { center := first, maxCorner := first, minCorner := first }
    ⟨isAxisRange_singleton Vec3.x first, isAxisRange_singleton Vec3.y first,
      isAxisRange_singleton Vec3.z first⟩

/-- C20: for a non-empty point set `createConvexHull` returns a hull whose margin is
`min(defaultMargin, max(0.5 * d, 0.01))`, with `d` the smallest dimension of the bounding box
of the points and `defaultMargin` the margin of a fresh hull; when that default is at least
0.01 the margin lies between 0.01 and the default, whatever the points. -/
theorem createConvexHull_margin (env : Env) (points : List Vec3) (hne : points ≠ []) :
    ∃ hull lo hi, createConvexHull env points = some hull
      ∧ IsBoundingBox points lo hi
      ∧ hull.margin
        = Min.min env.CONVEX_DISTANCE_MARGIN
            (Max.max ((1 : ℚ) / 2 * Min.min (Min.min (hi.x - lo.x) (hi.y - lo.y)) (hi.z - lo.z))
              ((1 : ℚ) / 100))
      ∧ ((1 : ℚ) / 100 ≤ env.CONVEX_DISTANCE_MARGIN →
          (1 : ℚ) / 100 ≤ hull.margin ∧ hull.margin ≤ env.CONVEX_DISTANCE_MARGIN) := by
  cases points with
  | nil => exact absurd rfl hne
  | cons first rest =>
    refine ⟨_, (accumulateBounds first rest).minCorner, (accumulateBounds first rest).maxCorner,
      rfl, accumulateBounds_isBoundingBox first rest, ?_, ?_⟩
    · simp only [chooseMargin, MIN_MARGIN, Vec3.sub]
      exact min_comm _ _
    · intro hdefault
      simp only [chooseMargin, MIN_MARGIN]
      exact ⟨le_min (le_max_right _ _) hdefault, min_le_right _ _⟩

/-- Witness of C20: the zero-thickness example plate under Bullet's default margin of 0.04
gets the minimum margin 0.01. -/
theorem createConvexHull_margin_witness :
    ∃ hull, createConvexHull exampleEnv examplePlate = some hull
      ∧ hull.margin = 1 / 100
      ∧ (1 : ℚ) / 100 ≤ hull.margin ∧ hull.margin ≤ exampleEnv.CONVEX_DISTANCE_MARGIN := by
  obtain ⟨hull, lo, hi, hrun, -, -, hbounds⟩ := createConvexHull_margin exampleEnv examplePlate
    (by decide)
  have hcalc : (createConvexHull exampleEnv examplePlate).map ConvexHull.margin
      = some (1 / 100) := by
    norm_num [createConvexHull, examplePlate, accumulateBounds, chooseMargin, MIN_MARGIN,
      Vec3.sub, Vec3.max, Vec3.min, exampleEnv]
  rw [hrun] at hcalc
  simp only [Option.map_some', Option.some.injEq] at hcalc
  exact ⟨hull, hrun, hcalc, hbounds (by norm_num [exampleEnv])⟩

/-! ## `remoteSimulationOutOfSync`: what the prediction does -/

/-- C22: in the inactive-resend branch (initialized, `_sentActive == false`) two runs that
agree on the step, on `_lastStep` and on the substep return the same value, however their
bodies (activation state, transform, velocities) and their beliefs differ, and each run leaves
its motion state unchanged, `_lastStep` included. -/
theorem remoteSimulationOutOfSync_resend_blind (env : Env) (step : Nat)
    (s t : EntityMotionState) (bodyS bodyT : RigidBody) (hbs : s.body = some bodyS)
    (hbt : t.body = some bodyT) (hl : s.lastStep ≠ 0) (hlast : t.lastStep = s.lastStep)
    (hss : s.sentActive = false) (hst : t.sentActive = false) :
    ∃ r, remoteSimulationOutOfSync env step s = some (r, s)
      ∧ remoteSimulationOutOfSync env step t = some (r, t) := by
  refine ⟨decide (INACTIVE_UPDATE_PERIOD < elapsedTime env step s.lastStep),
    remoteSimulationOutOfSync_of_sentInactive env step s bodyS hbs hl hss, ?_⟩
  rw [remoteSimulationOutOfSync_of_sentInactive env step t bodyT hbt (by rw [hlast]; exact hl)
    hst, hlast]

/-- Witness of C22: the example state after an inactive send, with its body asleep and with
its body awake again, at step 40. -/
theorem remoteSimulationOutOfSync_resend_blind_witness :
    ∃ r, remoteSimulationOutOfSync exampleEnv 40 exampleSentInactive
        = some (r, exampleSentInactive)
      ∧ remoteSimulationOutOfSync exampleEnv 40 exampleSentInactiveAwake
        = some (r, exampleSentInactiveAwake) :=
  remoteSimulationOutOfSync_resend_blind exampleEnv 40 exampleSentInactive
    exampleSentInactiveAwake exampleSleepingBody exampleBody rfl rfl (by decide) rfl rfl rfl

theorem extrapolateAngular_linear (env : Env) (body : RigidBody) (numSteps : Int) (dt : ℚ)
    (s : EntityMotionState) :
    (extrapolateAngular env body numSteps dt s).serverVelocity = s.serverVelocity
      ∧ (extrapolateAngular env body numSteps dt s).serverPosition = s.serverPosition
      ∧ (extrapolateAngular env body numSteps dt s).lastStep = s.lastStep := by
  unfold extrapolateAngular
  split_ifs <;> exact ⟨rfl, rfl, rfl⟩

theorem remoteSimulationOutOfSync_linear (env : Env) (step : Nat) (s : EntityMotionState)
    (body : RigidBody) (hb : s.body = some body) (hl : s.lastStep ≠ 0)
    (hs : s.sentActive = true) (ha : body.isActive = true) :
    ∃ r s2, remoteSimulationOutOfSync env step s = some (r, s2)
      ∧ s2.serverVelocity
        = (extrapolateLinear env body step (elapsedTime env step s.lastStep) s).serverVelocity
      ∧ s2.serverPosition
        = (extrapolateLinear env body step (elapsedTime env step s.lastStep) s).serverPosition
      ∧ s2.lastStep
        = (extrapolateLinear env body step (elapsedTime env step s.lastStep) s).lastStep := by
  rw [remoteSimulationOutOfSync_compare env step s body hb hl hs ha]
  split_ifs
  · exact ⟨_, _, rfl, rfl, rfl, rfl⟩
  · obtain ⟨h1, h2, h3⟩ := extrapolateAngular_linear env body (numStepsSince step s.lastStep)
      (elapsedTime env step s.lastStep)
      (extrapolateLinear env body step (elapsedTime env step s.lastStep) s)
    exact ⟨_, _, rfl, h1, h2, h3⟩

theorem length2_pos_iff (v : Vec3) : 0 < Vec3.length2 v ↔ v ≠ Vec3.zero := by
  obtain ⟨x, y, z⟩ := v
  unfold Vec3.length2 Vec3.zero
  simp only [ne_eq, Vec3.mk.injEq]
  constructor
  · intro h hzero
    obtain ⟨hx, hy, hz⟩ := hzero
    subst hx hy hz
    simp at h
  · intro h
    by_contra hnot
    have hle : x * x + y * y + z * z ≤ 0 := le_of_not_lt hnot
    have hx : x = 0 := by nlinarith [mul_self_nonneg x, mul_self_nonneg y, mul_self_nonneg z]
    have hy : y = 0 := by nlinarith [mul_self_nonneg x, mul_self_nonneg y, mul_self_nonneg z]
    have hz : z = 0 := by nlinarith [mul_self_nonneg x, mul_self_nonneg y, mul_self_nonneg z]
    exact h ⟨hx, hy, hz⟩

theorem extrapolateLinear_moving (env : Env) (body : RigidBody) (step : Nat) (dt : ℚ)
    (s : EntityMotionState) (hv : s.serverVelocity ≠ Vec3.zero) :
    (extrapolateLinear env body step dt s).serverVelocity
        = Vec3.scale (Vec3.add s.serverVelocity (Vec3.scale s.serverAcceleration dt))
            (env.powf (1 - body.linearDamping) dt)
      ∧ (extrapolateLinear env body step dt s).serverPosition
        = Vec3.add s.serverPosition
            (Vec3.scale (extrapolateLinear env body step dt s).serverVelocity dt)
      ∧ (extrapolateLinear env body step dt s).lastStep = step := by
  have hpos : 0 < Vec3.length2 s.serverVelocity := (length2_pos_iff s.serverVelocity).mpr hv
  simp [extrapolateLinear, hpos]

theorem extrapolateLinear_resting (env : Env) (body : RigidBody) (step : Nat) (dt : ℚ)
    (s : EntityMotionState) (hv : s.serverVelocity = Vec3.zero) :
    (extrapolateLinear env body step dt s).serverVelocity = s.serverVelocity
      ∧ (extrapolateLinear env body step dt s).serverPosition = s.serverPosition
      ∧ (extrapolateLinear env body step dt s).lastStep = step := by
  have hnot : ¬ 0 < Vec3.length2 s.serverVelocity := by
    rw [length2_pos_iff]
    exact fun h => h hv
  simp [extrapolateLinear, hnot]

/-- Counterexample to C23 as stated: the example belief with velocity `(1, 0, 0)` and
acceleration `(0, -10, 0)`, extrapolated over one second with no damping, ends with velocity
`(1, -10, 0)`, not with `v * (1 - D)^dt = (1, 0, 0)`. -/
theorem remoteSimulationOutOfSync_velocity_gains_acceleration :
    ∃ r s2, remoteSimulationOutOfSync exampleEnv 61 exampleAccelerating = some (r, s2)
      ∧ elapsedTime exampleEnv 61 exampleAccelerating.lastStep = 1
      ∧ s2.serverVelocity = ⟨1, -10, 0⟩
      ∧ Vec3.scale exampleAccelerating.serverVelocity
          (exampleEnv.powf (1 - exampleBody.linearDamping) 1) = ⟨1, 0, 0⟩
      ∧ s2.serverVelocity
        ≠ Vec3.scale exampleAccelerating.serverVelocity
            (exampleEnv.powf (1 - exampleBody.linearDamping) 1) := by
  obtain ⟨r, s2, hrun, hv, -, -⟩ := remoteSimulationOutOfSync_linear exampleEnv 61
    exampleAccelerating exampleBody rfl (by decide) rfl (by decide)
  have hdt : elapsedTime exampleEnv 61 exampleAccelerating.lastStep = 1 := by
    norm_num [elapsedTime, numStepsSince, subU32, UINT32_SIZE, toInt32, exampleEnv,
      exampleAccelerating, exampleTracking, EntityMotionState.create]
  have hnew : s2.serverVelocity = ⟨1, -10, 0⟩ := by
    rw [hv, hdt, (extrapolateLinear_moving exampleEnv exampleBody 61 1 exampleAccelerating
      (by decide)).1]
    norm_num [Vec3.scale, Vec3.add, exampleAccelerating, exampleTracking,
      EntityMotionState.create, exampleEnv]
  have hclaimed : Vec3.scale exampleAccelerating.serverVelocity
      (exampleEnv.powf (1 - exampleBody.linearDamping) 1) = ⟨1, 0, 0⟩ := by
    norm_num [Vec3.scale, exampleAccelerating, exampleTracking, EntityMotionState.create,
      exampleEnv]
  refine ⟨r, s2, hrun, hdt, hnew, hclaimed, ?_⟩
  rw [hnew, hclaimed]
  decide

/-- C23, amended: in the extrapolate-and-compare branch, over the elapsed time
`dt = numSteps * PHYSICS_ENGINE_FIXED_SUBSTEP` and for a belief with non-zero velocity `v`
and acceleration `a`, the belief velocity becomes `(v + a * dt) * (1 - D)^dt` with `D` the
body's linear damping (which is `v * (1 - D)^dt` when `a` is zero), the belief position then
advances by `dt` times that new velocity, and `_lastStep` is set to `step`. -/
theorem remoteSimulationOutOfSync_extrapolates (env : Env) (step : Nat) (s : EntityMotionState)
    (body : RigidBody) (hb : s.body = some body) (hl : s.lastStep ≠ 0)
    (hs : s.sentActive = true) (ha : body.isActive = true)
    (hv : s.serverVelocity ≠ Vec3.zero) :
    ∃ r s2, remoteSimulationOutOfSync env step s = some (r, s2)
      ∧ s2.serverVelocity
        = Vec3.scale
            (Vec3.add s.serverVelocity
              (Vec3.scale s.serverAcceleration (elapsedTime env step s.lastStep)))
            (env.powf (1 - body.linearDamping) (elapsedTime env step s.lastStep))
      ∧ (s.serverAcceleration = Vec3.zero →
          s2.serverVelocity
            = Vec3.scale s.serverVelocity
                (env.powf (1 - body.linearDamping) (elapsedTime env step s.lastStep)))
      ∧ s2.serverPosition
        = Vec3.add s.serverPosition
            (Vec3.scale s2.serverVelocity (elapsedTime env step s.lastStep))
      ∧ s2.lastStep = step
      ∧ elapsedTime env step s.lastStep
        = (numStepsSince step s.lastStep : ℚ) * env.PHYSICS_ENGINE_FIXED_SUBSTEP := by
  obtain ⟨r, s2, hrun, hvel, hpos, hlast⟩ := remoteSimulationOutOfSync_linear env step s body
    hb hl hs ha
  obtain ⟨h1, h2, h3⟩ := extrapolateLinear_moving env body step
    (elapsedTime env step s.lastStep) s hv
  refine ⟨r, s2, hrun, hvel.trans h1, ?_, ?_, hlast.trans h3, rfl⟩
  · intro hzero
    rw [hvel, h1, hzero]
    simp [Vec3.add, Vec3.scale, Vec3.zero]
  · rw [hpos, h2, hvel]

/-- Witness of C23, amended: the falling example belief over one second. -/
theorem remoteSimulationOutOfSync_extrapolates_witness :
    ∃ r s2, remoteSimulationOutOfSync exampleEnv 61 exampleAccelerating = some (r, s2)
      ∧ s2.serverVelocity
        = Vec3.scale
            (Vec3.add exampleAccelerating.serverVelocity
              (Vec3.scale exampleAccelerating.serverAcceleration
                (elapsedTime exampleEnv 61 exampleAccelerating.lastStep)))
            (exampleEnv.powf (1 - exampleBody.linearDamping)
              (elapsedTime exampleEnv 61 exampleAccelerating.lastStep))
      ∧ s2.serverPosition
        = Vec3.add exampleAccelerating.serverPosition
            (Vec3.scale s2.serverVelocity
              (elapsedTime exampleEnv 61 exampleAccelerating.lastStep))
      ∧ s2.lastStep = 61 := by
  obtain ⟨r, s2, hrun, hvel, -, hpos, hlast, -⟩ := remoteSimulationOutOfSync_extrapolates
    exampleEnv 61 exampleAccelerating exampleBody rfl (by decide) rfl (by decide) (by decide)
  exact ⟨r, s2, hrun, hvel, hpos, hlast⟩

/-- C28: in the extrapolate-and-compare branch a belief whose velocity is exactly zero keeps
its velocity and its position for every step, whatever the belief acceleration is; only
`_lastStep` is advanced. -/
theorem remoteSimulationOutOfSync_rest_stays (env : Env) (step : Nat) (s : EntityMotionState)
    (body : RigidBody) (hb : s.body = some body) (hl : s.lastStep ≠ 0)
    (hs : s.sentActive = true) (ha : body.isActive = true)
    (hv : s.serverVelocity = Vec3.zero) :
    ∃ r s2, remoteSimulationOutOfSync env step s = some (r, s2)
      ∧ s2.serverVelocity = Vec3.zero
      ∧ s2.serverPosition = s.serverPosition
      ∧ s2.lastStep = step := by
  obtain ⟨r, s2, hrun, hvel, hpos, hlast⟩ := remoteSimulationOutOfSync_linear env step s body
    hb hl hs ha
  obtain ⟨h1, h2, h3⟩ := extrapolateLinear_resting env body step
    (elapsedTime env step s.lastStep) s hv
  exact ⟨r, s2, hrun, (hvel.trans h1).trans hv, hpos.trans h2, hlast.trans h3⟩

/-- Witness of C28: the example belief at rest with acceleration `(0, -10, 0)`, checked one
second later. -/
theorem remoteSimulationOutOfSync_rest_stays_witness :
    exampleRestingBelief.serverAcceleration = ⟨0, -10, 0⟩
      ∧ ∃ r s2, remoteSimulationOutOfSync exampleEnv 61 exampleRestingBelief = some (r, s2)
        ∧ s2.serverVelocity = Vec3.zero
        ∧ s2.serverPosition = exampleRestingBelief.serverPosition
        ∧ s2.lastStep = 61 :=
  ⟨rfl, remoteSimulationOutOfSync_rest_stays exampleEnv 61 exampleRestingBelief exampleBody rfl
    (by decide) rfl (by decide) rfl⟩

/-! ## Ownership counters, one call at a time -/

/-- C25: `setWorldTransform` on an attached entity with a body increments
`_loopsWithoutOwner` (a `uint32_t`) when the entity's simulator is null and resets it to 0
otherwise; it sets the candidate flag when, and only when, the simulator is null and the
incremented counter exceeds 50, and otherwise leaves the flag as it was; it never changes
`_loopsSinceOwnershipBid`. -/
theorem setWorldTransform_owner_counter (env : Env) (origin : Vec3) (rotation : Quat)
    (s : EntityMotionState) (entity : EntityItem) (body : RigidBody)
    (he : s.entity = some entity) (hb : s.body = some body) :
    ∃ s2, setWorldTransform env origin rotation s = some s2
      ∧ s2.loopsWithoutOwner
        = (if entity.simulatorID = QUuid.null then (s.loopsWithoutOwner + 1) % 4294967296
            else 0)
      ∧ (entity.simulatorID = QUuid.null → s.loopsWithoutOwner + 1 < 4294967296 →
          s2.loopsWithoutOwner = s.loopsWithoutOwner + 1)
      ∧ s2.candidateForOwnership
        = (if entity.simulatorID = QUuid.null ∧ 50 < (s.loopsWithoutOwner + 1) % 4294967296
            then true else s.candidateForOwnership)
      ∧ s2.loopsSinceOwnershipBid = s.loopsSinceOwnershipBid := by
  obtain ⟨s2, -, hrun, -, -, hloops, hcand, hbid⟩ := setWorldTransform_ownerless_step env origin
    rotation s entity body he hb
  have hnull : entity.simulatorID.isNull = true ↔ entity.simulatorID = QUuid.null := by
    simp [QUuid.isNull, QUuid.null]
  have hinc : incU32 s.loopsWithoutOwner = (s.loopsWithoutOwner + 1) % 4294967296 := rfl
  rw [hinc] at hloops hcand
  refine ⟨s2, hrun, ?_, ?_, ?_, hbid⟩
  · rw [hloops]
    by_cases h : entity.simulatorID = QUuid.null
    · rw [if_pos (hnull.mpr h), if_pos h]
    · rw [if_neg (fun h2 => h (hnull.mp h2)), if_neg h]
  · intro h hlt
    rw [hloops, if_pos (hnull.mpr h), Nat.mod_eq_of_lt hlt]
  · rw [hcand]
    by_cases h : entity.simulatorID = QUuid.null
    · have h2 := hnull.mpr h
      by_cases h50 : 50 < (s.loopsWithoutOwner + 1) % 4294967296
      · rw [h2, if_pos ⟨h, h50⟩]
        simp [h50]
      · rw [h2, if_neg (fun hh => h50 hh.2)]
        simp [h50]
    · have h2 : entity.simulatorID.isNull = false := by
        cases hc : entity.simulatorID.isNull
        · rfl
        · exact absurd (hnull.mp hc) h
      rw [h2, if_neg (fun hh => h hh.1)]
      simp

/-- Witness of C25: the first writeback of the freshly constructed example state, whose entity
has no simulator. -/
theorem setWorldTransform_owner_counter_witness :
    ∃ s2, setWorldTransform exampleEnv exampleBody.origin exampleBody.rotation exampleFresh
        = some s2
      ∧ s2.loopsWithoutOwner = 1
      ∧ s2.candidateForOwnership = false
      ∧ s2.loopsSinceOwnershipBid = 0 := by
  obtain ⟨s2, hrun, -, hloops, hcand, hbid⟩ := setWorldTransform_owner_counter exampleEnv
    exampleBody.origin exampleBody.rotation exampleFresh exampleEntity exampleBody rfl rfl
  exact ⟨s2, hrun, hloops rfl (by decide), hcand.trans (by decide), hbid⟩

theorem shouldSendUpdate_clears (env : Env) (step : Nat) (sessionID : QUuid)
    (s : EntityMotionState) (entity : EntityItem) (body : RigidBody)
    (he : s.entity = some entity) (hb : s.body = some body) :
    ∃ r s2, shouldSendUpdate env step sessionID s = some (r, s2)
      ∧ s2.candidateForOwnership = false
      ∧ s2.entity = s.entity ∧ s2.body = s.body
      ∧ (s.candidateForOwnership = false →
          s2.loopsSinceOwnershipBid = s.loopsSinceOwnershipBid) := by
  obtain ⟨r, s1, hr⟩ := remoteSimulationOutOfSync_total env step s body hb
  obtain ⟨hent, hbody, hcand, hloops⟩ := remoteSimulationOutOfSync_frame env step s s1 r hr
  cases r with
  | false =>
    exact ⟨false, _, shouldSendUpdate_of_inSync env step sessionID s s1 entity he hr, rfl,
      hent, hbody, fun _ => hloops⟩
  | true =>
    have hsend := shouldSendUpdate_of_outOfSync env step sessionID s s1 entity he hr
    by_cases hown : entity.simulatorID = sessionID
    · rw [if_pos hown] at hsend
      exact ⟨true, _, hsend, rfl, hent, hbody, fun _ => hloops⟩
    · rw [if_neg hown] at hsend
      cases hc : s1.candidateForOwnership with
      | false =>
        rw [ownershipBid_not_candidate s1 hc] at hsend
        exact ⟨false, _, hsend, rfl, hent, hbody, fun _ => hloops⟩
      | true =>
        rw [ownershipBid_candidate s1 hc] at hsend
        by_cases h30 : 30 < incU32 s1.loopsSinceOwnershipBid
        · rw [if_pos h30] at hsend
          exact ⟨true, _, hsend, rfl, hent, hbody,
            fun h => absurd (hc.symm.trans (hcand.trans h)) (by decide)⟩
        · rw [if_neg h30] at hsend
          exact ⟨false, _, hsend, rfl, hent, hbody,
            fun h => absurd (hc.symm.trans (hcand.trans h)) (by decide)⟩

/-- C27: the candidate flag is transient.  Every call of `shouldSendUpdate` on a motion state
with entity and body returns, and afterwards `_candidateForOwnership` is false, whatever the
result and the branch.  A call that finds the flag false leaves the bid counter unchanged, so
a second pass straight after the first cannot advance it; `bump()` sets the flag again. -/
theorem shouldSendUpdate_candidate_transient (env : Env) (step : Nat) (sessionID : QUuid)
    (s : EntityMotionState) (entity : EntityItem) (body : RigidBody)
    (he : s.entity = some entity) (hb : s.body = some body) :
    ∃ r s2, shouldSendUpdate env step sessionID s = some (r, s2)
      ∧ s2.candidateForOwnership = false
      ∧ (s.candidateForOwnership = false →
          s2.loopsSinceOwnershipBid = s.loopsSinceOwnershipBid)
      ∧ (∀ env2 step2 sessionID2, ∃ r2 s3,
          shouldSendUpdate env2 step2 sessionID2 s2 = some (r2, s3)
            ∧ s3.loopsSinceOwnershipBid = s2.loopsSinceOwnershipBid
            ∧ s3.candidateForOwnership = false)
      ∧ (bump s2).candidateForOwnership = true := by
  obtain ⟨r, s2, hrun, hcand, hent, hbody, hkeep⟩ := shouldSendUpdate_clears env step sessionID
    s entity body he hb
  refine ⟨r, s2, hrun, hcand, hkeep, ?_, rfl⟩
  intro env2 step2 sessionID2
  obtain ⟨r2, s3, hrun2, hcand2, -, -, hkeep2⟩ := shouldSendUpdate_clears env2 step2 sessionID2
    s2 entity body (hent.trans he) (hbody.trans hb)
  exact ⟨r2, s3, hrun2, hkeep2 hcand, hcand2⟩

/-- Witness of C27: the thirty-first pass of the sustained example bid is affirmed and leaves
the flag clear. -/
theorem shouldSendUpdate_candidate_transient_witness :
    (exampleBidding 30).candidateForOwnership = true
      ∧ ∃ r s2, shouldSendUpdate exampleEnv 32 exampleSession (exampleBidding 30) = some (r, s2)
        ∧ s2.candidateForOwnership = false
        ∧ (bump s2).candidateForOwnership = true := by
  obtain ⟨r, s2, hrun, hcand, -, -, hbump⟩ := shouldSendUpdate_candidate_transient exampleEnv 32
    exampleSession (exampleBidding 30) exampleEntity exampleSleepingBody rfl rfl
  exact ⟨rfl, r, s2, hrun, hcand, hbump⟩

/-! ## `measureBodyAcceleration` -/

theorem invert_damped_component (v0 a dt damp : ℚ) (hdamp : damp ≠ 0) (hdt : dt ≠ 0) :
    ((v0 + a * dt) * damp / damp - v0) * (1 / dt) = a := by
  field_simp

theorem invert_damped_velocity (v0 a : Vec3) (dt damp : ℚ) (hdamp : damp ≠ 0) (hdt : dt ≠ 0) :
    Vec3.scale
        (Vec3.sub (Vec3.divScalar (Vec3.scale (Vec3.add v0 (Vec3.scale a dt)) damp) damp) v0)
        (1 / dt)
      = a := by
  obtain ⟨ax, ay, az⟩ := a
  obtain ⟨vx, vy, vz⟩ := v0
  simp only [Vec3.scale, Vec3.add, Vec3.sub, Vec3.divScalar, Vec3.mk.injEq]
  exact ⟨invert_damped_component vx ax dt damp hdamp hdt,
    invert_damped_component vy ay dt damp hdamp hdt,
    invert_damped_component vz az dt damp hdamp hdt⟩

/-- C24: `measureBodyAcceleration` inverts the damped integration.  With
`n = thisStep - _lastMeasureStep > 0`, `dt = n * PHYSICS_ENGINE_FIXED_SUBSTEP`, a positive
substep, damping `D < 1` and a power function that is positive on a positive base, if the
body's velocity is `(v0 + a * dt) * (1 - D)^dt` for the stored `_lastVelocity` `v0`, the call
leaves `_measuredAcceleration == a`, `_lastVelocity` equal to the body's velocity and
`_lastMeasureStep == thisStep`; a belief with velocity `v0` (not zero) and acceleration `a` is
extrapolated over `dt` by `remoteSimulationOutOfSync` to that same velocity.  With `n == 0`
the call changes nothing. -/
theorem measureBodyAcceleration_inverts (env : Env) (s : EntityMotionState) (body : RigidBody)
    (a : Vec3) (hb : s.body = some body) (hsub : 0 < env.PHYSICS_ENGINE_FIXED_SUBSTEP)
    (hpowf : ∀ base t, 0 < base → 0 < env.powf base t) :
    (0 < subU32 env.worldSimulationStep s.lastMeasureStep → body.linearDamping < 1 →
        body.linearVelocity
          = Vec3.scale
              (Vec3.add s.lastVelocity
                (Vec3.scale a
                  ((subU32 env.worldSimulationStep s.lastMeasureStep : ℚ)
                    * env.PHYSICS_ENGINE_FIXED_SUBSTEP)))
              (env.powf (1 - body.linearDamping)
                ((subU32 env.worldSimulationStep s.lastMeasureStep : ℚ)
                  * env.PHYSICS_ENGINE_FIXED_SUBSTEP)) →
        (∃ s2, measureBodyAcceleration env s = some s2
          ∧ s2.measuredAcceleration = a
          ∧ s2.lastVelocity = body.linearVelocity
          ∧ s2.lastMeasureStep = env.worldSimulationStep)
        ∧ (∀ step t, t.serverVelocity = s.lastVelocity → t.serverVelocity ≠ Vec3.zero →
            t.serverAcceleration = a →
            (extrapolateLinear env body step
              ((subU32 env.worldSimulationStep s.lastMeasureStep : ℚ)
                * env.PHYSICS_ENGINE_FIXED_SUBSTEP) t).serverVelocity = body.linearVelocity))
      ∧ (subU32 env.worldSimulationStep s.lastMeasureStep = 0 →
          measureBodyAcceleration env s = some s) := by
  refine ⟨?_, ?_⟩
  · intro hn hD hv1
    have hdt : (subU32 env.worldSimulationStep s.lastMeasureStep : ℚ)
        * env.PHYSICS_ENGINE_FIXED_SUBSTEP ≠ 0 := by
      have hnq : (0 : ℚ) < (subU32 env.worldSimulationStep s.lastMeasureStep : ℚ) := by
        exact_mod_cast hn
      exact ne_of_gt (mul_pos hnq hsub)
    have hdamp : env.powf (1 - body.linearDamping)
        ((subU32 env.worldSimulationStep s.lastMeasureStep : ℚ)
          * env.PHYSICS_ENGINE_FIXED_SUBSTEP) ≠ 0 :=
      ne_of_gt (hpowf _ _ (by linarith))
    refine ⟨?_, ?_⟩
    · unfold measureBodyAcceleration
      simp only [gt_iff_lt, if_pos hn, hb]
      refine ⟨_, rfl, ?_, rfl, rfl⟩
      show Vec3.scale (Vec3.sub (Vec3.divScalar body.linearVelocity _) s.lastVelocity) _ = a
      rw [hv1]
      exact invert_damped_velocity s.lastVelocity a _ _ hdamp hdt
    · intro step t htv hne hta
      rw [(extrapolateLinear_moving env body step _ t hne).1, htv, hta, hv1]
  · intro h0
    unfold measureBodyAcceleration
    simp only [h0, gt_iff_lt, lt_self_iff_false, if_false]

/-- Witness of C24: the example body one second into its fall; the measured acceleration is
the gravity of the fall, `(0, -10, 0)`. -/
theorem measureBodyAcceleration_inverts_witness :
    ∃ s2, measureBodyAcceleration exampleEnv exampleMeasuring = some s2
      ∧ s2.measuredAcceleration = ⟨0, -10, 0⟩
      ∧ s2.lastVelocity = exampleFallingBody.linearVelocity
      ∧ s2.lastMeasureStep = exampleEnv.worldSimulationStep :=
  ((measureBodyAcceleration_inverts exampleEnv exampleMeasuring exampleFallingBody ⟨0, -10, 0⟩
      rfl (by norm_num [exampleEnv]) (by intro base t _; norm_num [exampleEnv])).1
    (by decide) (by norm_num [exampleFallingBody, exampleBody])
    (by norm_num [exampleFallingBody, exampleBody, exampleMeasuring, EntityMotionState.create,
      exampleEnv, subU32, UINT32_SIZE, Vec3.scale, Vec3.add])).1

/-! ## `sendUpdate`: what the near-gravity test sees -/

theorem accelerationNearlyGravity_congr (env : Env) (a1 a2 gravity : Vec3)
    (hlen : env.length a2 = env.length a1) :
    accelerationNearlyGravity env a2 gravity = accelerationNearlyGravity env a1 gravity := by
  simp only [accelerationNearlyGravity, hlen]

theorem accelerationNearlyGravity_of_same_length (env : Env) (a gravity : Vec3)
    (hlen : env.length a = env.length gravity) (hpos : 0 < env.length gravity) :
    accelerationNearlyGravity env a gravity = true := by
  simp only [accelerationNearlyGravity, hlen, sub_self, abs_zero,
    ACCELERATION_EQUIVALENT_EPSILON_RATIO, decide_eq_true_eq]
  positivity

theorem accelerationNearlyGravity_weightless (env : Env) (a gravity : Vec3)
    (hzero : env.length gravity = 0) :
    accelerationNearlyGravity env a gravity = false := by
  simp only [accelerationNearlyGravity, hzero, sub_zero, mul_zero, decide_eq_false_iff_not,
    not_lt]
  exact abs_nonneg _

theorem updateAccelerationNearlyGravityCount_le (nearlyGravity : Bool) (count : Nat)
    (hc : count ≤ 4) : updateAccelerationNearlyGravityCount nearlyGravity count ≤ 4 := by
  unfold updateAccelerationNearlyGravityCount incrementAccelerationNearlyGravityCount
    STEPS_TO_DECIDE_BALLISTIC
  split_ifs <;> omega

theorem sendUpdate_count (env : Env) (packetSender : List EditMessage) (sessionID : QUuid)
    (step : Nat) (s : EntityMotionState) (entity : EntityItem) (body : RigidBody)
    (he : s.entity = some entity) (hb : s.body = some body) :
    ∃ r, sendUpdate env packetSender sessionID step s = some r
      ∧ r.state.accelerationNearlyGravityCount
        = (if body.isActive then
            updateAccelerationNearlyGravityCount
              (accelerationNearlyGravity env s.measuredAcceleration entity.gravity)
              s.accelerationNearlyGravityCount
          else s.accelerationNearlyGravityCount) := by
  unfold sendUpdate
  simp only [he, hb]
  cases ha : body.isActive <;> cases hflag : env.sendPhysicsUpdates <;>
    simp only [settleDerivatives, Bool.not_true, Bool.not_false, Bool.false_eq_true, if_false,
      if_true] <;>
    exact ⟨_, rfl, rfl⟩

theorem sendUpdate_same_length (env : Env) (packetSender : List EditMessage)
    (sessionID : QUuid) (step : Nat) (s : EntityMotionState) (a2 : Vec3)
    (entity : EntityItem) (body : RigidBody) (he : s.entity = some entity)
    (hb : s.body = some body) (hlen : env.length a2 = env.length s.measuredAcceleration) :
    ∃ r r2, sendUpdate env packetSender sessionID step s = some r
      ∧ sendUpdate env packetSender sessionID step { s with measuredAcceleration := a2 }
        = some r2
      ∧ r2.state.accelerationNearlyGravityCount = r.state.accelerationNearlyGravityCount
      ∧ r2.state.entity = r.state.entity
      ∧ r2.properties = r.properties := by
  have hnear := accelerationNearlyGravity_congr env s.measuredAcceleration a2 entity.gravity hlen
  unfold sendUpdate
  simp only [he, hb]
  cases ha : body.isActive <;> cases hflag : env.sendPhysicsUpdates <;>
    simp only [settleDerivatives, Bool.not_true, Bool.not_false, Bool.false_eq_true, if_false,
      if_true, hnear] <;>
    exact ⟨_, _, rfl, rfl, rfl, rfl, rfl⟩

theorem sendUpdate_four_streak (envs : Nat → Env)
    (senders : Nat → List EditMessage) (sessions : Nat → QUuid) (steps : Nat → Nat)
    (pre : Nat → EntityMotionState) (entities : Nat → EntityItem) (bodies : Nat → RigidBody)
    (h0 : (pre 0).accelerationNearlyGravityCount = 0)
    (hent : ∀ k, k < 4 → (pre k).entity = some (entities k))
    (hbody : ∀ k, k < 4 → (pre k).body = some (bodies k))
    (hact : ∀ k, k < 4 → (bodies k).isActive = true)
    (hnear : ∀ k, k < 4 →
      accelerationNearlyGravity (envs k) (pre k).measuredAcceleration (entities k).gravity
        = true)
    (hcarry : ∀ k r, k < 3 →
      sendUpdate (envs k) (senders k) (sessions k) (steps k) (pre k) = some r →
      (pre (k + 1)).accelerationNearlyGravityCount = r.state.accelerationNearlyGravityCount) :
    ∀ k, k < 4 → (pre k).accelerationNearlyGravityCount = k
      ∧ ∃ r entity2, sendUpdate (envs k) (senders k) (sessions k) (steps k) (pre k) = some r
        ∧ r.state.accelerationNearlyGravityCount = k + 1
        ∧ r.state.entity = some entity2
        ∧ entity2.acceleration = (if 4 ≤ k + 1 then (entities k).gravity else Vec3.zero) := by
  have hstep : ∀ k, k < 4 → (pre k).accelerationNearlyGravityCount = k →
      ∃ r entity2, sendUpdate (envs k) (senders k) (sessions k) (steps k) (pre k) = some r
        ∧ r.state.accelerationNearlyGravityCount = k + 1
        ∧ r.state.entity = some entity2
        ∧ entity2.acceleration = (if 4 ≤ k + 1 then (entities k).gravity else Vec3.zero) := by
    intro k hk hcount
    obtain ⟨r, entity2, hrun, hc, he2, hacc⟩ := sendUpdate_active_step (envs k) (senders k)
      (sessions k) (steps k) (pre k) (entities k) (bodies k) (hent k hk) (hbody k hk)
      (hact k hk)
    rw [hnear k hk, hcount, updateAccelerationNearlyGravityCount_streak k hk] at hc
    rw [hc] at hacc
    exact ⟨r, entity2, hrun, hc, he2, hacc⟩
  intro k
  induction k with
  | zero => exact fun hk => ⟨h0, hstep 0 hk h0⟩
  | succ n ih =>
    intro hk
    obtain ⟨-, r, -, hrun, hc, -, -⟩ := ih (by omega)
    have hcount : (pre (n + 1)).accelerationNearlyGravityCount = n + 1 := by
      rw [hcarry n r (by omega) hrun, hc]
    exact ⟨hcount, hstep (n + 1) hk hcount⟩

theorem exampleSqrt_hundred : exampleSqrt 100 = 10 := by
  unfold exampleSqrt
  have hn : (100 : ℚ).num.natAbs = 100 := rfl
  have hd : (100 : ℚ).den = 1 := rfl
  rw [hn, hd, sqrtSearch_hundred, sqrtSearch_one]
  norm_num

theorem exampleSqrt_zero : exampleSqrt 0 = 0 := by
  unfold exampleSqrt
  have hn : (0 : ℚ).num.natAbs = 0 := rfl
  have h0 : sqrtSearch 16 0 = 0 := by decide
  rw [hn, h0]
  norm_num

theorem exampleEnv_length_sideways : exampleEnv.length ⟨10, 0, 0⟩ = 10 := by
  have hlen : Vec3.length2 ⟨10, 0, 0⟩ = 100 := by norm_num [Vec3.length2]
  simp only [Env.length, exampleEnv, hlen, exampleSqrt_hundred]

theorem exampleEnv_length_down : exampleEnv.length ⟨0, -10, 0⟩ = 10 := by
  have hlen : Vec3.length2 ⟨0, -10, 0⟩ = 100 := by norm_num [Vec3.length2]
  simp only [Env.length, exampleEnv, hlen, exampleSqrt_hundred]

theorem exampleEnv_length_up : exampleEnv.length ⟨0, 10, 0⟩ = 10 := by
  have hlen : Vec3.length2 ⟨0, 10, 0⟩ = 100 := by norm_num [Vec3.length2]
  simp only [Env.length, exampleEnv, hlen, exampleSqrt_hundred]

theorem exampleEnv_length_zero : exampleEnv.length Vec3.zero = 0 := by
  have hlen : Vec3.length2 Vec3.zero = 0 := by norm_num [Vec3.length2, Vec3.zero]
  simp only [Env.length, exampleEnv, hlen, exampleSqrt_zero]

theorem exampleSideways_carry (k : Nat) (r : SendUpdateResult) (hk : k < 3)
    (h : sendUpdate exampleEnv [] exampleSession (k + 2) (exampleSideways k) = some r) :
    (exampleSideways (k + 1)).accelerationNearlyGravityCount
      = r.state.accelerationNearlyGravityCount := by
  obtain ⟨r1, -, hrun, hc, -, -⟩ := sendUpdate_active_step exampleEnv [] exampleSession (k + 2)
    (exampleSideways k) exampleEntity exampleBody rfl rfl (by decide)
  rw [hrun] at h
  simp only [Option.some.injEq] at h
  subst h
  have hnear : accelerationNearlyGravity exampleEnv (exampleSideways k).measuredAcceleration
      exampleEntity.gravity = true :=
    accelerationNearlyGravity_of_same_length exampleEnv _ _
      (exampleEnv_length_sideways.trans exampleEnv_length_down.symm)
      (lt_of_lt_of_eq (by norm_num : (0 : ℚ) < 10) exampleEnv_length_down.symm)
  rw [hc, hnear]
  show k + 1 = updateAccelerationNearlyGravityCount true k
  rw [updateAccelerationNearlyGravityCount_streak k (by omega)]

/-- C26: the near-gravity test of `sendUpdate` sees only the length of the measured
acceleration. Replacing the measured acceleration by any vector of the same length, all other
state equal, gives the same near-gravity count, the same entity (its acceleration included)
and the same outgoing properties. And when four consecutive sends on an active body each see a
measured acceleration as long as a gravity of positive length, whatever its direction, the
count climbs from 0 to 4 and the fourth send sets the entity's acceleration to gravity. -/
theorem sendUpdate_direction_blind (envs : Nat → Env)
    (senders : Nat → List EditMessage) (sessions : Nat → QUuid) (steps : Nat → Nat)
    (pre : Nat → EntityMotionState) (entities : Nat → EntityItem) (bodies : Nat → RigidBody)
    (h0 : (pre 0).accelerationNearlyGravityCount = 0)
    (hent : ∀ k, k < 4 → (pre k).entity = some (entities k))
    (hbody : ∀ k, k < 4 → (pre k).body = some (bodies k))
    (hact : ∀ k, k < 4 → (bodies k).isActive = true)
    (hlen : ∀ k, k < 4 →
      (envs k).length (pre k).measuredAcceleration = (envs k).length (entities k).gravity)
    (hpos : ∀ k, k < 4 → 0 < (envs k).length (entities k).gravity)
    (hcarry : ∀ k r, k < 3 →
      sendUpdate (envs k) (senders k) (sessions k) (steps k) (pre k) = some r →
      (pre (k + 1)).accelerationNearlyGravityCount = r.state.accelerationNearlyGravityCount) :
    (∀ (env : Env) (packetSender : List EditMessage) (sessionID : QUuid) (step : Nat)
        (s : EntityMotionState) (a2 : Vec3) (entity : EntityItem) (body : RigidBody),
        s.entity = some entity → s.body = some body →
        env.length a2 = env.length s.measuredAcceleration →
        ∃ r r2, sendUpdate env packetSender sessionID step s = some r
          ∧ sendUpdate env packetSender sessionID step { s with measuredAcceleration := a2 }
            = some r2
          ∧ r2.state.accelerationNearlyGravityCount = r.state.accelerationNearlyGravityCount
          ∧ r2.state.entity = r.state.entity
          ∧ r2.properties = r.properties)
      ∧ (∀ k, k < 4 →
          accelerationNearlyGravity (envs k) (pre k).measuredAcceleration (entities k).gravity
            = true
          ∧ (pre k).accelerationNearlyGravityCount = k
          ∧ ∃ r entity2, sendUpdate (envs k) (senders k) (sessions k) (steps k) (pre k) = some r
            ∧ r.state.accelerationNearlyGravityCount = k + 1
            ∧ r.state.entity = some entity2
            ∧ entity2.acceleration
              = (if 4 ≤ k + 1 then (entities k).gravity else Vec3.zero))
      ∧ (∃ r entity2, sendUpdate (envs 3) (senders 3) (sessions 3) (steps 3) (pre 3) = some r
          ∧ r.state.accelerationNearlyGravityCount = 4
          ∧ r.state.entity = some entity2
          ∧ entity2.acceleration = (entities 3).gravity) := by
  have hnear : ∀ k, k < 4 →
      accelerationNearlyGravity (envs k) (pre k).measuredAcceleration (entities k).gravity
        = true :=
    fun k hk => accelerationNearlyGravity_of_same_length (envs k) _ _ (hlen k hk) (hpos k hk)
  have hstreak := sendUpdate_four_streak envs senders sessions steps pre entities bodies h0 hent
    hbody hact hnear hcarry
  refine ⟨?_, fun k hk => ⟨hnear k hk, hstreak k hk⟩, ?_⟩
  · intro env packetSender sessionID step s a2 entity body he hb hl
    exact sendUpdate_same_length env packetSender sessionID step s a2 entity body he hb hl
  · obtain ⟨-, r, entity2, hrun, hc, he2, hacc⟩ := hstreak 3 (by decide)
    exact ⟨r, entity2, hrun, hc, he2, by rw [hacc, if_pos (by decide)]⟩

/-- Witness of C26: the example entity measured as accelerating sideways at `(10, 0, 0)` under
its gravity `(0, -10, 0)`: the fourth send reports gravity as the acceleration, and the send
gives the same count and entity when the measured acceleration points up against gravity. -/
theorem sendUpdate_direction_blind_witness :
    (∃ r entity2, sendUpdate exampleEnv [] exampleSession 5 (exampleSideways 3) = some r
        ∧ r.state.accelerationNearlyGravityCount = 4
        ∧ r.state.entity = some entity2
        ∧ entity2.acceleration = exampleEntity.gravity)
      ∧ (∃ r r2, sendUpdate exampleEnv [] exampleSession 5 (exampleSideways 3) = some r
        ∧ sendUpdate exampleEnv [] exampleSession 5
            { exampleSideways 3 with measuredAcceleration := ⟨0, 10, 0⟩ } = some r2
        ∧ r2.state.accelerationNearlyGravityCount = r.state.accelerationNearlyGravityCount
        ∧ r2.state.entity = r.state.entity
        ∧ r2.properties = r.properties) :=
  have h := sendUpdate_direction_blind (fun _ => exampleEnv) (fun _ => [])
    (fun _ => exampleSession) (fun k => k + 2) exampleSideways (fun _ => exampleEntity)
    (fun _ => exampleBody) rfl (fun _ _ => rfl) (fun _ _ => rfl)
    (fun _ _ => (by decide : exampleBody.isActive = true))
    (fun _ _ => exampleEnv_length_sideways.trans exampleEnv_length_down.symm)
    (fun _ _ => lt_of_lt_of_eq (by norm_num : (0 : ℚ) < 10) exampleEnv_length_down.symm)
    (fun k r hk h => exampleSideways_carry k r hk h)
  ⟨h.2.2, h.1 exampleEnv [] exampleSession 5 (exampleSideways 3) ⟨0, 10, 0⟩ exampleEntity
    exampleBody rfl rfl (exampleEnv_length_up.trans exampleEnv_length_sideways.symm)⟩

/-! ## `sendUpdate`: the near-gravity count stays within its threshold -/

/-- C29: when the entity's gravity has zero length the near-gravity test fails for every
measured acceleration, so a send on an active body leaves the count at 0 and the entity's
acceleration at zero. And over any sequence of sends that carries the count from one call to
the next, starting from a count of at most 4, every call returns and the count is at most 4
(`STEPS_TO_DECIDE_BALLISTIC`) before and after each of them. -/
theorem sendUpdate_count_bounded (envs : Nat → Env)
    (senders : Nat → List EditMessage) (sessions : Nat → QUuid) (steps : Nat → Nat)
    (pre : Nat → EntityMotionState) (entities : Nat → EntityItem) (bodies : Nat → RigidBody)
    (h0 : (pre 0).accelerationNearlyGravityCount ≤ 4)
    (hent : ∀ k, (pre k).entity = some (entities k))
    (hbody : ∀ k, (pre k).body = some (bodies k))
    (hcarry : ∀ k r,
      sendUpdate (envs k) (senders k) (sessions k) (steps k) (pre k) = some r →
      (pre (k + 1)).accelerationNearlyGravityCount = r.state.accelerationNearlyGravityCount) :
    (∀ k, (envs k).length (entities k).gravity = 0 →
        (∀ a, accelerationNearlyGravity (envs k) a (entities k).gravity = false)
        ∧ ((bodies k).isActive = true →
          ∃ r entity2, sendUpdate (envs k) (senders k) (sessions k) (steps k) (pre k) = some r
            ∧ r.state.accelerationNearlyGravityCount = 0
            ∧ r.state.entity = some entity2
            ∧ entity2.acceleration = Vec3.zero))
      ∧ (∀ k, (pre k).accelerationNearlyGravityCount ≤ STEPS_TO_DECIDE_BALLISTIC
          ∧ ∃ r, sendUpdate (envs k) (senders k) (sessions k) (steps k) (pre k) = some r
            ∧ r.state.accelerationNearlyGravityCount ≤ STEPS_TO_DECIDE_BALLISTIC) := by
  have hstep : ∀ k, (pre k).accelerationNearlyGravityCount ≤ 4 →
      ∃ r, sendUpdate (envs k) (senders k) (sessions k) (steps k) (pre k) = some r
        ∧ r.state.accelerationNearlyGravityCount ≤ 4 := by
    intro k hk
    obtain ⟨r, hrun, hc⟩ := sendUpdate_count (envs k) (senders k) (sessions k) (steps k) (pre k)
      (entities k) (bodies k) (hent k) (hbody k)
    refine ⟨r, hrun, ?_⟩
    rw [hc]
    split_ifs
    · exact updateAccelerationNearlyGravityCount_le _ _ hk
    · exact hk
  refine ⟨?_, ?_⟩
  · intro k hzero
    have hfalse := fun a =>
      accelerationNearlyGravity_weightless (envs k) a (entities k).gravity hzero
    refine ⟨hfalse, fun ha => ?_⟩
    obtain ⟨r, entity2, hrun, hc, he2, hacc⟩ := sendUpdate_active_step (envs k) (senders k)
      (sessions k) (steps k) (pre k) (entities k) (bodies k) (hent k) (hbody k) ha
    have hreset : r.state.accelerationNearlyGravityCount = 0 := by
      rw [hc, hfalse]
      rfl
    exact ⟨r, entity2, hrun, hreset, he2, by rw [hacc, hreset, if_neg (by decide)]⟩
  · intro k
    induction k with
    | zero => exact ⟨h0, hstep 0 h0⟩
    | succ n ih =>
      obtain ⟨-, r, hrun, hc⟩ := ih
      have hk : (pre (n + 1)).accelerationNearlyGravityCount ≤ 4 := by
        rw [hcarry n r hrun]
        exact hc
      exact ⟨hk, hstep (n + 1) hk⟩

theorem exampleWeightless_carry (k : Nat) (r : SendUpdateResult)
    (h : sendUpdate exampleEnv [] exampleSession (k + 2) (exampleWeightless (3 - 3 * k))
      = some r) :
    (exampleWeightless (3 - 3 * (k + 1))).accelerationNearlyGravityCount
      = r.state.accelerationNearlyGravityCount := by
  obtain ⟨r1, -, hrun, hc, -, -⟩ := sendUpdate_active_step exampleEnv [] exampleSession (k + 2)
    (exampleWeightless (3 - 3 * k)) exampleWeightlessEntity exampleBody rfl rfl (by decide)
  rw [hrun] at h
  simp only [Option.some.injEq] at h
  subst h
  have hnear : accelerationNearlyGravity exampleEnv
      (exampleWeightless (3 - 3 * k)).measuredAcceleration exampleWeightlessEntity.gravity
      = false :=
    accelerationNearlyGravity_weightless exampleEnv _ _ exampleEnv_length_zero
  rw [hc, hnear]
  show 3 - 3 * (k + 1) = 0
  omega

/-- Witness of C29: the example entity without gravity, measured at `(0, -10, 0)` with three
near-gravity sends on record: the send resets the count to 0 and reports zero acceleration,
and the count is within the threshold before and after it. -/
theorem sendUpdate_count_bounded_witness :
    (∃ r entity2, sendUpdate exampleEnv [] exampleSession 2 (exampleWeightless 3) = some r
        ∧ r.state.accelerationNearlyGravityCount = 0
        ∧ r.state.entity = some entity2
        ∧ entity2.acceleration = Vec3.zero)
      ∧ (exampleWeightless 3).accelerationNearlyGravityCount ≤ STEPS_TO_DECIDE_BALLISTIC
      ∧ ∃ r, sendUpdate exampleEnv [] exampleSession 2 (exampleWeightless 3) = some r
        ∧ r.state.accelerationNearlyGravityCount ≤ STEPS_TO_DECIDE_BALLISTIC :=
  have h := sendUpdate_count_bounded (fun _ => exampleEnv) (fun _ => [])
    (fun _ => exampleSession) (fun k => k + 2) (fun k => exampleWeightless (3 - 3 * k))
    (fun _ => exampleWeightlessEntity) (fun _ => exampleBody)
    (by decide : (3 : Nat) ≤ 4) (fun _ => rfl) (fun _ => rfl)
    (fun k r h => exampleWeightless_carry k r h)
  ⟨((h.1 0) exampleEnv_length_zero).2 (by decide : exampleBody.isActive = true), h.2 0⟩

/-! ## `createConvexHull`: the margin correction -/

theorem Vec3.eq_of_components (a b : Vec3) (hx : a.x = b.x) (hy : a.y = b.y) (hz : a.z = b.z) :
    a = b := by
  cases a
  cases b
  simp only [Vec3.mk.injEq]
  exact ⟨hx, hy, hz⟩

theorem isAxisRange_unique (axis : Vec3 → ℚ) (points : List Vec3) (lo hi lo2 hi2 : ℚ)
    (h1 : IsAxisRange axis points lo hi) (h2 : IsAxisRange axis points lo2 hi2) :
    lo = lo2 ∧ hi = hi2 := by
  obtain ⟨hall1, ⟨p1, hp1, e1⟩, ⟨q1, hq1, f1⟩⟩ := h1
  obtain ⟨hall2, ⟨p2, hp2, e2⟩, ⟨q2, hq2, f2⟩⟩ := h2
  constructor
  · apply le_antisymm
    · rw [← e2]
      exact (hall1 p2 hp2).1
    · rw [← e1]
      exact (hall2 p1 hp1).1
  · apply le_antisymm
    · rw [← f1]
      exact (hall2 q1 hq1).2
    · rw [← f2]
      exact (hall1 q2 hq2).2

theorem isBoundingBox_unique (points : List Vec3) (lo hi lo2 hi2 : Vec3)
    (h1 : IsBoundingBox points lo hi) (h2 : IsBoundingBox points lo2 hi2) :
    lo = lo2 ∧ hi = hi2 := by
  have hx := isAxisRange_unique Vec3.x points _ _ _ _ h1.1 h2.1
  have hy := isAxisRange_unique Vec3.y points _ _ _ _ h1.2.1 h2.2.1
  have hz := isAxisRange_unique Vec3.z points _ _ _ _ h1.2.2 h2.2.2
  exact ⟨Vec3.eq_of_components _ _ hx.1 hy.1 hz.1, Vec3.eq_of_components _ _ hx.2 hy.2 hz.2⟩

theorem foldl_center (rest : List Vec3) :
    ∀ acc : HullBounds,
      (rest.foldl
        (fun acc p =>
          { center := Vec3.add acc.center p
            maxCorner := Vec3.max acc.maxCorner p
            minCorner := Vec3.min acc.minCorner p })
        acc).center
        = ⟨acc.center.x + (rest.map Vec3.x).sum, acc.center.y + (rest.map Vec3.y).sum,
            acc.center.z + (rest.map Vec3.z).sum⟩ := by
  induction rest with
  | nil =>
    intro acc
    simp
  | cons p rest ih =>
    intro acc
    rw [List.foldl_cons, ih]
    simp only [Vec3.add, List.map_cons, List.sum_cons, add_assoc]

theorem accumulateBounds_mean (first : Vec3) (rest : List Vec3) :
    Vec3.divScalar (accumulateBounds first rest).center (((first :: rest).length : Nat) : ℚ)
      = meanPoint (first :: rest) := by
  unfold accumulateBounds
  rw [foldl_center]
  simp only [Vec3.divScalar, meanPoint, List.map_cons, List.sum_cons]

theorem createConvexHull_eq (env : Env) (points : List Vec3) (lo hi : Vec3)
    (hne : points ≠ []) (hbox : IsBoundingBox points lo hi) :
    createConvexHull env points
      = some
          { margin := chooseMargin env.CONVEX_DISTANCE_MARGIN (Vec3.sub hi lo)
            points := points.map
              (correctPoint (meanPoint points)
                (Vec3.div
                  (Vec3.sub (Vec3.sub hi lo)
                    ⟨2 * chooseMargin env.CONVEX_DISTANCE_MARGIN (Vec3.sub hi lo),
                      2 * chooseMargin env.CONVEX_DISTANCE_MARGIN (Vec3.sub hi lo),
                      2 * chooseMargin env.CONVEX_DISTANCE_MARGIN (Vec3.sub hi lo)⟩)
                  (Vec3.sub hi lo))) } := by
  cases points with
  | nil => exact absurd rfl hne
  | cons first rest =>
    obtain ⟨hlo, hhi⟩ := isBoundingBox_unique _ _ _ _ _ hbox
      (accumulateBounds_isBoundingBox first rest)
    subst hlo
    subst hhi
    simp only [createConvexHull]
    rw [accumulateBounds_mean]

theorem chooseMargin_pos (defaultMargin : ℚ) (diagonal : Vec3) (h : 0 < defaultMargin) :
    0 < chooseMargin defaultMargin diagonal := by
  unfold chooseMargin MIN_MARGIN
  exact lt_min (lt_of_lt_of_le (by norm_num) (le_max_right _ _)) h

theorem sum_axis_bounds (l : List ℚ) (lo hi : ℚ) (h : ∀ v ∈ l, lo ≤ v ∧ v ≤ hi) :
    (l.length : ℚ) * lo ≤ l.sum ∧ l.sum ≤ (l.length : ℚ) * hi := by
  induction l with
  | nil => simp
  | cons v l ih =>
    have hv := h v (List.mem_cons_self v l)
    have hl := ih (fun w hw => h w (List.mem_cons_of_mem v hw))
    simp only [List.length_cons, List.sum_cons, Nat.cast_add, Nat.cast_one]
    constructor
    · linarith [hl.1, hv.1]
    · linarith [hl.2, hv.2]

theorem mean_axis_bounds (axis : Vec3 → ℚ) (points : List Vec3) (lo hi : ℚ)
    (hne : points ≠ []) (h : ∀ p ∈ points, lo ≤ axis p ∧ axis p ≤ hi) :
    lo ≤ (points.map axis).sum / (points.length : ℚ)
      ∧ (points.map axis).sum / (points.length : ℚ) ≤ hi := by
  have hlen : (0 : ℚ) < (points.length : ℚ) := by
    exact_mod_cast List.length_pos.mpr hne
  have hsum := sum_axis_bounds (points.map axis) lo hi (by
    intro v hv
    obtain ⟨p, hp, rfl⟩ := List.mem_map.mp hv
    exact h p hp)
  rw [List.length_map] at hsum
  constructor
  · rw [le_div_iff₀ hlen]
    linarith [hsum.1]
  · rw [div_le_iff₀ hlen]
    linarith [hsum.2]

theorem corrected_axis_inside (p c s lo hi : ℚ) (hp : lo ≤ p ∧ p ≤ hi) (hc : lo ≤ c ∧ c ≤ hi)
    (hs0 : 0 ≤ s) (hs1 : s ≤ 1) : lo ≤ (p - c) * s + c ∧ (p - c) * s + c ≤ hi := by
  constructor
  · nlinarith [mul_nonneg hs0 (sub_nonneg.mpr hp.1),
      mul_nonneg (sub_nonneg.mpr hs1) (sub_nonneg.mpr hc.1)]
  · nlinarith [mul_nonneg hs0 (sub_nonneg.mpr hp.2),
      mul_nonneg (sub_nonneg.mpr hs1) (sub_nonneg.mpr hc.2)]

theorem relativeScale_axis (d m : ℚ) (hm : 0 < m) (hd : 2 * m ≤ d) :
    0 < d ∧ 0 ≤ (d - 2 * m) / d ∧ (d - 2 * m) / d < 1 := by
  have hpos : 0 < d := by linarith
  refine ⟨hpos, div_nonneg (by linarith) hpos.le, ?_⟩
  rw [div_lt_one hpos]
  linarith

theorem correctPoint_inside (points : List Vec3) (lo hi : Vec3) (m : ℚ) (hne : points ≠ [])
    (hbox : IsBoundingBox points lo hi) (hm : 0 < m) (hx : 2 * m ≤ hi.x - lo.x)
    (hy : 2 * m ≤ hi.y - lo.y) (hz : 2 * m ≤ hi.z - lo.z) :
    ∀ p ∈ points,
      InsideBox lo hi
        (correctPoint (meanPoint points)
          (Vec3.div (Vec3.sub (Vec3.sub hi lo) ⟨2 * m, 2 * m, 2 * m⟩) (Vec3.sub hi lo)) p) := by
  intro p hp
  obtain ⟨-, sx0, sx1⟩ := relativeScale_axis _ m hm hx
  obtain ⟨-, sy0, sy1⟩ := relativeScale_axis _ m hm hy
  obtain ⟨-, sz0, sz1⟩ := relativeScale_axis _ m hm hz
  exact ⟨corrected_axis_inside _ _ _ _ _ (hbox.1.1 p hp)
      (mean_axis_bounds Vec3.x points _ _ hne hbox.1.1) sx0 sx1.le,
    corrected_axis_inside _ _ _ _ _ (hbox.2.1.1 p hp)
      (mean_axis_bounds Vec3.y points _ _ hne hbox.2.1.1) sy0 sy1.le,
    corrected_axis_inside _ _ _ _ _ (hbox.2.2.1 p hp)
      (mean_axis_bounds Vec3.z points _ _ hne hbox.2.2.1) sz0 sz1.le⟩

theorem isBoundingBox_perm (points points2 : List Vec3) (lo hi : Vec3)
    (hperm : points.Perm points2) (h : IsBoundingBox points2 lo hi) :
    IsBoundingBox points lo hi := by
  have haxis : ∀ (axis : Vec3 → ℚ) (a b : ℚ), IsAxisRange axis points2 a b →
      IsAxisRange axis points a b := by
    intro axis a b ⟨hall, ⟨p, hp, e⟩, ⟨q, hq, f⟩⟩
    exact ⟨fun r hr => hall r (hperm.mem_iff.mp hr), ⟨p, hperm.mem_iff.mpr hp, e⟩,
      ⟨q, hperm.mem_iff.mpr hq, f⟩⟩
  exact ⟨haxis _ _ _ h.1, haxis _ _ _ h.2.1, haxis _ _ _ h.2.2⟩

theorem isBoundingBox_unitCube (o : Vec3) :
    IsBoundingBox (unitCube o) o ⟨o.x + 1, o.y + 1, o.z + 1⟩ := by
  refine ⟨⟨?_, ⟨⟨o.x, o.y, o.z⟩, by simp [unitCube], rfl⟩,
      ⟨⟨o.x + 1, o.y + 1, o.z + 1⟩, by simp [unitCube], rfl⟩⟩,
    ⟨?_, ⟨⟨o.x, o.y, o.z⟩, by simp [unitCube], rfl⟩,
      ⟨⟨o.x + 1, o.y + 1, o.z + 1⟩, by simp [unitCube], rfl⟩⟩,
    ⟨?_, ⟨⟨o.x, o.y, o.z⟩, by simp [unitCube], rfl⟩,
      ⟨⟨o.x + 1, o.y + 1, o.z + 1⟩, by simp [unitCube], rfl⟩⟩⟩
  all_goals
    intro p hp
    simp only [unitCube, List.mem_cons, List.mem_singleton, List.not_mem_nil, or_false] at hp
    rcases hp with rfl | rfl | rfl | rfl | rfl | rfl | rfl | rfl <;> simp

theorem exampleBox_isBoundingBox : IsBoundingBox exampleBox ⟨0, 0, 0⟩ ⟨2, 4, 1⟩ := by
  refine ⟨⟨?_, ⟨⟨0, 0, 0⟩, by simp [exampleBox], rfl⟩, ⟨⟨2, 4, 1⟩, by simp [exampleBox], rfl⟩⟩,
    ⟨?_, ⟨⟨0, 0, 0⟩, by simp [exampleBox], rfl⟩, ⟨⟨2, 4, 1⟩, by simp [exampleBox], rfl⟩⟩,
    ⟨?_, ⟨⟨0, 0, 0⟩, by simp [exampleBox], rfl⟩, ⟨⟨2, 4, 1⟩, by simp [exampleBox], rfl⟩⟩⟩
  all_goals
    intro p hp
    simp only [exampleBox, List.mem_cons, List.mem_singleton, List.not_mem_nil, or_false] at hp
    rcases hp with rfl | rfl | rfl | rfl <;> norm_num

theorem meanPoint_unitCube (o : Vec3) (points : List Vec3) (hperm : points.Perm (unitCube o)) :
    meanPoint points = ⟨o.x + 1 / 2, o.y + 1 / 2, o.z + 1 / 2⟩ := by
  have hlen : points.length = 8 := hperm.length_eq
  have hx : (points.map Vec3.x).sum = 8 * o.x + 4 := by
    rw [(hperm.map Vec3.x).sum_eq]
    simp only [unitCube, List.map_cons, List.map_nil, List.sum_cons, List.sum_nil]
    ring
  have hy : (points.map Vec3.y).sum = 8 * o.y + 4 := by
    rw [(hperm.map Vec3.y).sum_eq]
    simp only [unitCube, List.map_cons, List.map_nil, List.sum_cons, List.sum_nil]
    ring
  have hz : (points.map Vec3.z).sum = 8 * o.z + 4 := by
    rw [(hperm.map Vec3.z).sum_eq]
    simp only [unitCube, List.map_cons, List.map_nil, List.sum_cons, List.sum_nil]
    ring
  unfold meanPoint
  rw [hx, hy, hz, hlen]
  apply Vec3.eq_of_components <;> simp only [] <;> push_cast <;> ring

/-- C30: for a non-empty point set with bounding box `lo`..`hi`, and a default margin that is
positive, `createConvexHull` returns a hull with a positive margin whose points are the input
points corrected as `(p - center) * relativeScale + center`, with `center` the mean of the
points and `relativeScale = (diagonal - 2 * margin) / diagonal`. When every dimension of the
bounding box is at least twice that margin, every dimension is positive, the relative scale
lies in `[0, 1)` on each axis, and every corrected point lies inside the bounding box,
componentwise. -/
theorem createConvexHull_inside_box (env : Env) (points : List Vec3) (lo hi : Vec3)
    (hne : points ≠ []) (hbox : IsBoundingBox points lo hi)
    (hdefault : 0 < env.CONVEX_DISTANCE_MARGIN) :
    ∃ hull, createConvexHull env points = some hull
      ∧ 0 < hull.margin
      ∧ hull.points
        = points.map
            (correctPoint (meanPoint points)
              (Vec3.div
                (Vec3.sub (Vec3.sub hi lo) ⟨2 * hull.margin, 2 * hull.margin, 2 * hull.margin⟩)
                (Vec3.sub hi lo)))
      ∧ (2 * hull.margin ≤ hi.x - lo.x → 2 * hull.margin ≤ hi.y - lo.y →
          2 * hull.margin ≤ hi.z - lo.z →
          (0 < hi.x - lo.x ∧ 0 < hi.y - lo.y ∧ 0 < hi.z - lo.z)
          ∧ (0 ≤ (hi.x - lo.x - 2 * hull.margin) / (hi.x - lo.x)
            ∧ (hi.x - lo.x - 2 * hull.margin) / (hi.x - lo.x) < 1)
          ∧ (0 ≤ (hi.y - lo.y - 2 * hull.margin) / (hi.y - lo.y)
            ∧ (hi.y - lo.y - 2 * hull.margin) / (hi.y - lo.y) < 1)
          ∧ (0 ≤ (hi.z - lo.z - 2 * hull.margin) / (hi.z - lo.z)
            ∧ (hi.z - lo.z - 2 * hull.margin) / (hi.z - lo.z) < 1)
          ∧ ∀ q ∈ hull.points, InsideBox lo hi q) := by
  have hm := chooseMargin_pos env.CONVEX_DISTANCE_MARGIN (Vec3.sub hi lo) hdefault
  refine ⟨_, createConvexHull_eq env points lo hi hne hbox, hm, rfl, ?_⟩
  intro hx hy hz
  obtain ⟨dx, sx0, sx1⟩ := relativeScale_axis _ _ hm hx
  obtain ⟨dy, sy0, sy1⟩ := relativeScale_axis _ _ hm hy
  obtain ⟨dz, sz0, sz1⟩ := relativeScale_axis _ _ hm hz
  refine ⟨⟨dx, dy, dz⟩, ⟨sx0, sx1⟩, ⟨sy0, sy1⟩, ⟨sz0, sz1⟩, ?_⟩
  intro q hq
  obtain ⟨p, hp, rfl⟩ := List.mem_map.mp hq
  exact correctPoint_inside points lo hi _ hne hbox hm hx hy hz p hp

/-- C21: for the eight corners of an axis-aligned unit cube, in any order, and a default margin
of at least 0.01, `createConvexHull` returns a hull whose margin is `min(0.5, defaultMargin)`,
so at least 0.01 and at most the default; the points added are `(p - center) * relativeScale +
center` with `center` the centre of the cube and `relativeScale = (1 - 2 * margin) / 1` on
each axis, and every one of them lies inside the bounding box of the cube, componentwise. -/
theorem createConvexHull_unit_cube (env : Env) (o : Vec3) (points : List Vec3)
    (hperm : points.Perm (unitCube o))
    (hdefault : (1 : ℚ) / 100 ≤ env.CONVEX_DISTANCE_MARGIN) :
    ∃ hull, createConvexHull env points = some hull
      ∧ IsBoundingBox points o ⟨o.x + 1, o.y + 1, o.z + 1⟩
      ∧ hull.margin = Min.min ((1 : ℚ) / 2) env.CONVEX_DISTANCE_MARGIN
      ∧ (1 : ℚ) / 100 ≤ hull.margin
      ∧ hull.margin ≤ env.CONVEX_DISTANCE_MARGIN
      ∧ hull.points
        = points.map
            (correctPoint ⟨o.x + 1 / 2, o.y + 1 / 2, o.z + 1 / 2⟩
              (Vec3.div
                (Vec3.sub ⟨1, 1, 1⟩ ⟨2 * hull.margin, 2 * hull.margin, 2 * hull.margin⟩)
                ⟨1, 1, 1⟩))
      ∧ ∀ q ∈ hull.points, InsideBox o ⟨o.x + 1, o.y + 1, o.z + 1⟩ q := by
  have hbox := isBoundingBox_perm points _ _ _ hperm (isBoundingBox_unitCube o)
  have hne : points ≠ [] := by
    intro h
    have hlen := hperm.length_eq
    rw [h] at hlen
    exact absurd hlen (by simp [unitCube])
  have hdiag : Vec3.sub ⟨o.x + 1, o.y + 1, o.z + 1⟩ o = ⟨1, 1, 1⟩ := by
    simp [Vec3.sub]
  have hmargin : chooseMargin env.CONVEX_DISTANCE_MARGIN ⟨1, 1, 1⟩
      = Min.min ((1 : ℚ) / 2) env.CONVEX_DISTANCE_MARGIN := by
    have hmax : Max.max ((1 : ℚ) / 2) (1 / 100) = 1 / 2 := max_eq_left (by norm_num)
    simp only [chooseMargin, MIN_MARGIN, min_self, mul_one, hmax]
  have hrun := createConvexHull_eq env points o ⟨o.x + 1, o.y + 1, o.z + 1⟩ hne hbox
  have hpos : (0 : ℚ) < Min.min ((1 : ℚ) / 2) env.CONVEX_DISTANCE_MARGIN :=
    lt_min (by norm_num) (lt_of_lt_of_le (by norm_num) hdefault)
  have hhalf : 2 * Min.min ((1 : ℚ) / 2) env.CONVEX_DISTANCE_MARGIN ≤ 1 := by
    linarith [min_le_left ((1 : ℚ) / 2) env.CONVEX_DISTANCE_MARGIN]
  have hin := correctPoint_inside points o ⟨o.x + 1, o.y + 1, o.z + 1⟩
    (Min.min ((1 : ℚ) / 2) env.CONVEX_DISTANCE_MARGIN) hne hbox hpos
    (by simpa using hhalf) (by simpa using hhalf) (by simpa using hhalf)
  rw [hdiag, hmargin, meanPoint_unitCube o points hperm] at hrun
  rw [hdiag, meanPoint_unitCube o points hperm] at hin
  refine ⟨_, hrun, hbox, rfl, le_min (by norm_num) hdefault, min_le_right _ _, rfl, ?_⟩
  intro q hq
  obtain ⟨p, hp, rfl⟩ := List.mem_map.mp hq
  exact hin p hp

/-- Witness of C30: the example box of two by four by one metres under Bullet's default margin
of 0.04: the margin is 0.04, every dimension is at least 0.08, and every corrected point lies
inside the box. -/
theorem createConvexHull_inside_box_witness :
    exampleBox ≠ [] ∧ IsBoundingBox exampleBox ⟨0, 0, 0⟩ ⟨2, 4, 1⟩
      ∧ ∃ hull, createConvexHull exampleEnv exampleBox = some hull
        ∧ hull.margin = 4 / 100
        ∧ (0 ≤ ((2 : ℚ) - 0 - 2 * hull.margin) / (2 - 0)
          ∧ ((2 : ℚ) - 0 - 2 * hull.margin) / (2 - 0) < 1)
        ∧ ∀ q ∈ hull.points, InsideBox ⟨0, 0, 0⟩ ⟨2, 4, 1⟩ q := by
  obtain ⟨hull, hrun, -, -, himp⟩ := createConvexHull_inside_box exampleEnv exampleBox
    ⟨0, 0, 0⟩ ⟨2, 4, 1⟩ (by decide) exampleBox_isBoundingBox (by norm_num [exampleEnv])
  have hcalc : (createConvexHull exampleEnv exampleBox).map ConvexHull.margin
      = some (4 / 100) := by
    norm_num [createConvexHull, exampleBox, accumulateBounds, chooseMargin, MIN_MARGIN,
      Vec3.sub, Vec3.max, Vec3.min, exampleEnv]
  rw [hrun] at hcalc
  simp only [Option.map_some', Option.some.injEq] at hcalc
  have hall := himp (by rw [hcalc]; norm_num) (by rw [hcalc]; norm_num)
    (by rw [hcalc]; norm_num)
  exact ⟨by decide, exampleBox_isBoundingBox, hull, hrun, hcalc, hall.2.1, hall.2.2.2.2⟩

/-- Witness of C21: the unit cube at the origin under Bullet's default margin of 0.04: the
margin is 0.04 and every corrected corner lies inside the cube. -/
theorem createConvexHull_unit_cube_witness :
    ∃ hull, createConvexHull exampleEnv (unitCube ⟨0, 0, 0⟩) = some hull
      ∧ hull.margin = 4 / 100
      ∧ (1 : ℚ) / 100 ≤ hull.margin
      ∧ hull.margin ≤ exampleEnv.CONVEX_DISTANCE_MARGIN
      ∧ ∀ q ∈ hull.points, InsideBox ⟨0, 0, 0⟩ ⟨1, 1, 1⟩ q := by
  obtain ⟨hull, hrun, -, hmargin, hlow, hhigh, -, hin⟩ := createConvexHull_unit_cube exampleEnv
    ⟨0, 0, 0⟩ (unitCube ⟨0, 0, 0⟩) (List.Perm.refl _) (by norm_num [exampleEnv])
  have hcorner : (⟨(0 : ℚ) + 1, (0 : ℚ) + 1, (0 : ℚ) + 1⟩ : Vec3) = ⟨1, 1, 1⟩ := by norm_num
  rw [hcorner] at hin
  refine ⟨hull, hrun, ?_, hlow, hhigh, hin⟩
  rw [hmargin]
  norm_num [exampleEnv]

end Hifi
